import Mathlib

/-!
# Dragons engine: per-frame control loop

A shallow embedding of `engines/dragons/dragons.cpp` (class `DragonsEngine`).

* Machine integers are `Nat` / `Int`; a wrap-around is written out where the
  source can reach one (`uint16` return values, the `uint32` idle counter).
* The engine's collaborators whose code is outside `dragons.cpp` (cursor,
  inventory, script and sequence interpreters, scene, resource tables) are
  the fields of `Env`: arbitrary functions on the world state.  They are
  assumed to return.
* A fatal `error(...)`, a failed `assert` and a dereferenced null pointer
  end a run with an `Abort` value.
-/

namespace Dragons

/-! ## Flag words -/

/-- The C expression `x & ~m` on unsigned words of at most 32 bits. -/
def andNot32 (x m : Nat) : Nat := x &&& (0xFFFFFFFF ^^^ m)

/-- The C truth value of `x & m`. -/
def anyBit (x m : Nat) : Bool := x &&& m != 0

def ENGINE_FLAG_4 : Nat := 0x4
def ENGINE_FLAG_8 : Nat := 0x8
def ENGINE_FLAG_20 : Nat := 0x20
def ENGINE_FLAG_40 : Nat := 0x40
def ENGINE_FLAG_80 : Nat := 0x80
def ENGINE_FLAG_100 : Nat := 0x100
def ENGINE_FLAG_400 : Nat := 0x400
def ENGINE_FLAG_200000 : Nat := 0x200000
def ENGINE_FLAG_20000000 : Nat := 0x20000000
def ENGINE_FLAG_80000000 : Nat := 0x80000000
def ENGINE_UNK1_FLAG_2 : Nat := 0x2
def ENGINE_UNK1_FLAG_8 : Nat := 0x8

def ACTOR_FLAG_1 : Nat := 0x1
def ACTOR_FLAG_4 : Nat := 0x4
def ACTOR_FLAG_8 : Nat := 0x8
def ACTOR_FLAG_10 : Nat := 0x10
def ACTOR_FLAG_40 : Nat := 0x40
def ACTOR_FLAG_80 : Nat := 0x80
def ACTOR_FLAG_100 : Nat := 0x100
def ACTOR_FLAG_200 : Nat := 0x200
def ACTOR_FLAG_400 : Nat := 0x400
def ACTOR_FLAG_800 : Nat := 0x800
def ACTOR_FLAG_1000 : Nat := 0x1000
def ACTOR_FLAG_2000 : Nat := 0x2000

def INI_FLAG_10 : Nat := 0x10

def DRAGONS_TICK_INTERVAL : Nat := 17
def DRAGONS_ENGINE_NUM_ACTORS : Nat := 64

/-! ## Data model -/

/-- An image region of the IMG table (`dragonimg.h`). -/
structure IMG where
  x : Int
  y : Int
  w : Int
  h : Int
  field_a : Int
  field_c : Int

/-- A slot of the actor pool (`actor.h`), with the fields the engine touches.
`_actorResource_id` is `_actorResource->_id`, `none` for a null
`_actorResource`. -/
structure Actor where
  _actorID : Nat
  _actorResource_id : Option Int
  resourceID : Int
  field_e : Int
  sequenceTimer : Nat
  _sequenceID : Int
  _sequenceID2 : Int
  priorityLayer : Int
  flags : Nat
  x_pos : Int
  y_pos : Int
  field_7a : Int
  field_7c : Int
  _seqCodeIp : Int

/-- An object-instance record (`dragonini.h`).  `actor` is the pool index of
the actor the record points to, `none` for a null pointer. -/
structure DragonINI where
  field_2 : Int
  actorResourceId : Int
  field_8 : Int
  field_e : Int
  field_10 : Int
  field_1a_flags_maybe : Nat
  field_1c : Int
  field_1e : Int
  field_20_actor_field_14 : Int
  sceneId : Int
  actor : Option Nat

/-- The fields of `Inventory` the engine reads and writes directly. -/
structure Inventory where
  _type : Nat
  _old_showing_value : Nat
  _sequenceId : Nat

/-- The public fields of `Cursor`. -/
structure Cursor where
  _sequenceID : Int
  iniItemInHand : Nat
  _iniUnderCursor : Nat
  data_80072890 : Nat
  data_800728b0_cursor_seqID : Int
  data_8007283c : Int
  _x : Int
  _y : Int
  _cursorActivationSeqOffset : Nat

/-- The public fields of `ScriptOpcodes`. -/
structure ScriptOpcodes where
  _data_800728c0 : Nat
  _data_80071f5c : Int

/-- The mutable world the engine and its collaborators share.  `flicker` is
the table index `getFlickerRecord()` points to (`none`: a null pointer);
`records` is the INI table (`totalRecords()` entries, a `uint16` count);
`hidden` stands for the private state of the collaborators. -/
structure World where
  _flags : Nat
  _unkFlags1 : Nat
  bit_flags_8006fbd8 : Nat
  _counter : Nat
  _sceneId1 : Nat
  _leftMouseButtonUp : Bool
  _rightMouseButtonUp : Bool
  _iKeyUp : Bool
  unkArray_uint16 : List Nat
  run_func_ptr_unk_countdown_timer : Nat
  _nextUpdatetime : Nat
  data_8006a3a0_flag : Nat
  sceneId : Nat
  camera_x : Int
  camera_y : Int
  records : List DragonINI
  flicker : Option Nat
  actors : Nat → Actor
  vars : Nat → Nat
  inventory : Inventory
  cursor : Cursor
  scriptOpcodes : ScriptOpcodes
  hidden : Nat

/-- A script execution context (`scriptopcodes.h`): byte addresses, `none`
for `NULL`. -/
structure ScriptOpCall where
  _code : Option Nat
  _codeEnd : Option Nat
  _result : Nat
  deriving DecidableEq, Repr

/-- A sequence execution context (`sequenceopcodes.h`). -/
structure OpCall where
  _op : Nat
  _code : Int
  _deltaOfs : Int
  _result : Int
  deriving DecidableEq, Repr

/-- The input events `updateEvents` tells apart. -/
inductive Event where
  | EVENT_QUIT
  | EVENT_MOUSEMOVE (x y : Int)
  | EVENT_LBUTTONUP
  | EVENT_RBUTTONUP
  | EVENT_KEYUP (keycode : Nat)
  | other
  deriving DecidableEq, Repr

def KEYCODE_i : Nat := 105

/-- Ways a run ends without returning. -/
inductive Abort where
  | assertFailed
  | nullPointer
  | outOfBounds
  | outOfFuel
  | actorIdMismatch
  | FUN_8003130c
  | FUN_80038890
  | FUN_80038994
  | FUN_8002931c
  deriving DecidableEq, Repr

/-- The calls the engine makes, as they are recorded in a machine's log:
the calls into collaborators, with their arguments, and the entries into
the engine's own interaction functions. -/
inductive Call where
  | cursor_init
  | cursor_update
  | cursor_updateVisibility
  | cursor_updateINIUnderCursor
  | cursor_updatePosition (x y : Int)
  | cursor_selectPreviousCursor
  | cursor_executeScript (scriptOpCall : ScriptOpCall) (unkFlag : Nat)
  | inventory_init
  | inventory_updateVisibility
  | inventory_openInventory
  | inventory_closeInventory
  | inventory_setActorSequenceId (sequenceId : Nat)
  | inventory_setPriority (priority : Nat)
  | actor_updateSequence (actor : Nat) (sequenceId : Int)
  | actor_resetSequenceIP (actor : Nat)
  | actor_pathfinding_maybe (actor : Nat) (x y : Int) (unk : Int)
  | actor_walkPath (actor : Nat)
  | sequenceOpcodes_execOpcode (actor : Nat) (opCall : OpCall)
  | scriptOpcodes_runScript (scriptOpCall : ScriptOpCall)
  | scriptOpcodes_runScript3 (record : Nat) (scriptOpCall : ScriptOpCall)
  | scriptOpcodes_FUN_800297d8 (scriptOpCall : ScriptOpCall)
  | scene_draw
  | scene_loadScene (sceneId cameraPointId : Nat)
  | screen_updateScreen
  | system_delayMillis (ms : Nat)
  | eventMan_pollEvent
  | quitGame
  | works_with_obd_data_1
  | walkFlickerToObject
  | runINIScripts
  | FUN_8002931c
  deriving DecidableEq, Repr

/-- The collaborators of `DragonsEngine`: resource tables (read-only) and the
methods of the classes whose code is outside `dragons.cpp`. -/
structure Env where
  /-- The call `_dragonIMG->getIMG`. -/
  getIMG : Int → IMG
  /-- The call `_dragonOBD->getFromOpt`: the address of the buffer. -/
  getFromOpt : Int → Nat
  /-- The call `_dragonOBD->getFromSpt`: the address of the buffer. -/
  getFromSpt : Int → Nat
  /-- The byte at an address of the resource data. -/
  mem : Nat → Nat
  cursor_init : World → World
  cursor_update : World → World
  cursor_updateVisibility : World → World
  cursor_updateINIUnderCursor : World → Int × World
  cursor_updatePosition : Int → Int → World → World
  cursor_selectPreviousCursor : World → World
  cursor_executeScript : ScriptOpCall → Nat → World → Nat × ScriptOpCall × World
  inventory_isVisible : World → Bool
  inventory_isActorSet : World → Bool
  inventory_init : World → World
  inventory_updateVisibility : World → World
  inventory_openInventory : World → World
  inventory_closeInventory : World → World
  inventory_setActorSequenceId : Nat → World → World
  inventory_setPriority : Nat → World → World
  actor_updateSequence : Nat → Int → World → World
  actor_resetSequenceIP : Nat → World → World
  actor_pathfinding_maybe : Nat → Int → Int → Int → World → World
  actor_walkPath : Nat → World → World
  sequenceOpcodes_execOpcode : Nat → OpCall → World → OpCall × World
  scriptOpcodes_runScript : ScriptOpCall → World → ScriptOpCall × World
  scriptOpcodes_runScript3 : ScriptOpCall → World → ScriptOpCall × World
  scriptOpcodes_FUN_800297d8 : ScriptOpCall → World → Nat × ScriptOpCall × World
  scene_draw : World → World
  scene_loadScene : Nat → Nat → World → World
  scene_getPriorityAtPosition : Int → Int → World → Int
  scene_contains : Nat → World → Bool
  screen_updateScreen : World → World
  system_getMillis : World → Nat
  system_delayMillis : Nat → World → World
  eventMan_pollEvent : World → Option Event × World
  quitGame : World → World
  shouldQuit : World → Bool

/-- The engine state with the log of the calls made so far. -/
structure Machine where
  w : World
  log : List Call

/-- Where and why a run ended without returning. -/
structure Halt where
  why : Abort
  state : Machine

/-- A computation of the engine: it returns, or it ends in a `Halt`. -/
abbrev Run (α : Type) : Type := Except Halt α

namespace Machine

/-- A call into a collaborator: logged, then applied to the world. -/
def ext (m : Machine) (c : Call) (f : World → World) : Machine :=
  { w := f m.w, log := m.log ++ [c] }

/-- An entry in the log. -/
def enter (m : Machine) (c : Call) : Machine := { m with log := m.log ++ [c] }

/-- An assignment by the engine itself. -/
def upd (m : Machine) (f : World → World) : Machine := { m with w := f m.w }

/-- The end of a run at this state. -/
def halt {α : Type} (m : Machine) (why : Abort) : Run α := .error { why := why, state := m }

end Machine

/-- Source: `READ_LE_UINT16`. -/
def READ_LE_UINT16 (env : Env) (p : Nat) : Nat :=
  env.mem p % 256 + 256 * (env.mem (p + 1) % 256)

/-- Source: `READ_LE_UINT32`. -/
def READ_LE_UINT32 (env : Env) (p : Nat) : Nat :=
  env.mem p % 256 + 256 * (env.mem (p + 1) % 256) + 65536 * (env.mem (p + 2) % 256)
    + 16777216 * (env.mem (p + 3) % 256)

/-- The conversion of an integer to `int16`. -/
def toInt16 (v : Int) : Int := (v + 32768) % 65536 - 32768

/-- The conversion of an integer to `uint16`. -/
def toUint16 (v : Int) : Int := v % 65536

namespace World

/-- Source: `DragonsEngine::getCurrentSceneId`. -/
def getCurrentSceneId (w : World) : Nat := w.sceneId

/-- Source: `DragonsEngine::getINI`. -/
def getINI (w : World) (index : Nat) : Option DragonINI := w.records[index]?

/-- The record `getFlickerRecord()` returns. -/
def getFlickerRecord (w : World) : Option DragonINI :=
  w.flicker.bind fun i => w.records[i]?

/-- Source: `DragonsEngine::isFlagSet`. -/
def isFlagSet (w : World) (flag : Nat) : Bool := anyBit w._flags flag

/-- Source: `DragonsEngine::setFlags`. -/
def setFlags (w : World) (flags : Nat) : World := { w with _flags := w._flags ||| flags }

/-- Source: `DragonsEngine::clearFlags`. -/
def clearFlags (w : World) (flags : Nat) : World := { w with _flags := andNot32 w._flags flags }

/-- Source: `DragonsEngine::setUnkFlags`. -/
def setUnkFlags (w : World) (flags : Nat) : World := { w with _unkFlags1 := w._unkFlags1 ||| flags }

/-- Source: `DragonsEngine::clearUnkFlags`. -/
def clearUnkFlags (w : World) (flags : Nat) : World :=
  { w with _unkFlags1 := andNot32 w._unkFlags1 flags }

/-- Source: `DragonsEngine::isUnkFlagSet`. -/
def isUnkFlagSet (w : World) (flag : Nat) : Bool := anyBit w._unkFlags1 flag

/-- Source: `DragonsEngine::isInputEnabled`. -/
def isInputEnabled (w : World) : Bool :=
  !w.isFlagSet ENGINE_FLAG_20000000 && !w.isFlagSet ENGINE_FLAG_400

/-- Source: `DragonsEngine::checkForInventoryButtonRelease`. -/
def checkForInventoryButtonRelease (w : World) : Bool := w._iKeyUp

/-- Source: `DragonsEngine::checkForActionButtonRelease`. -/
def checkForActionButtonRelease (w : World) : Bool := w._leftMouseButtonUp

/-- Source: `DragonsEngine::getVar`. -/
def getVar (w : World) (offset : Nat) : Nat := w.vars offset

/-- Modelled from the spec: `DragonVAR::setVar` is not in the source; it
writes the variable `getVar` reads (§3, configuration variables). -/
def setVar (w : World) (offset value : Nat) : World :=
  { w with vars := Function.update w.vars offset value }

/-- Modelled from the spec: `Scene::setSceneId` is not in the source; it
writes the scene id `getCurrentSceneId` reads. -/
def setSceneId (w : World) (sceneId : Nat) : World := { w with sceneId := sceneId }

/-- A write through a record pointer `getINI(i)`. -/
def modifyINI (w : World) (i : Nat) (f : DragonINI → DragonINI) : World :=
  { w with records := w.records.modify f i }

/-- A write through an actor pointer. -/
def modifyActor (w : World) (a : Nat) (f : Actor → Actor) : World :=
  { w with actors := Function.update w.actors a (f (w.actors a)) }

end World

namespace Actor

/-- Modelled from the spec: `Actor::isFlagSet` is not in the source; the
per-actor flag word is a bit set (§3). -/
def isFlagSet (a : Actor) (flag : Nat) : Bool := anyBit a.flags flag

/-- Modelled from the spec: `Actor::isFlagClear` is not in the source. -/
def isFlagClear (a : Actor) (flag : Nat) : Bool := !anyBit a.flags flag

/-- Modelled from the spec: `Actor::setFlag` is not in the source; flags are
combined by bitwise OR (§3). -/
def setFlag (a : Actor) (flag : Nat) : Actor := { a with flags := a.flags ||| flag }

/-- Modelled from the spec: `Actor::clearFlag` is not in the source; flags
are removed by bitwise AND-NOT (§3). -/
def clearFlag (a : Actor) (flag : Nat) : Actor := { a with flags := andNot32 a.flags flag }

end Actor

/-! ## Hover resolution -/

/-- The region test of `ipt_img_file_related`, in the source's order. -/
def tileInIMG (img : IMG) (tileX tileY : Int) : Bool :=
  decide (img.x ≤ tileX) &&
    ((decide (tileX ≤ img.x + img.w) && decide (img.y ≤ tileY)) && decide (tileY ≤ img.y + img.h))

/-- The `for` loop of `ipt_img_file_related` from table index `i` on; the
result is the `uint16` the function returns. -/
def ipt_scan (env : Env) (sceneId : Nat) (tileX tileY : Int) : List DragonINI → Nat → Nat
  | [], _ => 0
  | ini :: rest, i =>
    if ini.sceneId = (sceneId : Int) ∧ ini.field_1a_flags_maybe = 0 then
      if tileInIMG (env.getIMG ini.field_2) tileX tileY then (i + 1) % 65536
      else ipt_scan env sceneId tileX tileY rest (i + 1)
    else ipt_scan env sceneId tileX tileY rest (i + 1)

/-- Source: `DragonsEngine::ipt_img_file_related`. -/
def ipt_img_file_related (env : Env) (w : World) : Except Abort Nat :=
  match w.getFlickerRecord with
  | none => .error .assertFailed
  | some flicker =>
    match flicker.actor with
    | none => .error .nullPointer
    | some a =>
      let tileX := Int.tdiv (w.actors a).x_pos 32
      let tileY := Int.tdiv (w.actors a).y_pos 8
      .ok (ipt_scan env w.getCurrentSceneId tileX tileY w.records 0)

/-- The region test of `getIniFromImg`, in the source's order. -/
def tileInIMG_getIni (img : IMG) (x y : Int) : Bool :=
  decide (x ≥ img.x) && decide (img.x + img.w ≥ x) && decide (y ≥ img.y)
    && decide (img.h + img.y ≥ y)

/-- The `for` loop of `getIniFromImg` from the `uint16` index `i` on; the
first argument bounds the number of iterations. -/
def getIniFromImg_loop (env : Env) (w : World) (currentSceneId : Nat) (x y : Int) :
    Nat → Nat → Except Abort Nat
  | 0, _ => .error .outOfFuel
  | fuel + 1, i =>
    if i < w.records.length then
      match w.getINI i with
      | none => .error .nullPointer
      | some ini =>
        if ini.sceneId = (currentSceneId : Int) ∧ ini.field_1a_flags_maybe = 0 then
          if tileInIMG_getIni (env.getIMG ini.field_2) x y then .ok ((i + 1) % 65536)
          else getIniFromImg_loop env w currentSceneId x y fuel ((i + 1) % 65536)
        else getIniFromImg_loop env w currentSceneId x y fuel ((i + 1) % 65536)
    else .ok 0

/-- Source: `DragonsEngine::getIniFromImg`. -/
def getIniFromImg (env : Env) (w : World) : Except Abort Nat :=
  match w.getFlickerRecord with
  | none => .error .nullPointer
  | some flicker =>
    match flicker.actor with
    | none => .error .nullPointer
    | some a =>
      getIniFromImg_loop env w w.getCurrentSceneId (Int.tdiv (w.actors a).x_pos 32)
        (Int.tdiv (w.actors a).y_pos 8) 65537 0

/-! ## Countdown pass -/

/-- The body of the countdown loop of `engineFlag0x20UpdateFunction` for one
record. -/
def countdownRecord (currentSceneId : Nat) (ini : DragonINI) : DragonINI :=
  if ini.field_10 ≥ 0 ∧ ini.sceneId = (currentSceneId : Int) then
    let ini := { ini with field_10 := ini.field_10 - 1 }
    if ini.field_10 < 0 then
      { ini with field_1a_flags_maybe := ini.field_1a_flags_maybe ||| INI_FLAG_10 }
    else ini
  else ini

/-- The flicker part of `engineFlag0x20UpdateFunction` (from the
`flickerINI == NULL` test to label 0x80027db8). -/
def engineFlag0x20_flicker (env : Env) (currentSceneId : Nat) (m : Machine) : Run Machine :=
  match m.w.getFlickerRecord with
  | none => .ok m
  | some flickerINI =>
    if flickerINI.sceneId = (currentSceneId : Int) then
      match flickerINI.actor with
      | none => m.halt .nullPointer
      | some a =>
        if (m.w.actors a).isFlagSet ACTOR_FLAG_10 then
          if env.inventory_isActorSet m.w then
            let m := m.ext (.inventory_setActorSequenceId 8) (env.inventory_setActorSequenceId 8)
            .ok (m.ext (.inventory_setPriority 0) (env.inventory_setPriority 0))
          else .ok m
        else
          let m :=
            if m.w.bit_flags_8006fbd8 &&& 2 = 0 then
              m.upd fun w => { w with bit_flags_8006fbd8 := w.bit_flags_8006fbd8 ||| 2 }
            else m
          let actor := m.w.actors a
          if actor.isFlagClear ACTOR_FLAG_2000 && actor.isFlagSet ACTOR_FLAG_4
              && decide (actor._sequenceID2 ≠ -1)
              && decide (actor._sequenceID2 ≠ actor._sequenceID) then
            .ok (m.ext (.actor_updateSequence a actor._sequenceID2)
              (env.actor_updateSequence a actor._sequenceID2))
          else .ok m
    else .ok (m.ext (.inventory_setPriority 0) (env.inventory_setPriority 0))

/-- The end of `engineFlag0x20UpdateFunction`: the countdown loop (label
0x80027db8) and the decrement of `run_func_ptr_unk_countdown_timer`. -/
def engineFlag0x20_countdown (env : Env) (currentSceneId : Nat) (m : Machine) : Machine :=
  let m :=
    if !env.inventory_isVisible m.w then
      m.upd fun w => { w with records := w.records.map (countdownRecord currentSceneId) }
    else m
  if m.w.run_func_ptr_unk_countdown_timer ≠ 0 then
    m.upd fun w =>
      { w with run_func_ptr_unk_countdown_timer := w.run_func_ptr_unk_countdown_timer - 1 }
  else m

/-- The start of `engineFlag0x20UpdateFunction`: the cursor update. -/
def engineFlag0x20_cursor (env : Env) (m : Machine) : Machine :=
  if m.w._flags &&& (ENGINE_FLAG_80000000 ||| ENGINE_FLAG_8) = 8 then
    m.ext .cursor_update env.cursor_update
  else m

/-- Source: `DragonsEngine::engineFlag0x20UpdateFunction`. -/
def engineFlag0x20UpdateFunction (env : Env) (m : Machine) : Run Machine :=
  if anyBit m.w._flags ENGINE_FLAG_20 then
    Except.bind (engineFlag0x20_flicker env (engineFlag0x20_cursor env m).w.getCurrentSceneId
        (engineFlag0x20_cursor env m)) fun m1 =>
      .ok (engineFlag0x20_countdown env (engineFlag0x20_cursor env m).w.getCurrentSceneId m1)
  else .ok m

/-! ## Script dispatch -/

/-- The execution context the call sites build for the buffer at `data`:
the cursor 8 bytes in, the end bound at the stored length after it. -/
def scriptOpCallAt (env : Env) (data : Nat) : ScriptOpCall :=
  { _code := some (data + 8), _codeEnd := some (data + 8 + READ_LE_UINT32 env data), _result := 0 }

/-- The body of the loop of `runINIScripts` for record `i`. -/
def runINIScripts_record (env : Env) (i : Nat) (ini : DragonINI) (m : Machine) : Machine :=
  if anyBit ini.field_1a_flags_maybe INI_FLAG_10 then
    let m := m.upd fun w => w.modifyINI i fun r =>
      { r with field_1a_flags_maybe := andNot32 r.field_1a_flags_maybe INI_FLAG_10 }
    let data := env.getFromOpt i
    let scriptOpCall := scriptOpCallAt env data
    let currentFlags := m.w._flags
    let m := m.upd fun w => w.clearFlags ENGINE_FLAG_8
    let m := m.ext (.scriptOpcodes_runScript3 i scriptOpCall)
      fun w => (env.scriptOpcodes_runScript3 scriptOpCall w).2
    m.upd fun w => { w with _flags := currentFlags }
  else m

/-- The loop of `runINIScripts` from index `i` on.  The first argument
bounds the number of iterations: a `uint16` index below a `uint16` count
takes fewer than 65536 values. -/
def runINIScripts_loop (env : Env) : Nat → Nat → Machine → Machine
  | 0, _, m => m
  | fuel + 1, i, m =>
    if i < m.w.records.length then
      match m.w.getINI i with
      | none => m
      | some ini => runINIScripts_loop env fuel (i + 1) (runINIScripts_record env i ini m)
    else m

/-- Source: `DragonsEngine::runINIScripts`. -/
def runINIScripts (env : Env) (m : Machine) : Machine :=
  runINIScripts_loop env 65536 0 (m.enter .runINIScripts)

/-! ## Object-interaction resolution -/

/-- The statements of `FUN_8002931c` before its final `error`. -/
def FUN_8002931c_body (m : Machine) : Machine :=
  let m := m.enter .FUN_8002931c
  match m.w.getFlickerRecord with
  | none => m
  | some flicker =>
    match flicker.actor with
    | none => m
    | some a =>
      let m := m.upd fun w => w.modifyActor a fun x => x.clearFlag ACTOR_FLAG_10
      if m.w.getCurrentSceneId ≠ 0x2e ∨ (m.w.actors a)._actorResource_id = none
          ∨ (m.w.actors a)._actorResource_id ≠ some 0x91 then
        m.upd fun w => w.modifyActor a fun x => x.setFlag ACTOR_FLAG_4
      else m

/-- Source: `DragonsEngine::FUN_8002931c`.  It ends in the fatal
`error("FUN_8002931c")`; the state of the halt is the state at that call. -/
def FUN_8002931c (m : Machine) : Run Machine := (FUN_8002931c_body m).halt .FUN_8002931c

/-- The body a probe left at its cursor: 8 bytes past the cursor, as long as
the 16-bit field 6 bytes past the cursor says. -/
def probedBody (env : Env) (probe : ScriptOpCall) (local_58 : ScriptOpCall) : ScriptOpCall :=
  { local_58 with
    _code := probe._code.map fun c => c + 8
    _codeEnd := probe._code.map fun c => c + 8 + READ_LE_UINT16 env (c + 6) }

/-- The last statement of `works_with_obd_data_1`:
`_flags |= uVar1 & ENGINE_FLAG_8`. -/
def works_restoreFlag8 (uVar1 : Nat) (m : Machine) : Machine :=
  m.upd fun w => { w with _flags := w._flags ||| (uVar1 &&& ENGINE_FLAG_8) }

/-- The look probe of `works_with_obd_data_1`: for the queued cursor action
3, `FUN_800297d8` runs on the whole script and its result is or-ed into
`uVar4`. -/
def works_lookProbe (env : Env) (uVar4 pvVar7 pvVar8 : Nat) (local_58 : ScriptOpCall)
    (m : Machine) : Nat × Machine :=
  if m.w.cursor.data_800728b0_cursor_seqID = 3 then
    let local_58 := { local_58 with _code := some pvVar7, _codeEnd := some pvVar8 }
    let out := env.scriptOpcodes_FUN_800297d8 local_58 m.w
    (uVar4 ||| out.1, m.ext (.scriptOpcodes_FUN_800297d8 local_58) fun _ => out.2.2)
  else (uVar4, m)

/-- The end of `works_with_obd_data_1`, from the test of `local_58._result`. -/
def works_with_obd_data_1_finish (env : Env) (uVar1 uVar4 uVar6 : Nat) (pvVar7 pvVar8 : Nat)
    (local_58 : ScriptOpCall) (m : Machine) : Run Machine :=
  if local_58._result &&& 1 = 0 then
    if (works_lookProbe env uVar4 pvVar7 pvVar8 local_58 m).1 &&& 0xffff = 0
        ∧ uVar6 &&& 0xfffd = 0 then
      Except.bind (FUN_8002931c (works_lookProbe env uVar4 pvVar7 pvVar8 local_58 m).2) fun m => .ok (works_restoreFlag8 uVar1 m)
    else .ok (works_restoreFlag8 uVar1 (works_lookProbe env uVar4 pvVar7 pvVar8 local_58 m).2)
  else
    .ok (works_restoreFlag8 uVar1 (m.upd fun w =>
      { w with scriptOpcodes :=
          { w.scriptOpcodes with _data_80071f5c := w.scriptOpcodes._data_80071f5c - 1 } }))

/-- The first probe of `works_with_obd_data_1`: the script of the object
`_cursor->data_80072890`, run by `executeScript` with flag 1.  The result is
`uVar4`, the context `local_48` as the probe left it, and the machine. -/
def works_firstProbe (env : Env) (m : Machine) : Nat × ScriptOpCall × Machine :=
  let obd := env.getFromOpt ((m.w.cursor.data_80072890 : Int) - 1)
  let local_48 := scriptOpCallAt env obd
  let out := env.cursor_executeScript local_48 1 m.w
  (out.1, out.2.1, m.ext (.cursor_executeScript local_48 1) fun _ => out.2.2)

/-- The second probe of `works_with_obd_data_1`, run when the queued cursor
action exceeds 4.  The result is `uVar6`, the context `local_38` and the
machine. -/
def works_secondProbe (env : Env) (uVar2 : Nat) (m : Machine) : Nat × ScriptOpCall × Machine :=
  if m.w.cursor.data_800728b0_cursor_seqID > 4 then
    let m := m.upd fun w =>
      { w with scriptOpcodes :=
          { w.scriptOpcodes with _data_80071f5c := 0, _data_800728c0 := w.cursor.data_80072890 } }
    let obd := env.getFromOpt ((m.w.scriptOpcodes._data_800728c0 : Int) - 1)
    let local_38 := scriptOpCallAt env obd
    let out := env.cursor_executeScript local_38 1 m.w
    let m := m.ext (.cursor_executeScript local_38 1) fun _ => out.2.2
    let m := m.upd fun w =>
      { w with scriptOpcodes := { w.scriptOpcodes with _data_800728c0 := uVar2 } }
    (out.1, out.2.1, m)
  else (0, { _code := none, _codeEnd := none, _result := 0 }, m)

/-- The choice of the body to commit in `works_with_obd_data_1`: the
context `local_58` after the two tests on `uVar6` and `uVar4`. -/
def works_selectBody (env : Env) (uVar4 uVar6 : Nat) (local_48 local_38 : ScriptOpCall) :
    ScriptOpCall :=
  let local_58 : ScriptOpCall := { _code := none, _codeEnd := none, _result := 0 }
  let local_58 := if uVar6 &&& 0xffff ≠ 0 then probedBody env local_38 local_58 else local_58
  if uVar4 &&& 0xffff ≠ 0 ∧ ((uVar4 &&& 2 = 0 ∨ uVar6 &&& 2 ≠ 0) ∨ uVar6 &&& 0xffff = 0) then
    probedBody env local_48 local_58
  else local_58

/-- The commit of `works_with_obd_data_1`: a selected body is run by
`runScript` with `ENGINE_FLAG_8` cleared. -/
def works_commit (env : Env) (local_58 : ScriptOpCall) (m : Machine) : ScriptOpCall × Machine :=
  if local_58._code ≠ none ∧ local_58._codeEnd ≠ none then
    let m := m.upd fun w => w.clearFlags ENGINE_FLAG_8
    let out := env.scriptOpcodes_runScript local_58 m.w
    (out.1, m.ext (.scriptOpcodes_runScript local_58) fun _ => out.2)
  else (local_58, m)

/-- The steps of `works_with_obd_data_1` after its `assert`: the probes,
the choice of the body, the commit and the end. -/
def works_resolve (env : Env) (uVar1 uVar2 : Nat) (m : Machine) : Run Machine :=
  let obd := env.getFromOpt ((m.w.cursor.data_80072890 : Int) - 1)
  let pvVar7 := obd + 8
  let pvVar8 := obd + 8 + READ_LE_UINT32 env obd
  let p1 := works_firstProbe env m
  let p2 := works_secondProbe env uVar2 p1.2.2
  let local_58 := works_selectBody env p1.1 p2.1 p1.2.1 p2.2.1
  let ran := works_commit env local_58 p2.2.2
  works_with_obd_data_1_finish env uVar1 (p1.1 &&& 0xfffd) p2.1 pvVar7 pvVar8 ran.1 ran.2

/-- The first statements of `works_with_obd_data_1`: the state its `assert`
is evaluated in. -/
def works_enter (m : Machine) : Machine :=
  (m.enter .works_with_obd_data_1).upd fun w =>
    { w with scriptOpcodes := { w.scriptOpcodes with _data_80071f5c := 0 } }

/-- Source: `DragonsEngine::works_with_obd_data_1`. -/
def works_with_obd_data_1 (env : Env) (m : Machine) : Run Machine :=
  let uVar2 := m.w.scriptOpcodes._data_800728c0
  let uVar1 := m.w._flags
  if ¬ (works_enter m).w.cursor.data_80072890 > 0 then (works_enter m).halt .assertFailed
  else works_resolve env uVar1 uVar2 (works_enter m)

/-! ## Walking to the target -/

/-- The common end of the walk branch of `walkFlickerToObject`: start the
path to the target and set the latch to 1. -/
def walkFlickerToObject_walk (env : Env) (flickerINI targetINI : DragonINI)
    (targetX targetY : Int) (m : Machine) : Run Machine :=
  match flickerINI.actor with
  | none => m.halt .nullPointer
  | some a =>
    let m := m.upd fun w => w.modifyActor a fun x => { x with field_7c := 0x10000 }
    let m :=
      if flickerINI.field_20_actor_field_14 = -1 then
        m.upd fun w => w.modifyActor a fun x => x.setFlag ACTOR_FLAG_800
      else m
    let x := toInt16 (targetX + targetINI.field_1c)
    let y := toInt16 (targetY + targetINI.field_1e)
    let m := m.ext (.actor_pathfinding_maybe a x y 0) (env.actor_pathfinding_maybe a x y 0)
    .ok (m.upd fun w => { w with bit_flags_8006fbd8 := 1 })

/-- An assignment to `bit_flags_8006fbd8`. -/
def Machine.setLatch (m : Machine) (v : Nat) : Machine :=
  m.upd fun w => { w with bit_flags_8006fbd8 := v }

/-- The walk branch of `walkFlickerToObject`: the target is an object to
walk to (its OBD flag 8 clear, Closed mode, `ENGINE_FLAG_200000` clear). -/
def walkFlickerToObject_target (env : Env) (flickerINI : DragonINI) (m : Machine) : Run Machine :=
  match m.w.getINI (m.w.cursor.data_80072890 - 1) with
  | none => m.halt .nullPointer
  | some targetINI =>
    if targetINI.field_1a_flags_maybe &&& 1 = 0 then
      if targetINI.actorResourceId = -1 then .ok m
      else
        walkFlickerToObject_walk env flickerINI targetINI
          (toUint16 (env.getIMG targetINI.field_2).field_a)
          (toUint16 (env.getIMG targetINI.field_2).field_c) m
    else
      match targetINI.actor with
      | none => m.halt .nullPointer
      | some ta =>
        walkFlickerToObject_walk env flickerINI targetINI
          (toUint16 (m.w.actors ta).x_pos) (toUint16 (m.w.actors ta).y_pos) m

/-- The branch of `walkFlickerToObject` for a target that is not walked to:
the flicker actor takes the target's sequence and the latch is set to 3. -/
def walkFlickerToObject_arrive (fi : Nat) (flickerINI : DragonINI) (m : Machine) : Run Machine :=
  match flickerINI.actor with
  | none => .ok (m.setLatch 3)
  | some a =>
    match m.w.getINI (m.w.cursor.data_80072890 - 1) with
    | none =>
      ((m.upd fun w => w.modifyActor a fun x => x.clearFlag ACTOR_FLAG_10).upd fun w =>
        w.modifyActor a fun x => x.setFlag ACTOR_FLAG_4).halt .nullPointer
    | some targetINI =>
      let m := m.upd fun w => w.modifyActor a fun x => x.clearFlag ACTOR_FLAG_10
      let m := m.upd fun w => w.modifyActor a fun x => x.setFlag ACTOR_FLAG_4
      let m := m.upd fun w => w.modifyINI fi fun r =>
        { r with field_20_actor_field_14 := targetINI.field_e }
      let m := m.upd fun w => w.modifyActor a fun x =>
        { x with _sequenceID2 := targetINI.field_e }
      .ok (m.setLatch 3)

/-- The branch of `walkFlickerToObject` without a target: the flicker actor
walks to the cursor position and the latch is set to 0. -/
def walkFlickerToObject_free (env : Env) (flickerINI : DragonINI) (m : Machine) : Run Machine :=
  if m.w.inventory._type == 0 && !m.w.isFlagSet ENGINE_FLAG_200000 then
    match flickerINI.actor with
    | none => m.halt .nullPointer
    | some a =>
      let m := m.upd fun w => w.modifyActor a fun x => { x with field_7c := 0x10000 }
      let x := toInt16 (toUint16 m.w.cursor._x + m.w.camera_x)
      let y := toInt16 (toUint16 m.w.cursor._y + m.w.camera_y)
      let m := m.ext (.actor_pathfinding_maybe a x y 0) (env.actor_pathfinding_maybe a x y 0)
      .ok (m.setLatch 0)
  else .ok (m.setLatch 0)

/-- The body of `walkFlickerToObject` for the flicker record `flickerINI`
at table index `fi`. -/
def walkFlickerToObject_body (env : Env) (fi : Nat) (flickerINI : DragonINI) (m : Machine) :
    Run Machine :=
  if flickerINI.sceneId = (m.w.getCurrentSceneId : Int) then
    if m.w.cursor.data_80072890 ≠ 0 then
      if !anyBit (READ_LE_UINT16 env
            (env.getFromOpt ((m.w.cursor.data_80072890 : Int) - 1) + 4)) 8
          && m.w.inventory._type == 0 && !m.w.isFlagSet ENGINE_FLAG_200000 then
        walkFlickerToObject_target env flickerINI m
      else if m.w.isFlagSet ENGINE_FLAG_200000 then .ok (m.setLatch 3)
      else walkFlickerToObject_arrive fi flickerINI m
    else walkFlickerToObject_free env flickerINI m
  else
    if m.w.cursor.data_80072890 ≠ 0 then .ok (m.setLatch 3)
    else .ok (m.setLatch 0)

/-- Source: `DragonsEngine::walkFlickerToObject`. -/
def walkFlickerToObject (env : Env) (m : Machine) : Run Machine :=
  match m.w.flicker, m.w.getFlickerRecord with
  | some fi, some flickerINI => walkFlickerToObject_body env fi flickerINI (m.enter .walkFlickerToObject)
  | _, _ => (m.enter .walkFlickerToObject).halt .nullPointer

/-! ## Per-tick update pass -/

/-- The two-step clamp `updateHandler` applies to `actor->priorityLayer`. -/
def remapPriorityLayer (priorityLayer : Int) : Int :=
  let p := if priorityLayer ≥ 0x11 then 0 else priorityLayer
  if p ≥ 9 then p - 8 else p

/-- Source: `DragonsEngine::calulateTimeLeft`, on `uint32` times. -/
def calulateTimeLeft (env : Env) (w : World) : Nat × World :=
  let now := env.system_getMillis w % 4294967296
  if w._nextUpdatetime ≤ now then
    (0, { w with _nextUpdatetime := (now + DRAGONS_TICK_INTERVAL) % 4294967296 })
  else
    (w._nextUpdatetime - now,
      { w with _nextUpdatetime := (w._nextUpdatetime + DRAGONS_TICK_INTERVAL) % 4294967296 })

/-- Source: `DragonsEngine::wait`. -/
def wait (env : Env) (m : Machine) : Machine :=
  let out := calulateTimeLeft env m.w
  let m := m.upd fun _ => out.2
  m.ext (.system_delayMillis out.1) (env.system_delayMillis out.1)

/-- The `switch` of `updateEvents` for one event. -/
def updateEvents_event (env : Env) (event : Event) (m : Machine) : Machine :=
  match event with
  | .EVENT_QUIT => m.ext .quitGame env.quitGame
  | .EVENT_MOUSEMOVE x y => m.ext (.cursor_updatePosition x y) (env.cursor_updatePosition x y)
  | .EVENT_LBUTTONUP => m.upd fun w => { w with _leftMouseButtonUp := true }
  | .EVENT_RBUTTONUP => m.upd fun w => { w with _rightMouseButtonUp := true }
  | .EVENT_KEYUP keycode =>
    if keycode = KEYCODE_i then m.upd fun w => { w with _iKeyUp := true } else m
  | .other => m

/-- The polling loop of `updateEvents`; the first argument bounds the number
of events polled. -/
def updateEvents_loop (env : Env) : Nat → Machine → Run Machine
  | 0, m => m.halt .outOfFuel
  | fuel + 1, m =>
    let out := env.eventMan_pollEvent m.w
    let m := m.ext .eventMan_pollEvent fun _ => out.2
    match out.1 with
    | none => .ok m
    | some event => updateEvents_loop env fuel (updateEvents_event env event m)

/-- Source: `DragonsEngine::updateEvents`. -/
def updateEvents (env : Env) (fuel : Nat) (m : Machine) : Run Machine :=
  let m := m.upd fun w =>
    { w with _leftMouseButtonUp := false, _rightMouseButtonUp := false, _iKeyUp := false }
  updateEvents_loop env fuel m

/-- The interpreter loop of `updateActorSequences` for one actor; the first
argument bounds the number of opcodes executed. -/
def updateActorSequences_exec (env : Env) (actorId : Nat) : Nat → OpCall → Machine → Run Machine
  | 0, _, m => m.halt .outOfFuel
  | fuel + 1, opCall, m =>
    if opCall._result = 1 then
      let ip := (m.w.actors actorId)._seqCodeIp
      let opCall := { opCall with _op := env.mem ip.toNat % 256, _code := ip + 2 }
      let out := env.sequenceOpcodes_execOpcode actorId opCall m.w
      let m := m.ext (.sequenceOpcodes_execOpcode actorId opCall) fun _ => out.2
      let opCall := out.1
      let m := m.upd fun w => w.modifyActor actorId fun x =>
        { x with _seqCodeIp := x._seqCodeIp + opCall._deltaOfs }
      updateActorSequences_exec env actorId fuel opCall m
    else .ok m

/-- The test of `updateActorSequences` that lets an actor's sequence program
run. -/
def sequenceReady (actor : Actor) : Bool :=
  anyBit actor.flags ACTOR_FLAG_40 && !anyBit actor.flags ACTOR_FLAG_4
    && !anyBit actor.flags ACTOR_FLAG_400
    && (actor.sequenceTimer == 0 || anyBit actor.flags ACTOR_FLAG_1)

/-- The body of the `while` loop of `updateActorSequences` for the actor
`actorId` (after the decrement). -/
def updateActorSequences_actor (env : Env) (fuel : Nat) (actorId : Nat) (m : Machine) :
    Run Machine :=
  if actorId < 2 ∧ anyBit m.w._flags ENGINE_FLAG_40 then .ok m
  else if sequenceReady (m.w.actors actorId) then
    let m :=
      if anyBit (m.w.actors actorId).flags ACTOR_FLAG_1 then
        let m := m.ext (.actor_resetSequenceIP actorId) (env.actor_resetSequenceIP actorId)
        m.upd fun w => w.modifyActor actorId fun x =>
          { ((x.clearFlag ACTOR_FLAG_1).clearFlag ACTOR_FLAG_8).clearFlag ACTOR_FLAG_1000 with
            field_7a := 0 }
      else m
    updateActorSequences_exec env actorId fuel
      { _op := 0, _code := 0, _deltaOfs := 0, _result := 1 } m
  else .ok m

/-- The `while (actorId > 0)` loop of `updateActorSequences`. -/
def updateActorSequences_loop (env : Env) (fuel : Nat) : Nat → Machine → Run Machine
  | 0, m => .ok m
  | actorId + 1, m =>
    Except.bind (updateActorSequences_actor env fuel actorId m) fun m => updateActorSequences_loop env fuel actorId m

/-- Source: `DragonsEngine::updateActorSequences`. -/
def updateActorSequences (env : Env) (fuel : Nat) (m : Machine) : Run Machine :=
  if !anyBit m.w._flags ENGINE_FLAG_4 then .ok m
  else
    let actorId := if anyBit m.w._flags ENGINE_FLAG_80 then 64 else 23
    updateActorSequences_loop env fuel actorId m

/-- Source: `DragonsEngine::updatePathfindingActors`, from actor `i` on. -/
def updatePathfindingActors_loop (env : Env) : Nat → Nat → Machine → Machine
  | 0, _, m => m
  | n + 1, i, m =>
    updatePathfindingActors_loop env n (i + 1) (m.ext (.actor_walkPath i) (env.actor_walkPath i))

/-- Source: `DragonsEngine::updatePathfindingActors`. -/
def updatePathfindingActors (env : Env) (m : Machine) : Machine :=
  updatePathfindingActors_loop env 0x17 0 m

/-- The decrement of `sequenceTimer` in `updateHandler`. -/
def tickSequenceTimer (actor : Actor) : Actor :=
  if actor.sequenceTimer ≠ 0 then { actor with sequenceTimer := actor.sequenceTimer - 1 }
  else actor

/-- The test `flicker && _scene->contains(flicker) &&
flicker->actor->_actorID == i` of `updateHandler`. -/
def updateHandler_isFlicker (env : Env) (i : Nat) (m : Machine) : Run Bool :=
  match m.w.flicker, m.w.getFlickerRecord with
  | some fi, some flicker =>
    if env.scene_contains fi m.w then
      match flicker.actor with
      | none => m.halt .nullPointer
      | some a => .ok (decide ((m.w.actors a)._actorID = i))
    else .ok false
  | _, _ => .ok false

/-- The layer a foreground actor gets from the scene priority at its
position, before the clamp. -/
def updateHandler_priority (isFlicker : Bool) (priority : Int) (actor : Actor) : Actor :=
  if isFlicker then
    if priority < 8 ∨ priority = 0x10 then { actor with priorityLayer := priority } else actor
  else
    if priority ≠ -1 then { actor with priorityLayer := priority } else actor

/-- The priority part of the first loop of `updateHandler` for the actor
`i` (`ACTOR_FLAG_100` clear): the layer from the scene, then the clamp. -/
def updateHandler_layer (env : Env) (i : Nat) (m : Machine) : Run Machine :=
  let priority := env.scene_getPriorityAtPosition (m.w.actors i).x_pos (m.w.actors i).y_pos m.w
  Except.bind (updateHandler_isFlicker env i m) fun b =>
    .ok (m.upd fun w => w.modifyActor i fun x =>
      { updateHandler_priority b priority x with
        priorityLayer := remapPriorityLayer (updateHandler_priority b priority x).priorityLayer })

/-- The body of the first loop of `updateHandler` for the foreground actor
`i`. -/
def updateHandler_actor (env : Env) (i : Nat) (m : Machine) : Run Machine :=
  if anyBit (m.w.actors i).flags ACTOR_FLAG_40 then
    if !anyBit (m.w.actors i).flags ACTOR_FLAG_100 then
      Except.bind (updateHandler_layer env i m) fun m => .ok (m.upd fun w => w.modifyActor i tickSequenceTimer)
    else .ok (m.upd fun w => w.modifyActor i tickSequenceTimer)
  else .ok m

/-- The first loop of `updateHandler`, from actor `i` on. -/
def updateHandler_foreground (env : Env) : Nat → Nat → Machine → Run Machine
  | 0, _, m => .ok m
  | n + 1, i, m =>
    Except.bind (updateHandler_actor env i m) fun m => updateHandler_foreground env n (i + 1) m

/-- The second loop of `updateHandler`, from actor `i` on. -/
def updateHandler_background : Nat → Nat → Machine → Machine
  | 0, _, m => m
  | n + 1, i, m =>
    updateHandler_background n (i + 1) (m.upd fun w => w.modifyActor i tickSequenceTimer)

/-- The end of `updateHandler`, after the first loop: the timers of the
background actors, the path finding, the countdown pass. -/
def updateHandler_rest (env : Env) (m : Machine) : Run Machine :=
  let m :=
    if anyBit m.w._flags ENGINE_FLAG_80 then
      updateHandler_background (DRAGONS_ENGINE_NUM_ACTORS - 0x17) 0x17 m
    else m
  let m := if m.w.isFlagSet ENGINE_FLAG_4 then updatePathfindingActors env m else m
  Except.bind ((if m.w.isFlagSet ENGINE_FLAG_20 then engineFlag0x20UpdateFunction env m else .ok m)) fun m =>
    .ok (m.upd fun w => { w with data_8006a3a0_flag := andNot32 w.data_8006a3a0_flag 0x40 })

/-- Source: `DragonsEngine::updateHandler`. -/
def updateHandler (env : Env) (fuel : Nat) (m : Machine) : Run Machine :=
  Except.bind (updateActorSequences env fuel
      (m.upd fun w => { w with data_8006a3a0_flag := w.data_8006a3a0_flag ||| 0x40 })) fun m =>
    Except.bind (updateHandler_foreground env 0x17 0
        ((m.ext .cursor_updateVisibility env.cursor_updateVisibility).ext
          .inventory_updateVisibility env.inventory_updateVisibility)) fun m => updateHandler_rest env m

/-- The loop of `waitForFrames`. -/
def waitForFrames_loop (env : Env) (fuel : Nat) : Nat → Machine → Run Machine
  | 0, m => .ok m
  | n + 1, m =>
    Except.bind (updateHandler env fuel (wait env m)) fun m =>
      let m := m.ext .scene_draw env.scene_draw
      let m := m.ext .screen_updateScreen env.screen_updateScreen
      Except.bind (updateEvents env fuel m) fun m => waitForFrames_loop env fuel n m

/-- Source: `DragonsEngine::waitForFrames`. -/
def waitForFrames (env : Env) (fuel : Nat) (numFrames : Nat) (m : Machine) : Run Machine :=
  waitForFrames_loop env fuel numFrames m

/-! ## The game loop -/

/-- Source: `DragonsEngine::FUN_8003130c`, the fatal `error("FUN_8003130c")`. -/
def FUN_8003130c (m : Machine) : Run Machine := m.halt .FUN_8003130c

/-- Source: `DragonsEngine::FUN_80038890`, the fatal `error("FUN_80038890")`. -/
def FUN_80038890 (m : Machine) : Run Machine := m.halt .FUN_80038890

/-- Source: `DragonsEngine::FUN_80038994`, the fatal `error("FUN_80038994")`. -/
def FUN_80038994 (m : Machine) : Run Machine := m.halt .FUN_80038994

/-- The state the `while` loop of `gameLoop` carries from one tick to the
next: the local `actorId` and the engine. -/
structure Loop where
  actorId : Nat
  m : Machine

namespace Machine

/-- The call `_inventory->setType`. -/
def setType (m : Machine) (newType : Nat) : Machine :=
  m.upd fun w => { w with inventory := { w.inventory with _type := newType } }

/-- An assignment to `_inventory->_old_showing_value`. -/
def setOldShowing (m : Machine) (v : Nat) : Machine :=
  m.upd fun w => { w with inventory := { w.inventory with _old_showing_value := v } }

/-- An assignment to `_counter`. -/
def setCounter (m : Machine) (v : Nat) : Machine := m.upd fun w => { w with _counter := v }

/-- An assignment to `_cursor->_sequenceID`. -/
def setCursorSequenceID (m : Machine) (v : Int) : Machine :=
  m.upd fun w => { w with cursor := { w.cursor with _sequenceID := v } }

end Machine

/-- Label `LAB_80027b58` of `gameLoop`: run the pending scripts and end the
tick. -/
def LAB_80027b58 (env : Env) (uVar3 : Nat) (m : Machine) : Run Loop :=
  .ok { actorId := uVar3, m := runINIScripts env m }

/-- Label `joined_r0x80027a38` of `gameLoop`. -/
def joined_r0x80027a38 (uVar3 : Nat) (m : Machine) : Run Loop :=
  if m.w.cursor.iniItemInHand = 0 then .ok { actorId := uVar3, m := m.setCursorSequenceID 1 }
  else .ok { actorId := uVar3, m := m.setCursorSequenceID 5 }

/-- Label `LAB_800279f4` of `gameLoop`. -/
def LAB_800279f4 (uVar3 uVar7 : Nat) (m : Machine) : Run Loop :=
  Except.bind (FUN_8003130c (m.setOldShowing uVar7)) fun m => .ok { actorId := uVar3, m := m }

/-- Label `joined_r0x800271d0` of `gameLoop`. -/
def joined_r0x800271d0 (env : Env) (uVar3 uVar7 sequenceId : Nat) (m : Machine) : Run Loop :=
  let m := m.setType m.w.inventory._old_showing_value
  if sequenceId = 1 then LAB_800279f4 uVar3 uVar7 m
  else
    let m := m.setCounter 0
    let m := m.setType 1
    let m := m.ext .inventory_openInventory env.inventory_openInventory
    joined_r0x80027a38 uVar3 m

/-- Label `LAB_80027970` of `gameLoop`. -/
def LAB_80027970 (env : Env) (uVar3 : Nat) (m : Machine) : Run Loop :=
  let m := m.ext .inventory_closeInventory env.inventory_closeInventory
  let uVar6 := m.w.inventory._old_showing_value
  let m := m.setOldShowing m.w.inventory._type
  .ok { actorId := uVar3, m := m.setType uVar6 }

/-- The first statements of label `LAB_80027ab4`: the idle counter is
reset and the object under the cursor and the cursor sequence are queued. -/
def LAB_80027ab4_queue (m : Machine) : Machine :=
  ((m.setCounter 0).upd fun w =>
      { w with cursor := { w.cursor with data_80072890 := w.cursor._iniUnderCursor } }).upd fun w =>
    { w with cursor := { w.cursor with data_800728b0_cursor_seqID := w.cursor._sequenceID } }

/-- The statements of label `LAB_80027ab4` after `walkFlickerToObject`:
`ENGINE_FLAG_8` is cleared when the latch is set, and for an item cursor
(sequence 5 or more) the target and the item in hand are queued. -/
def LAB_80027ab4_after (lowSequence : Bool) (m : Machine) : Machine :=
  let m := if m.w.bit_flags_8006fbd8 ≠ 0 then m.upd fun w => w.clearFlags ENGINE_FLAG_8 else m
  if lowSequence then m
  else
    (m.upd fun w =>
        { w with scriptOpcodes := { w.scriptOpcodes with _data_800728c0 := w.cursor.data_80072890 } }).upd
      fun w => { w with cursor := { w.cursor with data_80072890 := w.cursor.iniItemInHand } }

/-- Label `LAB_80027ab4` of `gameLoop`, up to the jump to `LAB_80027b58`. -/
def LAB_80027ab4 (env : Env) (uVar3 : Nat) (m : Machine) : Run Loop :=
  Except.bind (walkFlickerToObject env (LAB_80027ab4_queue m)) fun m1 =>
    LAB_80027b58 env uVar3
      (LAB_80027ab4_after (decide ((LAB_80027ab4_queue m).w.cursor._sequenceID < 5)) m1)

/-- The search for a free slot of `unkArray_uint16` in the Closed branch:
the first index below 0x29 holding 0, or 0x29; `none` for a read past the
array. -/
def freeSlot_loop (arr : List Nat) : Nat → Nat → Option Nat
  | 0, uVar7 => some uVar7
  | n + 1, uVar7 =>
    match arr[uVar7]? with
    | none => none
    | some v => if v = 0 then some uVar7 else freeSlot_loop arr n (uVar7 + 1)

/-- The search for the slot of `unkArray_uint16` that holds `v` in the
Primary branch, from index `i` on; `none` for a read past the array. -/
def findSlot_loop (v : Nat) : List Nat → Nat → Option Nat
  | [], _ => none
  | x :: rest, i => if v = x then some i else findSlot_loop v rest (i + 1)

/-- The hit test of the drop loop of the Primary branch for one slot actor. -/
def cursorOnSlot (cursor : Cursor) (actor : Actor) : Bool :=
  decide (toInt16 actor.x_pos - 0x10 ≤ cursor._x) && decide (cursor._x < toInt16 actor.x_pos + 0x10)
    && decide (toInt16 actor.y_pos - 0xc ≤ cursor._y)
    && decide (cursor._y < toInt16 actor.y_pos + 0xc)

/-- The drop loop of the Primary branch: the first slot below 0x29 whose
actor is under the cursor, or 0x29. -/
def dropSlot_loop (w : World) : Nat → Nat → Nat
  | 0, uVar6 => uVar6
  | n + 1, uVar6 =>
    if cursorOnSlot w.cursor (w.actors (uVar6 + 0x17)) then uVar6
    else dropSlot_loop w n (uVar6 + 1)

/-- The reset of a slot actor before it shows an item. -/
def slotActorReset (x : Actor) : Actor :=
  { x with flags := 0, priorityLayer := 0, field_e := 0x100 }

/-- The four `setFlag` calls and the final layer of a slot actor. -/
def slotActorShown (x : Actor) : Actor :=
  { (((x.setFlag ACTOR_FLAG_40).setFlag ACTOR_FLAG_80).setFlag ACTOR_FLAG_100).setFlag
      ACTOR_FLAG_200 with priorityLayer := 6 }

/-- The check after the bag branch of the Closed branch: the click on
hit-target 0x8001 with inventory sequence 1, else `LAB_80027ab4`. -/
def closed_after_bag (env : Env) (uVar3 uVar6 : Nat) (m : Machine) : Run Loop :=
  if m.w.cursor._iniUnderCursor = 0x8001 ∧ m.w.inventory._sequenceId = 1 then
    Except.bind (FUN_80038890 ((m.setType 2).setOldShowing uVar6)) fun m =>
      .ok { actorId := uVar3, m := m }
  else LAB_80027ab4 env uVar3 m

/-- The item in hand goes into the free slot `uVar7` of the bag (Closed
branch, after `waitForFrames(1)`). -/
def LAB_80027294_store (uVar3 uVar7 : Nat) (m : Machine) : Run Loop :=
  if uVar7 < m.w.unkArray_uint16.length then
    .ok { actorId := uVar3
          m := m.upd fun w =>
            { w with
              cursor := { w.cursor with iniItemInHand := 0, _iniUnderCursor := 0 }
              unkArray_uint16 := w.unkArray_uint16.set uVar7 w.cursor.iniItemInHand } }
  else
    (m.upd fun w =>
      { w with cursor := { w.cursor with iniItemInHand := 0, _iniUnderCursor := 0 } }).halt
      .outOfBounds

/-- Label `LAB_80027294` of `gameLoop`. -/
def LAB_80027294 (env : Env) (fuel : Nat) (uVar3 uVar6 : Nat) (m : Machine) : Run Loop :=
  if m.w.cursor.iniItemInHand = 0 then
    if m.w.bit_flags_8006fbd8 &&& 3 ≠ 1 then
      joined_r0x800271d0 env uVar3 m.w.inventory._old_showing_value (m.w.getVar 7)
        (m.setOldShowing m.w.inventory._type)
    else closed_after_bag env uVar3 uVar6 m
  else
    match freeSlot_loop m.w.unkArray_uint16 0x29 0 with
    | none => m.halt .outOfBounds
    | some uVar7 =>
      if uVar7 < 0x29 then
        Except.bind (waitForFrames env fuel 1 (m.setCursorSequenceID 1)) fun m =>
          LAB_80027294_store uVar3 uVar7 m
      else closed_after_bag env uVar3 uVar6 m

/-- The Closed branch of `gameLoop`: the action button was released with
`ENGINE_FLAG_8` set (after `_counter = 0`). -/
def closed_click (env : Env) (fuel : Nat) (uVar3 uVar6 : Nat) (m : Machine) : Run Loop :=
  if m.w.cursor._iniUnderCursor &&& 0x8000 ≠ 0 then
    if m.w.cursor._iniUnderCursor = 0x8002 then LAB_80027294 env fuel uVar3 uVar6 m
    else if m.w.cursor._iniUnderCursor ≠ 0x8001 then LAB_80027ab4 env uVar3 m
    else if m.w.inventory._sequenceId = 0 then LAB_80027294 env fuel uVar3 uVar6 m
    else closed_after_bag env uVar3 uVar6 m
  else LAB_80027ab4 env uVar3 m

/-- The Closed branch of `gameLoop` (`_inventory->getType() == 0`). -/
def gameLoop_closed (env : Env) (fuel : Nat) (uVar3 : Nat) (m : Machine) : Run Loop :=
  if (m.w.checkForInventoryButtonRelease && m.w.isInputEnabled)
      && decide (m.w.bit_flags_8006fbd8 &&& 3 ≠ 1) then
    joined_r0x800271d0 env uVar3 m.w.inventory._old_showing_value (m.w.getVar 7)
      (m.setOldShowing m.w.inventory._type)
  else if m.w.checkForActionButtonRelease && m.w.isFlagSet ENGINE_FLAG_8 then
    closed_click env fuel uVar3 m.w.inventory._type (m.setCounter 0)
  else LAB_80027b58 env uVar3 m

/-- The Secondary branch of `gameLoop` (`_inventory->getType() == 2`). -/
def gameLoop_secondary (env : Env) (uVar3 : Nat) (m : Machine) : Run Loop :=
  if m.w.checkForInventoryButtonRelease && m.w.isInputEnabled then
    if m.w.getVar 7 = 1 then LAB_800279f4 uVar3 m.w.inventory._old_showing_value m
    else
      joined_r0x80027a38 uVar3
        ((((m.setCounter 0).setType 1).setOldShowing m.w.inventory._type).ext
          .inventory_openInventory env.inventory_openInventory)
  else if m.w.checkForActionButtonRelease && m.w.isFlagSet ENGINE_FLAG_8 then
    LAB_80027ab4 env uVar3 m
  else LAB_80027b58 env uVar3 m

/-- Label `LAB_8002790c` of `gameLoop`. -/
def LAB_8002790c (env : Env) (fuel : Nat) (uVar3 : Nat) (m : Machine) : Run Loop :=
  if m.w.cursor.iniItemInHand = 0
      ∨ (toUint16 (m.w.cursor._x - 10) < 300 ∧ toUint16 (m.w.cursor._y - 10) < 0xb4) then
    LAB_80027b58 env uVar3 m
  else
    Except.bind (waitForFrames env fuel 2 (m.setCursorSequenceID 5)) fun m =>
      LAB_80027970 env uVar3 m

/-- The Primary branch of `gameLoop`: a click on a panel hit-target
(`_iniUnderCursor & 0x8000`). -/
def primary_panel (env : Env) (fuel : Nat) (uVar3 uVar6 : Nat) (m : Machine) : Run Loop :=
  if m.w.cursor._iniUnderCursor = 0x8001 then
    if (env.inventory_closeInventory m.w).inventory._old_showing_value = 2 then
      Except.bind (FUN_80038994
          ((m.ext .inventory_closeInventory env.inventory_closeInventory).setType 0)) fun m =>
        .ok { actorId := uVar3, m := m.setOldShowing uVar6 }
    else
      .ok { actorId := uVar3
            m := ((m.ext .inventory_closeInventory env.inventory_closeInventory).setType
              0).setOldShowing uVar6 }
  else if m.w.cursor._iniUnderCursor ≠ 0x8002 then LAB_8002790c env fuel uVar3 m
  else
    if (env.inventory_closeInventory m.w).inventory._old_showing_value ≠ 2 then
      Except.bind (FUN_80038890
          ((m.ext .inventory_closeInventory env.inventory_closeInventory).setType 2)) fun m =>
        .ok { actorId := uVar3, m := m.setOldShowing uVar6 }
    else
      .ok { actorId := uVar3
            m := ((m.ext .inventory_closeInventory env.inventory_closeInventory).setType
              2).setOldShowing uVar6 }

/-- The Primary branch of `gameLoop`, a click on an item with a cursor
sequence other than 2 and 4: the object, the cursor sequence and for an
item cursor the item in hand are queued and `ENGINE_FLAG_8` is cleared. -/
def primary_item_queue (m : Machine) : Machine :=
  let m := m.upd fun w =>
    { w with cursor := { w.cursor with data_800728b0_cursor_seqID := w.cursor._sequenceID } }
  let m := m.upd fun w =>
    { w with cursor := { w.cursor with data_80072890 := w.cursor._iniUnderCursor } }
  let m :=
    if 4 < m.w.cursor._sequenceID then
      (m.upd fun w =>
          { w with cursor := { w.cursor with data_80072890 := w.cursor.iniItemInHand } }).upd
        fun w =>
          { w with scriptOpcodes := { w.scriptOpcodes with _data_800728c0 := w.cursor._iniUnderCursor } }
    else m
  m.upd fun w => w.clearFlags ENGINE_FLAG_8

/-- The Primary branch of `gameLoop`, a click on an item with cursor
sequence 2 or 4: the item in slot `actorId_00` and the item in hand change
places. -/
def primary_item_swap (actorId_00 : Nat) (m : Machine) : Machine :=
  let m := m.upd fun w =>
    { w with unkArray_uint16 := w.unkArray_uint16.set actorId_00 w.cursor.iniItemInHand }
  let m := m.upd fun w =>
    { w with cursor := { w.cursor with data_8007283c := (w.actors (actorId_00 + 0x17))._sequenceID } }
  let m := m.upd fun w => w.modifyActor (actorId_00 + 0x17) fun x => x.clearFlag ACTOR_FLAG_40
  let m := m.upd fun w =>
    { w with cursor := { w.cursor with iniItemInHand := w.cursor._iniUnderCursor } }
  m.setCursorSequenceID 5

/-- The slot actor `actor` is set up to show the item `item`. -/
def primary_item_show (env : Env) (uVar3 actor item : Nat) (m : Machine) : Run Loop :=
  match m.w.getINI (item - 1) with
  | none => (m.upd fun w => w.modifyActor actor slotActorReset).halt .nullPointer
  | some ini =>
    .ok { actorId := uVar3
          m := ((m.upd fun w => w.modifyActor actor slotActorReset).ext
              (.actor_updateSequence actor (ini.field_8 * 2 + 10))
              (env.actor_updateSequence actor (ini.field_8 * 2 + 10))).upd fun w =>
            w.modifyActor actor slotActorShown }

/-- The Primary branch of `gameLoop`: a click on an item
(`_iniUnderCursor != 0`). -/
def primary_item (env : Env) (fuel : Nat) (uVar3 : Nat) (m : Machine) : Run Loop :=
  if m.w.cursor._sequenceID ≠ 4 ∧ m.w.cursor._sequenceID ≠ 2 then
    Except.bind (walkFlickerToObject env (primary_item_queue m)) fun m =>
      LAB_8002790c env fuel uVar3 m
  else
    match findSlot_loop m.w.cursor._iniUnderCursor m.w.unkArray_uint16 0 with
    | none => m.halt .outOfBounds
    | some actorId_00 =>
      if (primary_item_swap actorId_00 m).w.unkArray_uint16.getD actorId_00 0 ≠ 0 then
        primary_item_show env uVar3 (actorId_00 + 0x17)
          ((primary_item_swap actorId_00 m).w.unkArray_uint16.getD actorId_00 0)
          (primary_item_swap actorId_00 m)
      else .ok { actorId := uVar3, m := primary_item_swap actorId_00 m }

/-- The Primary branch of `gameLoop`, the drop of the item in hand into
the slot `actorId`: the statements before `updateSequence`. -/
def primary_drop_place (actorId : Nat) (m : Machine) : Machine :=
  let m := m.upd fun w =>
    { w with unkArray_uint16 := w.unkArray_uint16.set actorId w.cursor.iniItemInHand }
  let m := m.upd fun w => w.modifyActor ((actorId + 0x17) % 65536) slotActorReset
  m.upd fun w => { w with cursor := { w.cursor with iniItemInHand := 0 } }

/-- The Primary branch of `gameLoop`, the drop of the item in hand: the
statements after `updateSequence`. -/
def primary_drop_shown (actorId : Nat) (m : Machine) : Machine :=
  let uVar6 := m.w.cursor._sequenceID
  let m := m.upd fun w => w.modifyActor ((actorId + 0x17) % 65536) slotActorShown
  if uVar6 = 5 then m.setCursorSequenceID 4 else m

/-- The Primary branch of `gameLoop`: a click with an item in hand and
nothing under the cursor drops the item back into the inventory. -/
def primary_drop (env : Env) (fuel : Nat) (uVar3 : Nat) (m : Machine) : Run Loop :=
  if dropSlot_loop m.w 0x29 0 ≠ 0x29 then
    if dropSlot_loop m.w 0x29 0 < m.w.unkArray_uint16.length then
      match m.w.getINI (m.w.cursor.iniItemInHand - 1) with
      | none => (primary_drop_place (dropSlot_loop m.w 0x29 0) m).halt .nullPointer
      | some ini =>
        LAB_8002790c env fuel uVar3
          (primary_drop_shown (dropSlot_loop m.w 0x29 0)
            ((primary_drop_place (dropSlot_loop m.w 0x29 0) m).ext
              (.actor_updateSequence ((dropSlot_loop m.w 0x29 0 + 0x17) % 65536)
                (ini.field_8 * 2 + 10))
              (env.actor_updateSequence ((dropSlot_loop m.w 0x29 0 + 0x17) % 65536)
                (ini.field_8 * 2 + 10))))
    else m.halt .outOfBounds
  else LAB_8002790c env fuel uVar3 m

/-- The Primary branch of `gameLoop`: the action button was released with
`ENGINE_FLAG_8` set (after `_counter = 0`). -/
def primary_click (env : Env) (fuel : Nat) (uVar3 uVar6 : Nat) (m : Machine) : Run Loop :=
  if m.w.cursor._iniUnderCursor &&& 0x8000 ≠ 0 then primary_panel env fuel uVar3 uVar6 m
  else if m.w.cursor._iniUnderCursor ≠ 0 then primary_item env fuel uVar3 m
  else if m.w.cursor.iniItemInHand = 0 then LAB_80027b58 env uVar3 m
  else primary_drop env fuel uVar3 m

/-- The Primary branch of `gameLoop` (`_inventory->getType() == 1`). -/
def gameLoop_primary (env : Env) (fuel : Nat) (uVar3 : Nat) (m : Machine) : Run Loop :=
  if m.w.checkForInventoryButtonRelease then LAB_80027970 env uVar3 (m.setCounter 0)
  else if m.w.checkForActionButtonRelease && m.w.isFlagSet ENGINE_FLAG_8 then
    primary_click env fuel uVar3 m.w.inventory._type (m.setCounter 0)
  else LAB_8002790c env fuel uVar3 m

/-- The start of the `bit_flags_8006fbd8 == 3` branch of `gameLoop`: the
latch is reset and the queued object's sequence is given to the flicker
actor. -/
def gameLoop_latch3_queue (m : Machine) : Run Machine :=
  let m := m.upd fun w => { w with bit_flags_8006fbd8 := 0 }
  match m.w.getFlickerRecord with
  | none => m.halt .nullPointer
  | some flicker =>
    if flicker.sceneId = (m.w.getCurrentSceneId : Int) then
      match flicker.actor with
      | none => m.halt .nullPointer
      | some a =>
        if (m.w.actors a)._sequenceID2 ≠ -1 then
          let uVar6 :=
            if m.w.cursor._sequenceID ≠ 5 then m.w.cursor.data_80072890
            else m.w.scriptOpcodes._data_800728c0
          if uVar6 > 0 then
            match m.w.getINI (uVar6 - 1) with
            | none => m.halt .nullPointer
            | some ini =>
              .ok (m.upd fun w => w.modifyActor a fun x => { x with _sequenceID2 := ini.field_e })
          else .ok m
        else .ok m
    else .ok m

/-- The update of `ENGINE_FLAG_8` after `works_with_obd_data_1` in the
`bit_flags_8006fbd8 == 3` branch of `gameLoop`. -/
def gameLoop_latch3_flag8 (m : Machine) : Run Machine :=
  if m.w.getCurrentSceneId = 0x1d then
    match m.w.getINI 0x179 with
    | none => m.halt .nullPointer
    | some ini =>
      if ini.field_2 ≠ 0 then .ok (m.upd fun w => w.clearFlags ENGINE_FLAG_8)
      else .ok (m.upd fun w => w.setFlags ENGINE_FLAG_8)
  else .ok (m.upd fun w => w.setFlags ENGINE_FLAG_8)

/-- The end of the `bit_flags_8006fbd8 == 3` branch of `gameLoop`, after
`works_with_obd_data_1`. -/
def gameLoop_latch3_finish (uVar3 : Nat) (m : Machine) : Run Loop :=
  Except.bind (gameLoop_latch3_flag8 m) fun m => .ok { actorId := uVar3, m := m.setCounter 0 }

/-- The `bit_flags_8006fbd8 == 3` branch of `gameLoop`. -/
def gameLoop_latch3 (env : Env) (uVar3 : Nat) (m : Machine) : Run Loop :=
  Except.bind (gameLoop_latch3_queue m) fun m =>
    Except.bind (works_with_obd_data_1 env m) fun m => gameLoop_latch3_finish uVar3 m

/-- The dispatcher of `gameLoop`: the loop body from the right-button test
to its end, on the state the update pass and the event polling left. -/
def gameLoop_dispatch (env : Env) (fuel : Nat) (uVar3 : Nat) (m : Machine) : Run Loop :=
  if m.w._rightMouseButtonUp && m.w.isInputEnabled then
    let m := m.ext .cursor_selectPreviousCursor env.cursor_selectPreviousCursor
    .ok { actorId := uVar3, m := m.setCounter 0 }
  else if m.w.bit_flags_8006fbd8 = 3 then gameLoop_latch3 env uVar3 m
  else if m.w.inventory._type ≠ 1 then
    if m.w.inventory._type < 2 then
      if m.w.inventory._type = 0 then gameLoop_closed env fuel uVar3 m
      else LAB_80027b58 env uVar3 m
    else
      if m.w.inventory._type = 2 then gameLoop_secondary env uVar3 m
      else LAB_80027b58 env uVar3 m
  else gameLoop_primary env fuel uVar3 m

/-- The idle fidget of `gameLoop` (the test `0x4af < _counter`). -/
def gameLoop_fidget (env : Env) (m : Machine) : Run Machine :=
  if 0x4af < m.w._counter then
    match m.w.flicker, m.w.getFlickerRecord with
    | some fi, some pDVar8 =>
      match pDVar8.actor with
      | none => m.halt .nullPointer
      | some a =>
        if (m.w.actors a).resourceID = 0xe then
          let m := m.upd fun w => w.modifyActor a fun x => { x with _sequenceID2 := 2 }
          let m := m.upd fun w => w.modifyINI fi fun r => { r with field_20_actor_field_14 := 2 }
          match m.w.getINI 0xc2 with
          | none => m.halt .nullPointer
          | some r =>
            let sequenceId : Int := if r.field_1e = 1 then 0x30 else 2
            let m := m.ext (.actor_updateSequence a sequenceId) (env.actor_updateSequence a sequenceId)
            let m := m.setCounter 0
            .ok (m.upd fun w => w.setFlags ENGINE_FLAG_80000000)
        else .ok m
    | _, _ => m.halt .nullPointer
  else .ok m

/-- The end of the idle fidget in `gameLoop`. -/
def gameLoop_fidgetDone (m : Machine) : Run Machine :=
  if m.w.isFlagSet ENGINE_FLAG_80000000 then
    match m.w.getFlickerRecord with
    | none => m.halt .nullPointer
    | some flicker =>
      match flicker.actor with
      | none => m.halt .nullPointer
      | some a =>
        if (m.w.actors a).isFlagSet ACTOR_FLAG_4 then
          let m := m.setCounter 0
          .ok (m.upd fun w => w.clearFlags ENGINE_FLAG_80000000)
        else .ok m
  else .ok m

/-- The hover step of `gameLoop`: the value of `uVar3` for this tick. -/
def gameLoop_hover (env : Env) (actorId : Nat) (m : Machine) : Run Nat :=
  match m.w.getFlickerRecord with
  | none => m.halt .nullPointer
  | some flicker =>
    if flicker.sceneId = (m.w.getCurrentSceneId : Int) then
      match ipt_img_file_related env m.w with
      | .error why => m.halt why
      | .ok uVar3 =>
        let actorId_00 := uVar3 &&& 0xffff
        if actorId_00 = 0 then .ok 0
        else if actorId_00 ≠ actorId &&& 0xffff then m.halt .actorIdMismatch
        else .ok uVar3
    else .ok 0

/-- The cursor step of `gameLoop`: `_cursorActivationSeqOffset`. -/
def gameLoop_cursorOffset (env : Env) (m : Machine) : Run Machine :=
  let out := env.cursor_updateINIUnderCursor m.w
  let m := m.ext .cursor_updateINIUnderCursor fun _ => out.2
  let offset (v : Nat) (m : Machine) : Machine :=
    m.upd fun w => { w with cursor := { w.cursor with _cursorActivationSeqOffset := v } }
  if out.1 = 0 then .ok (offset 0 m)
  else if m.w.cursor._iniUnderCursor &&& 0x8000 ≠ 0 then .ok (offset 5 m)
  else if m.w.cursor._iniUnderCursor = 0 then m.halt .nullPointer
  else
    match m.w.getINI (m.w.cursor._iniUnderCursor - 1) with
    | none => m.halt .nullPointer
    | some ini =>
      if ini.field_1a_flags_maybe &&& 0x4000 ≠ 0 then .ok (offset 0 m) else .ok (offset 5 m)

/-- The body of the `while` loop of `gameLoop`: one tick. -/
def gameLoop_body (env : Env) (fuel : Nat) (l : Loop) : Run Loop :=
  let m := l.m.ext .scene_draw env.scene_draw
  let m := m.ext .screen_updateScreen env.screen_updateScreen
  Except.bind (updateHandler env fuel (wait env m)) fun m =>
    Except.bind (updateEvents env fuel m) fun m =>
      let m :=
        if m.w.getCurrentSceneId ≠ 2 then m.upd fun w => { w with _sceneId1 := w.getCurrentSceneId }
        else m
      let m := m.setCounter ((m.w._counter + 1) % 4294967296)
      Except.bind (gameLoop_fidget env m) fun m =>
        Except.bind (gameLoop_fidgetDone m) fun m =>
          let m :=
            if m.w.bit_flags_8006fbd8 = 0 then m.upd fun w => w.setFlags ENGINE_FLAG_8 else m
          Except.bind (gameLoop_hover env l.actorId m) fun uVar3 =>
            Except.bind (gameLoop_cursorOffset env m) fun m => gameLoop_dispatch env fuel uVar3 m

/-- The `while (!shouldQuit())` loop of `gameLoop`; the first argument
bounds the number of ticks. -/
def gameLoop_loop (env : Env) (fuel : Nat) : Nat → Loop → Run Loop
  | 0, l => l.m.halt .outOfFuel
  | ticks + 1, l =>
    if env.shouldQuit l.m.w then .ok l
    else
      Except.bind (gameLoop_body env fuel l) fun l => gameLoop_loop env fuel ticks l

/-- Source: `DragonsEngine::gameLoop`. -/
def gameLoop (env : Env) (fuel ticks : Nat) (m : Machine) : Run Loop :=
  let m := m.upd fun w => { w with cursor := { w.cursor with _cursorActivationSeqOffset := 0 } }
  let m := m.upd fun w => { w with bit_flags_8006fbd8 := 0 }
  let m := m.setCounter 0
  let m := m.upd fun w => w.setFlags ENGINE_FLAG_8
  gameLoop_loop env fuel ticks { actorId := 0, m := m }

/-! ## Scene load -/

/-- The first statements of `loadScene`: the two flag words are reset. -/
def loadScene_flags (m : Machine) : Machine :=
  (((m.upd fun w => { w with _flags := 0x1046 }).upd fun w =>
      { w with _flags := w._flags &&& 0x1c07040 }).upd fun w =>
    { w with _flags := w._flags ||| 0x26 }).upd fun w => { w with _unkFlags1 := 0 }

/-- The initialisation calls of `loadScene`, after `_data_800728c0 = 0`. -/
def loadScene_init (env : Env) (m : Machine) : Machine :=
  ((m.upd fun w =>
      { w with scriptOpcodes := { w.scriptOpcodes with _data_800728c0 := 0 } }).ext
    .cursor_init env.cursor_init).ext .inventory_init env.inventory_init

/-- The context `loadScene` builds for the start-up script in the buffer
at `obd`. -/
def startupScriptOpCall (env : Env) (obd : Nat) : ScriptOpCall :=
  { _code := some (obd + 4), _codeEnd := some (obd + 4 + READ_LE_UINT32 env obd), _result := 0 }

/-- The branch `sceneId > 2` of `loadScene`: variable 1 is set, the scene id
becomes 2 and the start-up script of the SPT entry 3 runs. -/
def loadScene_startup (env : Env) (m : Machine) : Machine :=
  ((m.upd fun w => w.setVar 1 1).upd fun w => w.setSceneId 2).ext
    (.scriptOpcodes_runScript (startupScriptOpCall env (env.getFromSpt 3)))
    fun w => (env.scriptOpcodes_runScript (startupScriptOpCall env (env.getFromSpt 3)) w).2

/-- The end of `loadScene`: record 0 takes the scene id when it has none,
else the scene takes the scene id of record 0; the scene is loaded. -/
def loadScene_finish (env : Env) (sceneId : Nat) (m : Machine) : Run Machine :=
  match m.w.getINI 0 with
  | none => m.halt .nullPointer
  | some ini =>
    if ini.sceneId = 0 then
      .ok ((((m.upd fun w => w.modifyINI 0 fun r => { r with sceneId := toInt16 sceneId }).upd
          fun w => { w with _sceneId1 := sceneId }).ext
        (.scene_loadScene sceneId 0x1e)) (env.scene_loadScene sceneId 0x1e))
    else
      .ok ((((m.upd fun w => w.setSceneId (toUint16 ini.sceneId).toNat).upd
          fun w => { w with _sceneId1 := sceneId }).ext
        (.scene_loadScene sceneId 0x1e)) (env.scene_loadScene sceneId 0x1e))

/-- Source: `DragonsEngine::loadScene`. -/
def loadScene (env : Env) (sceneId : Nat) (m : Machine) : Run Machine :=
  if sceneId > 2 then
    loadScene_finish env sceneId (loadScene_startup env (loadScene_init env (loadScene_flags m)))
  else loadScene_finish env 0x12 (loadScene_init env (loadScene_flags m))

/-- Source: `DragonsEngine::reset`, on the fields of the model (the table
`opCode1A_tbl` and `data_800633fa` are not part of it). -/
def reset (w : World) : World :=
  { w with
    _nextUpdatetime := 0
    _flags := 0
    _unkFlags1 := 0
    run_func_ptr_unk_countdown_timer := 0
    data_8006a3a0_flag := 0
    unkArray_uint16 := w.unkArray_uint16.map fun _ => 0 }

/-! ## Specification-side predicates and test fixtures -/

/-- The scan test of hover resolution: the record is in the scene `sceneId`,
it is eligible (its behaviour-flags word is zero) and the tile lies in its
image region, both bounds inclusive. -/
def PassesScanTest (env : Env) (sceneId : Nat) (tileX tileY : Int) (ini : DragonINI) : Prop :=
  ini.sceneId = (sceneId : Int) ∧ ini.field_1a_flags_maybe = 0 ∧
    (env.getIMG ini.field_2).x ≤ tileX ∧ tileX ≤ (env.getIMG ini.field_2).x + (env.getIMG ini.field_2).w ∧
    (env.getIMG ini.field_2).y ≤ tileY ∧ tileY ≤ (env.getIMG ini.field_2).y + (env.getIMG ini.field_2).h

/-- The tile lies in the image region of the record, both bounds inclusive. -/
def TileInRegion (env : Env) (tileX tileY : Int) (ini : DragonINI) : Prop :=
  (env.getIMG ini.field_2).x ≤ tileX ∧ tileX ≤ (env.getIMG ini.field_2).x + (env.getIMG ini.field_2).w ∧
    (env.getIMG ini.field_2).y ≤ tileY ∧ tileY ≤ (env.getIMG ini.field_2).y + (env.getIMG ini.field_2).h

/-- An actor with every field zero. -/
def Actor.blank : Actor :=
  { _actorID := 0, _actorResource_id := none, resourceID := 0, field_e := 0, sequenceTimer := 0,
    _sequenceID := 0, _sequenceID2 := 0, priorityLayer := 0, flags := 0, x_pos := 0, y_pos := 0,
    field_7a := 0, field_7c := 0, _seqCodeIp := 0 }

/-- A record with every field zero and no actor. -/
def DragonINI.blank : DragonINI :=
  { field_2 := 0, actorResourceId := 0, field_8 := 0, field_e := 0, field_10 := 0,
    field_1a_flags_maybe := 0, field_1c := 0, field_1e := 0, field_20_actor_field_14 := 0,
    sceneId := 0, actor := none }

/-- A world with an empty table, blank actors and every field zero. -/
def World.blank : World :=
  { _flags := 0, _unkFlags1 := 0, bit_flags_8006fbd8 := 0, _counter := 0, _sceneId1 := 0,
    _leftMouseButtonUp := false, _rightMouseButtonUp := false, _iKeyUp := false,
    unkArray_uint16 := List.replicate 42 0, run_func_ptr_unk_countdown_timer := 0,
    _nextUpdatetime := 0, data_8006a3a0_flag := 0, sceneId := 0, camera_x := 0, camera_y := 0,
    records := [], flicker := none, actors := fun _ => Actor.blank, vars := fun _ => 0,
    inventory := { _type := 0, _old_showing_value := 0, _sequenceId := 0 },
    cursor := { _sequenceID := 0, iniItemInHand := 0, _iniUnderCursor := 0, data_80072890 := 0,
                data_800728b0_cursor_seqID := 0, data_8007283c := 0, _x := 0, _y := 0,
                _cursorActivationSeqOffset := 0 },
    scriptOpcodes := { _data_800728c0 := 0, _data_80071f5c := 0 }, hidden := 0 }

/-- Collaborators that do nothing: every call returns at once with the
world unchanged, every probe answers 0, every table entry is zero. -/
def Env.idle : Env :=
  { getIMG := fun _ => { x := 0, y := 0, w := 0, h := 0, field_a := 0, field_c := 0 }
    getFromOpt := fun _ => 0
    getFromSpt := fun _ => 0
    mem := fun _ => 0
    cursor_init := id
    cursor_update := id
    cursor_updateVisibility := id
    cursor_updateINIUnderCursor := fun w => (0, w)
    cursor_updatePosition := fun _ _ => id
    cursor_selectPreviousCursor := id
    cursor_executeScript := fun c _ w => (0, c, w)
    inventory_isVisible := fun _ => false
    inventory_isActorSet := fun _ => false
    inventory_init := id
    inventory_updateVisibility := id
    inventory_openInventory := id
    inventory_closeInventory := id
    inventory_setActorSequenceId := fun _ => id
    inventory_setPriority := fun _ => id
    actor_updateSequence := fun _ _ => id
    actor_resetSequenceIP := fun _ => id
    actor_pathfinding_maybe := fun _ _ _ _ => id
    actor_walkPath := fun _ => id
    sequenceOpcodes_execOpcode := fun _ c w => ({ c with _result := 0 }, w)
    scriptOpcodes_runScript := fun c w => (c, w)
    scriptOpcodes_runScript3 := fun c w => (c, w)
    scriptOpcodes_FUN_800297d8 := fun c w => (0, c, w)
    scene_draw := id
    scene_loadScene := fun _ _ => id
    scene_getPriorityAtPosition := fun _ _ _ => -1
    scene_contains := fun _ _ => true
    screen_updateScreen := id
    system_getMillis := fun _ => 0
    system_delayMillis := fun _ => id
    eventMan_pollEvent := fun w => (none, w)
    quitGame := id
    shouldQuit := fun _ => false }

/-- The idle collaborators with one image region, `[0, 4] × [0, 4]`, for
every resource. -/
def hoverEnv : Env :=
  { Env.idle with getIMG := fun _ => { x := 0, y := 0, w := 4, h := 4, field_a := 0, field_c := 0 } }

/-- A record of scene 1 whose only flag is the script-pending bit 0x10; it
points to actor 0. -/
def pendingRecord : DragonINI :=
  { DragonINI.blank with sceneId := 1, field_1a_flags_maybe := 0x10, actor := some 0 }

/-- A record of scene 1 with a zero flag word. -/
def plainRecord : DragonINI := { DragonINI.blank with sceneId := 1 }

/-- Scene 1 with the player at (64, 16), tile (2, 2); record 0 is the
player record, records 1 and 2 are plain and their regions overlap. -/
def hoverWorld : World :=
  { World.blank with
    sceneId := 1
    records := [pendingRecord, plainRecord, plainRecord]
    flicker := some 0
    actors := fun _ => { Actor.blank with x_pos := 64, y_pos := 16 } }

/-- Scene 1 with the player at (64, 16) and the pending record alone. -/
def pendingWorld : World := { hoverWorld with records := [pendingRecord] }

/-- Successive calls of `engineFlag0x20UpdateFunction`. -/
def engineFlag0x20Updates (env : Env) : Nat → Machine → Run Machine
  | 0, m => .ok m
  | k + 1, m =>
    Except.bind (engineFlag0x20UpdateFunction env m) fun m => engineFlag0x20Updates env k m

/-- A collaborator call that leaves the INI table, the current scene, the
flicker pointer and bit 0x20 of the engine flags as they are. -/
def KeepsRegistry (f : World → World) : Prop :=
  ∀ w, (f w).records = w.records ∧ (f w).sceneId = w.sceneId ∧ (f w).flicker = w.flicker ∧
    anyBit (f w)._flags ENGINE_FLAG_20 = anyBit w._flags ENGINE_FLAG_20

/-- The conditions of the countdown pass on the collaborators: the calls
`engineFlag0x20UpdateFunction` makes keep the registry, and the inventory
is not visible. -/
structure CountdownFrame (env : Env) : Prop where
  cursor_update : KeepsRegistry env.cursor_update
  setActorSequenceId : ∀ n, KeepsRegistry (env.inventory_setActorSequenceId n)
  setPriority : ∀ n, KeepsRegistry (env.inventory_setPriority n)
  updateSequence : ∀ a s, KeepsRegistry (env.actor_updateSequence a s)
  notVisible : ∀ w, env.inventory_isVisible w = false

/-- The flicker record, when it is in the current scene, points to an actor. -/
def FlickerHasActor (w : World) : Prop :=
  ∀ fl, w.getFlickerRecord = some fl → fl.sceneId = (w.sceneId : Int) → fl.actor ≠ none

/-- A record of scene 1 whose countdown is 2. -/
def countdownIni : DragonINI := { DragonINI.blank with sceneId := 1, field_10 := 2 }

/-- Scene 1 with engine flag 0x20 set and the record `countdownIni`. -/
def countdownMachine : Machine :=
  { w := { World.blank with _flags := 0x20, sceneId := 1, records := [countdownIni] }
    log := [] }

/-- The machine a run ends in: the one it returns, or the one it halted
in. -/
def endOf {α : Type} (state : α → Machine) : Run α → Machine
  | .ok a => state a
  | .error e => e.state

/-- A record of scene 1 that points to actor 0, with a zero flag word. -/
def flickerRecord : DragonINI := { DragonINI.blank with sceneId := 1, actor := some 0 }

/-- Scene 1 in Closed mode: the flicker record is record 0 with actor 0, a
target is queued (`data_80072890 = 1`), the latch is 3, input is enabled and
the right mouse button was released this tick. -/
def latchRightClickMachine : Machine :=
  { w := { World.blank with
           bit_flags_8006fbd8 := 3
           _rightMouseButtonUp := true
           sceneId := 1
           records := [flickerRecord]
           flicker := some 0
           cursor := { World.blank.cursor with data_80072890 := 1 } }
    log := [] }

/-- The machine `latchRightClickMachine` without the right-button release. -/
def latchMachine : Machine :=
  { latchRightClickMachine with w := { latchRightClickMachine.w with _rightMouseButtonUp := false } }

/-- The log of `m'` is the log of `m` followed by calls other than
`selectPreviousCursor`. -/
def LogGrows (m m' : Machine) : Prop :=
  ∃ added, m'.log = m.log ++ added ∧ Call.cursor_selectPreviousCursor ∉ added

/-- A collaborator call that leaves the inventory mode (`_type`) and its
one-slot history (`_old_showing_value`) as they are. -/
def KeepsInventoryMode (f : World → World) : Prop :=
  ∀ w, (f w).inventory._type = w.inventory._type ∧
    (f w).inventory._old_showing_value = w.inventory._old_showing_value

/-- Closed mode, input enabled, latch 0, the inventory button released this
tick; configuration variable 7 is 0. -/
def openKeyMachine : Machine :=
  { w := { World.blank with _iKeyUp := true }, log := [] }

/-- Primary mode with remembered mode Secondary, the inventory button
released this tick; configuration variable 7 is 1. -/
def primaryKeyMachine : Machine :=
  { w := { World.blank with
           _iKeyUp := true
           vars := fun i => if i = 7 then 1 else 0
           inventory := { _type := 1, _old_showing_value := 2, _sequenceId := 0 } }
    log := [] }

/-- The world the open transition of the Closed branch hands to
`openInventory`: idle counter 0, mode Primary, remembered mode Closed. -/
def openedWorld (w : World) : World :=
  { w with _counter := 0, inventory := { w.inventory with _type := 1, _old_showing_value := 0 } }

/-- Every world-changing call into the collaborators of `env` that the
loop body can make satisfies `K`. -/
structure AllCalls (K : (World → World) → Prop) (env : Env) : Prop where
  cursor_update : K env.cursor_update
  cursor_updateVisibility : K env.cursor_updateVisibility
  cursor_updateINIUnderCursor : K fun w => (env.cursor_updateINIUnderCursor w).2
  cursor_updatePosition : ∀ x y, K (env.cursor_updatePosition x y)
  cursor_selectPreviousCursor : K env.cursor_selectPreviousCursor
  cursor_executeScript : ∀ c u, K fun w => (env.cursor_executeScript c u w).2.2
  inventory_updateVisibility : K env.inventory_updateVisibility
  inventory_openInventory : K env.inventory_openInventory
  inventory_closeInventory : K env.inventory_closeInventory
  inventory_setActorSequenceId : ∀ n, K (env.inventory_setActorSequenceId n)
  inventory_setPriority : ∀ n, K (env.inventory_setPriority n)
  actor_updateSequence : ∀ a s, K (env.actor_updateSequence a s)
  actor_resetSequenceIP : ∀ a, K (env.actor_resetSequenceIP a)
  actor_pathfinding_maybe : ∀ a x y u, K (env.actor_pathfinding_maybe a x y u)
  actor_walkPath : ∀ a, K (env.actor_walkPath a)
  sequenceOpcodes_execOpcode : ∀ a c, K fun w => (env.sequenceOpcodes_execOpcode a c w).2
  scriptOpcodes_runScript : ∀ c, K fun w => (env.scriptOpcodes_runScript c w).2
  scriptOpcodes_runScript3 : ∀ c, K fun w => (env.scriptOpcodes_runScript3 c w).2
  scriptOpcodes_FUN_800297d8 : ∀ c, K fun w => (env.scriptOpcodes_FUN_800297d8 c w).2.2
  scene_draw : K env.scene_draw
  screen_updateScreen : K env.screen_updateScreen
  system_delayMillis : ∀ ms, K (env.system_delayMillis ms)
  eventMan_pollEvent : K fun w => (env.eventMan_pollEvent w).2
  quitGame : K env.quitGame

/-- The machines `m` and `m'` are in the same inventory mode with the same
remembered mode. -/
def SameMode (m m' : Machine) : Prop :=
  m'.w.inventory._type = m.w.inventory._type ∧
    m'.w.inventory._old_showing_value = m.w.inventory._old_showing_value

/-- Whenever the run `r` returns, it returns a machine in the mode of `m`. -/
structure OkSameMode {α : Type} (state : α → Machine) (m : Machine) (r : Run α) : Prop where
  out : ∀ a, r = .ok a → SameMode m (state a)

/-- The single-slot history of the inventory mode over a tick from `m` to
`m'`: if the mode changed, the remembered mode is the mode `m` was in. -/
def History (m m' : Machine) : Prop :=
  m'.w.inventory._type ≠ m.w.inventory._type →
    m'.w.inventory._old_showing_value = m.w.inventory._type

/-- Whenever the tick `r` returns, the history holds from `m` to its end. -/
structure OkHistory (m : Machine) (r : Run Loop) : Prop where
  out : ∀ l, r = .ok l → History m l.m

/-- Idle collaborators whose event queue holds `hidden` releases of the
left mouse button. -/
def clickEnv : Env :=
  { Env.idle with
    eventMan_pollEvent := fun w =>
      if w.hidden = 0 then (none, w)
      else (some Event.EVENT_LBUTTONUP, { w with hidden := w.hidden - 1 }) }

/-- Scene 3 in Primary mode with remembered mode Closed: `ENGINE_FLAG_8` is
set, the cursor is on the panel hit-target 0x8001, the player record belongs
to scene 1 and one release of the left mouse button is waiting in the event
queue. -/
def panelClickTick : Loop :=
  { actorId := 0
    m := { w := { World.blank with
                  _flags := 8
                  sceneId := 3
                  records := [flickerRecord]
                  flicker := some 0
                  hidden := 1
                  inventory := { _type := 1, _old_showing_value := 0, _sequenceId := 0 }
                  cursor := { World.blank.cursor with _iniUnderCursor := 0x8001 } }
           log := [] } }


/-- A collaborator call that leaves the idle counter and the item in hand
as they are. -/
def KeepsHandAndCounter (f : World → World) : Prop :=
  ∀ w, (f w)._counter = w._counter ∧ (f w).cursor.iniItemInHand = w.cursor.iniItemInHand

/-- Closed mode with input disabled (`ENGINE_FLAG_400` set) and
`ENGINE_FLAG_8` set: the action button was released on the bag hit-target
0x8002 with an empty hand; the latch is 0 and variable 7 is 0. -/
def bagClickMachine : Machine :=
  { w := { World.blank with
           _flags := 0x408
           _leftMouseButtonUp := true
           cursor := { World.blank.cursor with _iniUnderCursor := 0x8002 } }
    log := [] }

/-- Idle collaborators whose look probe `FUN_800297d8` answers 1. -/
def lookEnv : Env :=
  { Env.idle with scriptOpcodes_FUN_800297d8 := fun c w => (1, c, w) }

/-- The machine `latchMachine` with the cursor action 3 queued. -/
def lookLatchMachine : Machine :=
  latchMachine.upd fun w => { w with cursor := { w.cursor with data_800728b0_cursor_seqID := 3 } }

/-- The machine after the first probe of `works_with_obd_data_1` started in
`m0`. -/
def probedMachine (env : Env) (m0 : Machine) : Machine :=
  (works_firstProbe env (works_enter m0)).2.2

/-- The answer of the look probe `FUN_800297d8` of `works_with_obd_data_1`
started in `m0`: on the whole script of the queued object, in the state the
first probe left. -/
def lookAnswer (env : Env) (m0 : Machine) : Nat :=
  (env.scriptOpcodes_FUN_800297d8
    (scriptOpCallAt env (env.getFromOpt ((m0.w.cursor.data_80072890 : Int) - 1)))
    (probedMachine env m0).w).1

/-- The machine in which `works_with_obd_data_1` started in `m0` decides on
the fallback when no body was committed: after the first probe and, for the
queued action 3, the look probe. -/
def fallbackMachine (env : Env) (m0 : Machine) : Machine :=
  (works_lookProbe env ((works_firstProbe env (works_enter m0)).1 &&& 0xfffd)
    (env.getFromOpt ((m0.w.cursor.data_80072890 : Int) - 1) + 8)
    (env.getFromOpt ((m0.w.cursor.data_80072890 : Int) - 1) + 8
      + READ_LE_UINT32 env (env.getFromOpt ((m0.w.cursor.data_80072890 : Int) - 1)))
    { _code := none, _codeEnd := none, _result := 0 } (probedMachine env m0)).2

/-- The world in which `runINIScripts` hands the script of record `i` to
`runScript3`, for the world `w` at the start of the loop body: the pending
bit of the record and `ENGINE_FLAG_8` are cleared. -/
def scriptEntryWorld (i : Nat) (w : World) : World :=
  (w.modifyINI i fun r =>
    { r with field_1a_flags_maybe := andNot32 r.field_1a_flags_maybe INI_FLAG_10 }).clearFlags
      ENGINE_FLAG_8

/-- Idle collaborators whose record scripts set every engine flag. -/
def flagSettingEnv : Env :=
  { Env.idle with
    scriptOpcodes_runScript3 := fun c w => (c, { w with _flags := 0xFFFFFFFF }) }

/-- Idle collaborators with the object buffers 100 bytes apart (object 1 at
100, object 2 at 200) and a probe that answers 1. -/
def tableEnv : Env :=
  { Env.idle with
    getFromOpt := fun i => (100 * (i + 1)).toNat
    cursor_executeScript := fun c _ w => (1, c, w) }

/-- An item used on a target: the cursor action 5 is queued on object 1
(`data_80072890`) and `_data_800728c0` holds the other object, 2. -/
def itemUseMachine : Machine :=
  { w := { World.blank with
           cursor := { World.blank.cursor with data_80072890 := 1, data_800728b0_cursor_seqID := 5 }
           scriptOpcodes := { _data_800728c0 := 2, _data_80071f5c := 0 } }
    log := [] }

/-- The world in which the second probe of `works_with_obd_data_1` runs,
for the world `w` the first probe left: `_data_80071f5c` is 0 and
`_data_800728c0` holds the queued object `_cursor->data_80072890`. -/
def secondProbeWorld (w : World) : World :=
  { w with
    scriptOpcodes :=
      { w.scriptOpcodes with _data_80071f5c := 0, _data_800728c0 := w.cursor.data_80072890 } }

/-- The actor whose sequence program a logged call executes, if any. -/
def Call.sequenceActor : Call → Option Nat
  | .sequenceOpcodes_execOpcode actor _ => some actor
  | _ => none

/-- The actors whose sequence programs the calls of a log execute, in the
order of the log. -/
def executedActors (log : List Call) : List Nat := log.filterMap Call.sequenceActor

/-- An actor with only its ready flag `ACTOR_FLAG_40` set and sequence
timer 0. -/
def readyActor : Actor := { Actor.blank with flags := 0x40 }

/-- The engine flags 0x44 (`ENGINE_FLAG_4` and `ENGINE_FLAG_40`) with the
foreground actor 0 ready. -/
def skippedTick : Machine :=
  { w := { World.blank with
           _flags := 0x44
           actors := fun i => if i = 0 then readyActor else Actor.blank }
    log := [] }

/-- The engine flag `ENGINE_FLAG_4` alone, with the foreground actor 5 ready
and its flag `ACTOR_FLAG_4` set. -/
def blockedTick : Machine :=
  { w := { World.blank with
           _flags := 0x4
           actors := fun i => if i = 5 then { Actor.blank with flags := 0x44 } else Actor.blank }
    log := [] }

/-- The machine `skippedTick` with every engine flag clear. -/
def pausedTick : Machine :=
  { skippedTick with w := { skippedTick.w with _flags := 0 } }

/-- A collaborator call that leaves the two flag words as they are. -/
def KeepsFlags (f : World → World) : Prop :=
  ∀ w, (f w)._flags = w._flags ∧ (f w)._unkFlags1 = w._unkFlags1

/-- Idle collaborators with the SPT entry 3 at address 1000 and every byte
of the resource data equal to 1. -/
def sptEnv : Env :=
  { Env.idle with getFromSpt := fun _ => 1000, mem := fun _ => 1 }

/-- A machine with every engine and auxiliary flag set and one blank record
in the table. -/
def flaggedMachine : Machine :=
  { w := { World.blank with
           _flags := 0xFFFFFFFF
           _unkFlags1 := 0xFFFFFFFF
           records := [DragonINI.blank] }
    log := [] }

/-- The clock value `calulateTimeLeft` reads in the world `w`. -/
def clockOf (env : Env) (w : World) : Nat := env.system_getMillis w % 4294967296

/-- The worlds in which a call of `wait` starts, along a run that starts from
`reset` and in which each call reads a clock value at least the clock value
of the previous call plus the delay the previous call returned; between two
calls the deadline is left alone. -/
inductive Paced (env : Env) : World → Prop
  | start (w0 w : World) : w._nextUpdatetime = (reset w0)._nextUpdatetime → Paced env w
  | next (w w1 : World) : Paced env w →
      w1._nextUpdatetime = (calulateTimeLeft env w).2._nextUpdatetime →
      clockOf env w + (calulateTimeLeft env w).1 ≤ clockOf env w1 → Paced env w1

/-- Idle collaborators with the clock at 1000. -/
def clockEnv : Env := { Env.idle with system_getMillis := fun _ => 1000 }

/-- A collaborator call that leaves the interaction latch as it is. -/
def KeepsLatch (f : World → World) : Prop :=
  ∀ w, (f w).bit_flags_8006fbd8 = w.bit_flags_8006fbd8

/-- Scene 1 with the engine flag `ENGINE_FLAG_20` set and the latch at 0:
the player record is record 0 with actor 0, whose flag `ACTOR_FLAG_10` is
clear. -/
def idleLatchMachine : Machine :=
  { w := { World.blank with
           _flags := 0x20
           sceneId := 1
           records := [flickerRecord]
           flicker := some 0 }
    log := [] }

/-- A collaborator call that leaves the priority layer of every actor as it
is. -/
def KeepsLayers (f : World → World) : Prop :=
  ∀ w i, ((f w).actors i).priorityLayer = (w.actors i).priorityLayer

/-- The machine `m1` has the priority layers of `m`. -/
def SameLayers (m m1 : Machine) : Prop :=
  ∀ i, (m1.w.actors i).priorityLayer = (m.w.actors i).priorityLayer

/-- Scene 1 with the player record pointing to actor 0, which is ready
(`ACTOR_FLAG_40`) with the priority layer 5. -/
def playerLayerMachine : Machine :=
  { w := { World.blank with
           sceneId := 1
           records := [flickerRecord]
           flicker := some 0
           actors := fun i =>
             if i = 0 then { Actor.blank with flags := 0x40, priorityLayer := 5 }
             else Actor.blank }
    log := [] }

/-- The state the first loop of `updateHandler` starts in, after the
sequence pass ended in `ma`: the two visibility updates have run. -/
def updateHandler_loopStart (env : Env) (ma : Machine) : Machine :=
  (ma.ext .cursor_updateVisibility env.cursor_updateVisibility).ext
    .inventory_updateVisibility env.inventory_updateVisibility

/-- The record whose script a logged call runs, if any. -/
def Call.scriptRecord : Call → Option Nat
  | .scriptOpcodes_runScript3 i _ => some i
  | _ => none

/-- The records whose scripts the calls of a log run, in the order of the
log. -/
def scriptsRun (log : List Call) : List Nat := log.filterMap Call.scriptRecord

/-- The state in which the scan of `runINIScripts` reaches record `i`: the
loop body has run for the records before `i`, in ascending order. -/
def runINIScripts_scan (env : Env) (m : Machine) : Nat → Machine
  | 0 => m.enter .runINIScripts
  | i + 1 =>
    match (runINIScripts_scan env m i).w.getINI i with
    | none => runINIScripts_scan env m i
    | some ini => runINIScripts_record env i ini (runINIScripts_scan env m i)

/-- Bit 0x10 of record `i` is set at the moment the scan reaches `i`. -/
def pendingAt (env : Env) (m : Machine) (i : Nat) : Bool :=
  match (runINIScripts_scan env m i).w.getINI i with
  | none => false
  | some ini => anyBit ini.field_1a_flags_maybe INI_FLAG_10

/-- A collaborator call that keeps the number of records. -/
def KeepsTableSize (f : World → World) : Prop :=
  ∀ w, (f w).records.length = w.records.length

/-- A collaborator call that sets no pending bit: a record with bit 0x10
after it had the bit before it. -/
def SetsNoPending (f : World → World) : Prop :=
  ∀ w j r1, (f w).getINI j = some r1 → anyBit r1.field_1a_flags_maybe INI_FLAG_10 = true →
    ∃ r, w.getINI j = some r ∧ anyBit r.field_1a_flags_maybe INI_FLAG_10 = true

/-- Idle collaborators with the object buffers 100 bytes apart, in which the
script of record 1 (code at 208) sets the pending bit of records 0 and 2. -/
def requeueEnv : Env :=
  { Env.idle with
    getFromOpt := fun i => (100 * (i + 1)).toNat
    scriptOpcodes_runScript3 := fun c w =>
      (c, if c._code = some 208 then
            (w.modifyINI 0 fun r => { r with field_1a_flags_maybe := r.field_1a_flags_maybe ||| 0x10 }).modifyINI
              2 fun r => { r with field_1a_flags_maybe := r.field_1a_flags_maybe ||| 0x10 }
          else w) }

/-- Three records of scene 1, the middle one pending. -/
def requeueMachine : Machine :=
  { w := { hoverWorld with records := [plainRecord, pendingRecord, plainRecord] }, log := [] }

/-- A run of the dispatcher that, when it returns, hands `u` to the next
tick as the local `actorId`. -/
def EndsTick (u : Nat) (r : Run Loop) : Prop := ∀ l, r = .ok l → l.actorId = u

/-- The statements of a tick of `gameLoop` before the hover step: the
draw, the update pass, the event polling, the idle counter and fidget, and
the update of `ENGINE_FLAG_8` from the latch. -/
def gameLoop_beforeHover (env : Env) (fuel : Nat) (l : Loop) : Run Machine :=
  Except.bind (updateHandler env fuel (wait env
      ((l.m.ext .scene_draw env.scene_draw).ext .screen_updateScreen env.screen_updateScreen)))
    fun m =>
    Except.bind (updateEvents env fuel m) fun m =>
      Except.bind (gameLoop_fidget env
        ((if m.w.getCurrentSceneId ≠ 2 then m.upd fun w => { w with _sceneId1 := w.getCurrentSceneId }
          else m).setCounter
            (((if m.w.getCurrentSceneId ≠ 2 then
                m.upd fun w => { w with _sceneId1 := w.getCurrentSceneId }
              else m).w._counter + 1) % 4294967296))) fun m =>
        Except.bind (gameLoop_fidgetDone m) fun m =>
          .ok (if m.w.bit_flags_8006fbd8 = 0 then m.upd fun w => w.setFlags ENGINE_FLAG_8 else m)

/-- The loop states in which `gameLoop`, started on `m`, begins a tick: the
state after its initialisation, and the state a tick that began without a
quit request returned. -/
inductive TickStart (env : Env) (fuel : Nat) (m : Machine) : Loop → Prop
  | first : TickStart env fuel m
      { actorId := 0
        m := (((m.upd fun w =>
            { w with cursor := { w.cursor with _cursorActivationSeqOffset := 0 } }).upd
          fun w => { w with bit_flags_8006fbd8 := 0 }).setCounter 0).upd
            fun w => w.setFlags ENGINE_FLAG_8 }
  | next (l l1 : Loop) : TickStart env fuel m l → env.shouldQuit l.m.w = false →
      gameLoop_body env fuel l = .ok l1 → TickStart env fuel m l1

/-- A tick of scene 1 that starts with `actorId` 0, the player on tile
(2, 2). -/
def hoverTick : Loop := { actorId := 0, m := { w := hoverWorld, log := [] } }

/-- A collaborator call that leaves the inventory slots, the item in hand
and the cursor sequence as they are. -/
def KeepsItems (f : World → World) : Prop :=
  ∀ w, (f w).unkArray_uint16 = w.unkArray_uint16 ∧
    (f w).cursor.iniItemInHand = w.cursor.iniItemInHand ∧
    (f w).cursor._sequenceID = w.cursor._sequenceID

/-- Primary mode in scene 1 with `ENGINE_FLAG_8` set and the action button
released: the cursor, in sequence 4 with item 1 in hand, is on item 2, which
lies in slot 1 of the slots [3, 2, 0, 2]; records 0 to 2 exist. -/
def swapMachine : Machine :=
  { w := { hoverWorld with
           _flags := 8
           _leftMouseButtonUp := true
           inventory := { _type := 1, _old_showing_value := 0, _sequenceId := 0 }
           unkArray_uint16 := [3, 2, 0, 2]
           cursor := { World.blank.cursor with _sequenceID := 4, iniItemInHand := 1,
                                               _iniUnderCursor := 2 } }
    log := [] }

/-- The state in which the first loop of `updateHandler` reaches actor `j`:
the sequence pass, the two visibility updates and the loop body for the
actors before `j` have run. -/
def updateHandler_atActor (env : Env) (fuel : Nat) (m : Machine) (j : Nat) : Machine :=
  endOf id (updateHandler_foreground env j 0 (updateHandler_loopStart env
    (endOf id (updateActorSequences env fuel
      (m.upd fun w => { w with data_8006a3a0_flag := w.data_8006a3a0_flag ||| 0x40 })))))

/-- Scene 1 with the player record pointing to actor 0: the player actor 0
is ready (`ACTOR_FLAG_40`) with the priority layer 5, actor 1 is ready with
the priority layer 12. -/
def twoActorsMachine : Machine :=
  { w := { World.blank with
           sceneId := 1
           records := [flickerRecord]
           flicker := some 0
           actors := fun i =>
             if i = 0 then { Actor.blank with flags := 0x40, priorityLayer := 5 }
             else if i = 1 then
               { Actor.blank with _actorID := 1, flags := 0x40, priorityLayer := 12 }
             else Actor.blank }
    log := [] }

/-- The first probe of `works_with_obd_data_1` started in `m`: its result
`uVar4`, the context `local_48` as the probe left it, and the machine. -/
def firstProbeOf (env : Env) (m : Machine) : Nat × ScriptOpCall × Machine :=
  works_firstProbe env (works_enter m)

/-- The second probe of `works_with_obd_data_1` started in `m`: its result
`uVar6`, the context `local_38` and the machine. -/
def secondProbeOf (env : Env) (m : Machine) : Nat × ScriptOpCall × Machine :=
  works_secondProbe env m.w.scriptOpcodes._data_800728c0 (firstProbeOf env m).2.2

/-- The context `local_58` that `works_with_obd_data_1`, started in `m`,
hands to its commit step. -/
def selectedBodyOf (env : Env) (m : Machine) : ScriptOpCall :=
  works_selectBody env (firstProbeOf env m).1 (secondProbeOf env m).1 (firstProbeOf env m).2.1
    (secondProbeOf env m).2.1

/-- Idle collaborators with the object buffers 100 bytes apart (object 1 at
100), whose probe answers 1 and leaves the cursor of its context 20 bytes
further on. -/
def movingProbeEnv : Env :=
  { Env.idle with
    getFromOpt := fun i => (100 * (i + 1)).toNat
    cursor_executeScript := fun c _ w => (1, { c with _code := c._code.map fun p => p + 20 }, w) }

/-- Specification side (§4.5 step 2): the second probe runs the script
program of the other object, the one `_data_800728c0` held at entry
(`uVar2`); the statements are those of `works_secondProbe` with the buffer
looked up by `uVar2`. -/
def works_secondProbe_spec (env : Env) (uVar2 : Nat) (m : Machine) :
    Nat × ScriptOpCall × Machine :=
  if m.w.cursor.data_800728b0_cursor_seqID > 4 then
    let m := m.upd fun w =>
      { w with scriptOpcodes :=
          { w.scriptOpcodes with _data_80071f5c := 0, _data_800728c0 := w.cursor.data_80072890 } }
    let obd := env.getFromOpt ((uVar2 : Int) - 1)
    let local_38 := scriptOpCallAt env obd
    let out := env.cursor_executeScript local_38 1 m.w
    let m := m.ext (.cursor_executeScript local_38 1) fun _ => out.2.2
    let m := m.upd fun w =>
      { w with scriptOpcodes := { w.scriptOpcodes with _data_800728c0 := uVar2 } }
    (out.1, out.2.1, m)
  else (0, { _code := none, _codeEnd := none, _result := 0 }, m)

/-! # Theorems -/

/-! ## Hover resolution -/

theorem tileInIMG_iff (img : IMG) (tileX tileY : Int) :
    tileInIMG img tileX tileY = true ↔
      img.x ≤ tileX ∧ tileX ≤ img.x + img.w ∧ img.y ≤ tileY ∧ tileY ≤ img.y + img.h := by
  simp [tileInIMG, and_assoc]

theorem ipt_scan_eq_zero_iff (env : Env) (sceneId : Nat) (tileX tileY : Int) :
    ∀ (l : List DragonINI) (i : Nat), i + l.length ≤ 65535 →
      (ipt_scan env sceneId tileX tileY l i = 0 ↔
        ∀ ini ∈ l, ¬ PassesScanTest env sceneId tileX tileY ini) := by
  intro l
  induction l with
  | nil => intro i _; simp [ipt_scan]
  | cons ini rest ih =>
    intro i hi
    simp only [List.length_cons] at hi
    have hrest := ih (i + 1) (by omega)
    simp only [ipt_scan, List.mem_cons, forall_eq_or_imp]
    by_cases h1 : ini.sceneId = (sceneId : Int) ∧ ini.field_1a_flags_maybe = 0
    · by_cases h2 : tileInIMG (env.getIMG ini.field_2) tileX tileY = true
      · have hpass : PassesScanTest env sceneId tileX tileY ini :=
          ⟨h1.1, h1.2, (tileInIMG_iff _ _ _).1 h2⟩
        have hmod : (i + 1) % 65536 = i + 1 := Nat.mod_eq_of_lt (by omega)
        simp [h1, h2, hpass, hmod]
      · have hfail : ¬ PassesScanTest env sceneId tileX tileY ini := by
          intro hp
          exact h2 ((tileInIMG_iff _ _ _).2 hp.2.2)
        simp [h1, h2, hfail, hrest]
    · have hfail : ¬ PassesScanTest env sceneId tileX tileY ini := by
        intro hp
        exact h1 ⟨hp.1, hp.2.1⟩
      simp [h1, hfail, hrest]

theorem ipt_scan_first (env : Env) (sceneId : Nat) (tileX tileY : Int) :
    ∀ (l : List DragonINI) (i k : Nat) (ini : DragonINI), i + l.length ≤ 65535 →
      l[k]? = some ini → PassesScanTest env sceneId tileX tileY ini →
      (∀ (j : Nat) (ini' : DragonINI), j < k → l[j]? = some ini' → ¬ PassesScanTest env sceneId tileX tileY ini') →
      ipt_scan env sceneId tileX tileY l i = i + k + 1 := by
  intro l
  induction l with
  | nil => intro i k ini _ hk; simp at hk
  | cons x rest ih =>
    intro i k ini hi hk hpass hmin
    simp only [List.length_cons] at hi
    cases k with
    | zero =>
      simp only [List.getElem?_cons_zero, Option.some.injEq] at hk
      subst hk
      have h2 : tileInIMG (env.getIMG x.field_2) tileX tileY = true :=
        (tileInIMG_iff _ _ _).2 hpass.2.2
      have hmod : (i + 1) % 65536 = i + 1 := Nat.mod_eq_of_lt (by omega)
      simp [ipt_scan, hpass.1, hpass.2.1, h2, hmod]
    | succ k =>
      simp only [List.getElem?_cons_succ] at hk
      have hx : ¬ PassesScanTest env sceneId tileX tileY x := hmin 0 x (by omega) (by simp)
      have hrec := ih (i + 1) k ini (by omega) hk hpass
        (fun j ini' hj hget => hmin (j + 1) ini' (by omega) (by simpa using hget))
      have hstep : ipt_scan env sceneId tileX tileY (x :: rest) i
          = ipt_scan env sceneId tileX tileY rest (i + 1) := by
        simp only [ipt_scan]
        by_cases h1 : x.sceneId = (sceneId : Int) ∧ x.field_1a_flags_maybe = 0
        · have h2 : ¬ tileInIMG (env.getIMG x.field_2) tileX tileY = true := by
            intro h2
            exact hx ⟨h1.1, h1.2, (tileInIMG_iff _ _ _).1 h2⟩
          simp [h1, h2]
        · simp [h1]
      rw [hstep, hrec]
      omega

/-- C1. Hover resolution (`ipt_img_file_related`) is a function of the state
that returns a value only (the registry is not modified).  With the player
tile `(x_pos / 32, y_pos / 8)`, it returns 0 exactly when no record of the
table passes the scan test, and `i + 1` for the smallest table index `i` of
a record that passes it.  The table has at most 65535 records, the range of
the `uint16` count `totalRecords()`. -/
theorem ipt_img_file_related_first_match (env : Env) (w : World) (flicker : DragonINI) (a : Nat)
    (hflicker : w.getFlickerRecord = some flicker) (hactor : flicker.actor = some a)
    (hlen : w.records.length ≤ 65535) :
    ∃ r, ipt_img_file_related env w = .ok r ∧
      (r = 0 ↔ ∀ (i : Nat) (ini : DragonINI), w.records[i]? = some ini →
        ¬ PassesScanTest env w.sceneId (Int.tdiv (w.actors a).x_pos 32)
            (Int.tdiv (w.actors a).y_pos 8) ini) ∧
      (∀ (i : Nat) (ini : DragonINI), w.records[i]? = some ini →
        PassesScanTest env w.sceneId (Int.tdiv (w.actors a).x_pos 32)
            (Int.tdiv (w.actors a).y_pos 8) ini →
        (∀ (j : Nat) (ini' : DragonINI), j < i → w.records[j]? = some ini' →
          ¬ PassesScanTest env w.sceneId (Int.tdiv (w.actors a).x_pos 32)
              (Int.tdiv (w.actors a).y_pos 8) ini') →
        r = i + 1) := by
  refine ⟨ipt_scan env w.getCurrentSceneId (Int.tdiv (w.actors a).x_pos 32)
    (Int.tdiv (w.actors a).y_pos 8) w.records 0, by simp [ipt_img_file_related, hflicker, hactor], ?_, ?_⟩
  · rw [World.getCurrentSceneId, ipt_scan_eq_zero_iff env _ _ _ _ 0 (by omega)]
    constructor
    · intro h i ini hget
      exact h ini (List.mem_iff_getElem?.2 ⟨i, hget⟩)
    · intro h ini hmem
      obtain ⟨i, hi⟩ := List.mem_iff_getElem?.1 hmem
      exact h i ini hi
  · intro i ini hget hpass hmin
    rw [World.getCurrentSceneId, ipt_scan_first env _ _ _ _ 0 i ini (by omega) hget hpass hmin]
    omega

/-- C1 at `hoverWorld`: the scan returns 2, the index of record 1 plus one. -/
theorem ipt_img_file_related_first_match_witness :
    hoverWorld.getFlickerRecord = some pendingRecord ∧ pendingRecord.actor = some 0 ∧
    hoverWorld.records.length ≤ 65535 ∧
    ∃ r, ipt_img_file_related hoverEnv hoverWorld = .ok r ∧
      (r = 0 ↔ ∀ (i : Nat) (ini : DragonINI), hoverWorld.records[i]? = some ini →
        ¬ PassesScanTest hoverEnv hoverWorld.sceneId (Int.tdiv (hoverWorld.actors 0).x_pos 32)
            (Int.tdiv (hoverWorld.actors 0).y_pos 8) ini) ∧
      (∀ (i : Nat) (ini : DragonINI), hoverWorld.records[i]? = some ini →
        PassesScanTest hoverEnv hoverWorld.sceneId (Int.tdiv (hoverWorld.actors 0).x_pos 32)
            (Int.tdiv (hoverWorld.actors 0).y_pos 8) ini →
        (∀ (j : Nat) (ini' : DragonINI), j < i → hoverWorld.records[j]? = some ini' →
          ¬ PassesScanTest hoverEnv hoverWorld.sceneId (Int.tdiv (hoverWorld.actors 0).x_pos 32)
              (Int.tdiv (hoverWorld.actors 0).y_pos 8) ini') →
        r = i + 1) :=
  ⟨rfl, rfl, by decide,
    ipt_img_file_related_first_match hoverEnv hoverWorld pendingRecord 0 rfl rfl (by decide)⟩

/-- C2 as stated fails: in `pendingWorld` record 0 is in the current scene,
its suppression bits 0x4000 and 0x8000 are clear (its flag word is 0x10)
and its region contains the player tile (2, 2), yet `ipt_img_file_related`
returns 0. -/
theorem ipt_img_file_related_skips_pending_record :
    pendingWorld.records[0]? = some pendingRecord ∧
    pendingRecord.sceneId = (pendingWorld.sceneId : Int) ∧
    pendingRecord.field_1a_flags_maybe = 0x10 ∧
    pendingRecord.field_1a_flags_maybe &&& 0x4000 = 0 ∧
    pendingRecord.field_1a_flags_maybe &&& 0x8000 = 0 ∧
    Int.tdiv (pendingWorld.actors 0).x_pos 32 = 2 ∧ Int.tdiv (pendingWorld.actors 0).y_pos 8 = 2 ∧
    TileInRegion hoverEnv 2 2 pendingRecord ∧
    ipt_img_file_related hoverEnv pendingWorld = .ok 0 := by
  refine ⟨rfl, rfl, rfl, by decide, by decide, by decide, by decide, ?_, rfl⟩
  simp [TileInRegion, hoverEnv]

/-- C2, amended. Hover resolution considers every record of the current
scene whose behaviour-flags word is zero: for every such record `i` whose
image region contains the player tile, `ipt_img_file_related` returns a
non-zero result that is at most `i + 1`. -/
theorem ipt_img_file_related_considers_unflagged (env : Env) (w : World) (flicker : DragonINI)
    (a : Nat) (hflicker : w.getFlickerRecord = some flicker) (hactor : flicker.actor = some a)
    (hlen : w.records.length ≤ 65535) (i : Nat) (ini : DragonINI)
    (hget : w.records[i]? = some ini) (hscene : ini.sceneId = (w.getCurrentSceneId : Int))
    (hflags : ini.field_1a_flags_maybe = 0)
    (hin : TileInRegion env (Int.tdiv (w.actors a).x_pos 32) (Int.tdiv (w.actors a).y_pos 8) ini) :
    ∃ r, ipt_img_file_related env w = .ok r ∧ r ≠ 0 ∧ r ≤ i + 1 := by
  have hpass : PassesScanTest env w.sceneId (Int.tdiv (w.actors a).x_pos 32)
      (Int.tdiv (w.actors a).y_pos 8) ini := ⟨hscene, hflags, hin⟩
  have hex : ∃ j, ∃ ini', j ≤ i ∧ w.records[j]? = some ini' ∧
      PassesScanTest env w.sceneId (Int.tdiv (w.actors a).x_pos 32)
        (Int.tdiv (w.actors a).y_pos 8) ini' := ⟨i, ini, le_refl i, hget, hpass⟩
  classical
  have hle := (Nat.find_spec hex)
  obtain ⟨ini', hj, hgetj, hpassj⟩ := hle
  have hmin : ∀ (j : Nat) (x : DragonINI), j < Nat.find hex → w.records[j]? = some x →
      ¬ PassesScanTest env w.sceneId (Int.tdiv (w.actors a).x_pos 32)
        (Int.tdiv (w.actors a).y_pos 8) x := by
    intro j x hlt hx hp
    exact Nat.find_min hex hlt ⟨x, by omega, hx, hp⟩
  refine ⟨ipt_scan env w.getCurrentSceneId (Int.tdiv (w.actors a).x_pos 32)
    (Int.tdiv (w.actors a).y_pos 8) w.records 0,
    by simp [ipt_img_file_related, hflicker, hactor], ?_, ?_⟩
  · rw [World.getCurrentSceneId,
      ipt_scan_first env _ _ _ _ 0 (Nat.find hex) ini' (by omega) hgetj hpassj hmin]
    omega
  · rw [World.getCurrentSceneId,
      ipt_scan_first env _ _ _ _ 0 (Nat.find hex) ini' (by omega) hgetj hpassj hmin]
    omega

/-- C2 amended, at `hoverWorld`: record 2 has a zero flag word and contains
the tile, and the result is non-zero and at most 3. -/
theorem ipt_img_file_related_considers_unflagged_witness :
    hoverWorld.getFlickerRecord = some pendingRecord ∧ pendingRecord.actor = some 0 ∧
    hoverWorld.records.length ≤ 65535 ∧ hoverWorld.records[2]? = some plainRecord ∧
    plainRecord.sceneId = (hoverWorld.getCurrentSceneId : Int) ∧
    plainRecord.field_1a_flags_maybe = 0 ∧
    ∃ r, ipt_img_file_related hoverEnv hoverWorld = .ok r ∧ r ≠ 0 ∧ r ≤ 2 + 1 :=
  ⟨rfl, rfl, by decide, rfl, rfl, rfl,
    ipt_img_file_related_considers_unflagged hoverEnv hoverWorld pendingRecord 0 rfl rfl
      (by decide) 2 plainRecord rfl rfl rfl (by simp [TileInRegion, hoverEnv, hoverWorld]; decide)⟩

/-! ## Priority layer -/

/-- C10. The priority-layer remap of `updateHandler` (a value ≥ 17 becomes
0, then a value ≥ 9 is reduced by 8) is idempotent, for every integer and
so for every 16-bit signed value. -/
theorem remapPriorityLayer_idempotent (x : Int) :
    remapPriorityLayer (remapPriorityLayer x) = remapPriorityLayer x := by
  unfold remapPriorityLayer
  simp only []
  split_ifs <;> omega

/-! ## Countdown pass -/

theorem countdownRecord_sceneId (s : Nat) (ini : DragonINI) :
    (countdownRecord s ini).sceneId = ini.sceneId ∧ (countdownRecord s ini).actor = ini.actor := by
  unfold countdownRecord
  simp only []
  split_ifs <;> exact ⟨rfl, rfl⟩

theorem countdownRecord_negative (s : Nat) (ini : DragonINI) (h : ini.field_10 < 0) :
    countdownRecord s ini = ini := by
  unfold countdownRecord
  have : ¬ (ini.field_10 ≥ 0 ∧ ini.sceneId = (s : Int)) := by
    intro hc
    omega
  simp [this]

theorem countdownRecord_positive (s : Nat) (ini : DragonINI) (n : Nat)
    (hs : ini.sceneId = (s : Int)) (hn : ini.field_10 = (n : Int) + 1) :
    (countdownRecord s ini).field_10 = n ∧
      (countdownRecord s ini).field_1a_flags_maybe = ini.field_1a_flags_maybe ∧
      (countdownRecord s ini).sceneId = (s : Int) := by
  unfold countdownRecord
  have h1 : ini.field_10 ≥ 0 ∧ ini.sceneId = (s : Int) := ⟨by omega, hs⟩
  have h2 : ¬ (ini.field_10 - 1 < 0) := by omega
  simp only []
  rw [if_pos h1, if_neg h2]
  exact ⟨by simp [hn], rfl, hs⟩

theorem countdownRecord_zero (s : Nat) (ini : DragonINI)
    (hs : ini.sceneId = (s : Int)) (hn : ini.field_10 = 0) :
    (countdownRecord s ini).field_10 = -1 ∧
      (countdownRecord s ini).field_1a_flags_maybe = ini.field_1a_flags_maybe ||| INI_FLAG_10 ∧
      (countdownRecord s ini).sceneId = (s : Int) := by
  unfold countdownRecord
  have h1 : ini.field_10 ≥ 0 ∧ ini.sceneId = (s : Int) := ⟨by omega, hs⟩
  have h2 : ini.field_10 - 1 < 0 := by omega
  simp only []
  rw [if_pos h1, if_pos h2]
  exact ⟨by simp [hn], rfl, hs⟩

/-- The record after `k` countdown steps, for a record of the scene whose
countdown starts at `n`. -/
theorem countdownRecord_iterate (s : Nat) :
    ∀ (k n : Nat) (ini : DragonINI), ini.sceneId = (s : Int) → ini.field_10 = (n : Int) →
      (k ≤ n → ((countdownRecord s)^[k] ini).field_10 = (n : Int) - k ∧
        ((countdownRecord s)^[k] ini).field_1a_flags_maybe = ini.field_1a_flags_maybe) ∧
      (n < k → ((countdownRecord s)^[k] ini).field_10 = -1 ∧
        ((countdownRecord s)^[k] ini).field_1a_flags_maybe
          = ini.field_1a_flags_maybe ||| INI_FLAG_10) := by
  intro k
  induction k with
  | zero =>
    intro n ini _ hn
    refine ⟨fun _ => by simp [hn], fun h => by omega⟩
  | succ k ih =>
    intro n ini hs hn
    rw [Function.iterate_succ_apply]
    cases n with
    | zero =>
      have hz := countdownRecord_zero s ini hs (by simpa using hn)
      refine ⟨fun h => by omega, fun _ => ?_⟩
      have hneg : ∀ j : Nat, (countdownRecord s)^[j] (countdownRecord s ini)
          = countdownRecord s ini := by
        intro j
        induction j with
        | zero => rfl
        | succ j ihj =>
          rw [Function.iterate_succ_apply', ihj]
          exact countdownRecord_negative s _ (by rw [hz.1]; omega)
      rw [hneg k]
      exact ⟨hz.1, hz.2.1⟩
    | succ n =>
      have hp := countdownRecord_positive s ini n hs (by simpa using hn)
      have hrec := ih n (countdownRecord s ini) hp.2.2 hp.1
      refine ⟨fun h => ?_, fun h => ?_⟩
      · have := hrec.1 (by omega)
        refine ⟨by rw [this.1]; push_cast; omega, by rw [this.2, hp.2.1]⟩
      · have := hrec.2 (by omega)
        exact ⟨this.1, by rw [this.2, hp.2.1]⟩

theorem FlickerHasActor_of_eq {w w' : World} (h : FlickerHasActor w)
    (hr : w'.records = w.records) (hs : w'.sceneId = w.sceneId) (hf : w'.flicker = w.flicker) :
    FlickerHasActor w' := by
  intro fl hfl hsc
  apply h fl
  · simpa [World.getFlickerRecord, hr, hf] using hfl
  · rw [← hs]; exact hsc

theorem FlickerHasActor_map {w w' : World} (h : FlickerHasActor w) (s : Nat)
    (hr : w'.records = w.records.map (countdownRecord s)) (hs : w'.sceneId = w.sceneId)
    (hf : w'.flicker = w.flicker) : FlickerHasActor w' := by
  intro fl hfl hsc
  simp only [World.getFlickerRecord, hr, hf] at hfl
  cases hfi : w.flicker with
  | none => rw [hfi] at hfl; exact absurd hfl (by simp)
  | some fi =>
    rw [hfi] at hfl
    simp only [List.getElem?_map] at hfl
    change Option.map (countdownRecord s) w.records[fi]? = some fl at hfl
    cases hg : w.records[fi]? with
    | none => rw [hg] at hfl; exact absurd hfl (by simp)
    | some r =>
      rw [hg] at hfl
      simp only [Option.map_some', Option.some.injEq] at hfl
      subst hfl
      have hcr := countdownRecord_sceneId s r
      rw [hcr.2]
      apply h r
      · simp [World.getFlickerRecord, hfi, hg]
      · rw [← hcr.1, ← hs]; exact hsc

/-- The flicker part of the pass returns and keeps the registry. -/
theorem engineFlag0x20_flicker_keeps (env : Env) (hf : CountdownFrame env) (s : Nat) (m : Machine)
    (hfl : FlickerHasActor m.w) (hs : s = m.w.sceneId) :
    ∃ m', engineFlag0x20_flicker env s m = .ok m' ∧ m'.w.records = m.w.records ∧
      m'.w.sceneId = m.w.sceneId ∧ m'.w.flicker = m.w.flicker ∧
      anyBit m'.w._flags ENGINE_FLAG_20 = anyBit m.w._flags ENGINE_FLAG_20 := by
  unfold engineFlag0x20_flicker
  cases hfr : m.w.getFlickerRecord with
  | none => exact ⟨m, rfl, rfl, rfl, rfl, rfl⟩
  | some flickerINI =>
    simp only []
    by_cases hsc : flickerINI.sceneId = (s : Int)
    · simp only [hsc, if_true]
      cases ha : flickerINI.actor with
      | none => exact absurd ha (hfl flickerINI hfr (by rw [← hs]; exact hsc))
      | some a =>
        simp only []
        have h1 := hf.setActorSequenceId 8
        have h2 := hf.setPriority 0
        have h3 := hf.updateSequence
        split_ifs
        · refine ⟨_, rfl, ?_, ?_, ?_, ?_⟩ <;>
            simp [Machine.ext, (h2 _).1, (h2 _).2.1, (h2 _).2.2.1, (h2 _).2.2.2,
              (h1 _).1, (h1 _).2.1, (h1 _).2.2.1, (h1 _).2.2.2]
        · exact ⟨m, rfl, rfl, rfl, rfl, rfl⟩
        · refine ⟨_, rfl, ?_, ?_, ?_, ?_⟩ <;>
            simp [Machine.ext, Machine.upd, (h3 _ _ _).1, (h3 _ _ _).2.1, (h3 _ _ _).2.2.1,
              (h3 _ _ _).2.2.2]
        · refine ⟨_, rfl, ?_, ?_, ?_, ?_⟩ <;> simp [Machine.upd]
        · refine ⟨_, rfl, ?_, ?_, ?_, ?_⟩ <;>
            simp [Machine.ext, Machine.upd, (h3 _ _ _).1, (h3 _ _ _).2.1, (h3 _ _ _).2.2.1,
              (h3 _ _ _).2.2.2]
        · exact ⟨m, rfl, rfl, rfl, rfl, rfl⟩
    · simp only [hsc, if_false]
      have h2 := hf.setPriority 0
      refine ⟨_, rfl, ?_, ?_, ?_, ?_⟩ <;>
        simp [Machine.ext, (h2 _).1, (h2 _).2.1, (h2 _).2.2.1, (h2 _).2.2.2]

theorem engineFlag0x20_cursor_keeps (env : Env) (hf : CountdownFrame env) (m : Machine) :
    (engineFlag0x20_cursor env m).w.records = m.w.records ∧
      (engineFlag0x20_cursor env m).w.sceneId = m.w.sceneId ∧
      (engineFlag0x20_cursor env m).w.flicker = m.w.flicker ∧
      anyBit (engineFlag0x20_cursor env m).w._flags ENGINE_FLAG_20
        = anyBit m.w._flags ENGINE_FLAG_20 := by
  unfold engineFlag0x20_cursor
  split_ifs
  · exact hf.cursor_update m.w
  · exact ⟨rfl, rfl, rfl, rfl⟩

theorem engineFlag0x20_countdown_records (env : Env) (hf : CountdownFrame env) (s : Nat)
    (m : Machine) :
    (engineFlag0x20_countdown env s m).w.records = m.w.records.map (countdownRecord s) ∧
      (engineFlag0x20_countdown env s m).w.sceneId = m.w.sceneId ∧
      (engineFlag0x20_countdown env s m).w.flicker = m.w.flicker ∧
      (engineFlag0x20_countdown env s m).w._flags = m.w._flags := by
  unfold engineFlag0x20_countdown
  simp only [hf.notVisible, Bool.not_false, if_true]
  split_ifs <;> exact ⟨rfl, rfl, rfl, rfl⟩

/-- One call of the pass with flag 0x20 set and the inventory not visible:
it returns, and every record has made one countdown step. -/
theorem engineFlag0x20UpdateFunction_step (env : Env) (hf : CountdownFrame env) (m : Machine)
    (h20 : anyBit m.w._flags ENGINE_FLAG_20 = true) (hfl : FlickerHasActor m.w) :
    ∃ m', engineFlag0x20UpdateFunction env m = .ok m' ∧
      m'.w.records = m.w.records.map (countdownRecord m.w.sceneId) ∧
      m'.w.sceneId = m.w.sceneId ∧ anyBit m'.w._flags ENGINE_FLAG_20 = true ∧
      FlickerHasActor m'.w := by
  unfold engineFlag0x20UpdateFunction
  simp only [h20, if_true]
  obtain ⟨hr, hs, hfi, hb⟩ := engineFlag0x20_cursor_keeps env hf m
  have hfl1 : FlickerHasActor (engineFlag0x20_cursor env m).w :=
    FlickerHasActor_of_eq hfl hr hs hfi
  obtain ⟨m2, hm2, hr2, hs2, hf2, hb2⟩ :=
    engineFlag0x20_flicker_keeps env hf (engineFlag0x20_cursor env m).w.getCurrentSceneId
      (engineFlag0x20_cursor env m) hfl1 rfl
  rw [hm2]
  obtain ⟨hr3, hs3, hf3, hb3⟩ := engineFlag0x20_countdown_records env hf
    (engineFlag0x20_cursor env m).w.getCurrentSceneId m2
  have hsc : (engineFlag0x20_cursor env m).w.getCurrentSceneId = m.w.sceneId := hs
  refine ⟨_, rfl, ?_, ?_, ?_, ?_⟩
  · rw [hr3, hr2, hr, hsc]
  · rw [hs3, hs2, hs]
  · rw [hb3, hb2, hb, h20]
  · exact FlickerHasActor_map hfl m.w.sceneId (by rw [hr3, hr2, hr, hsc]) (by rw [hs3, hs2, hs])
      (by rw [hf3, hf2, hfi])

/-- The registry after `k` calls of the pass. -/
theorem engineFlag0x20Updates_records (env : Env) (hf : CountdownFrame env) :
    ∀ (k : Nat) (m : Machine), anyBit m.w._flags ENGINE_FLAG_20 = true → FlickerHasActor m.w →
      ∃ mk, engineFlag0x20Updates env k m = .ok mk ∧
        mk.w.records = m.w.records.map ((countdownRecord m.w.sceneId)^[k]) := by
  intro k
  induction k with
  | zero => intro m _ _; exact ⟨m, rfl, by simp⟩
  | succ k ih =>
    intro m h20 hfl
    obtain ⟨m1, hm1, hr1, hs1, hb1, hfl1⟩ := engineFlag0x20UpdateFunction_step env hf m h20 hfl
    obtain ⟨mk, hmk, hrk⟩ := ih m1 hb1 hfl1
    refine ⟨mk, by simp [engineFlag0x20Updates, hm1, hmk, Except.bind], ?_⟩
    rw [hrk, hr1, hs1, List.map_map]
    congr 1

/-- C9. For a record of the current scene with countdown `field_10 = n ≥ 0`,
under repeated `engineFlag0x20UpdateFunction` calls with engine flag 0x20
set and the inventory not visible: after `k ≤ n` calls the countdown is
`n - k` and the flag word is unchanged; after any `k > n` calls the
countdown is -1 and the flag word is the original one with bit 0x10 set
(set by call `n + 1`, unchanged by every later call); and from any state, a
call leaves a record with a negative countdown as it is, whatever its flag
word.  The collaborators the pass calls keep the registry. -/
theorem countdown_sets_script_pending_once (env : Env) (hf : CountdownFrame env) (m : Machine)
    (h20 : anyBit m.w._flags ENGINE_FLAG_20 = true) (hfl : FlickerHasActor m.w)
    (i : Nat) (ini : DragonINI) (n : Nat) (hget : m.w.records[i]? = some ini)
    (hscene : ini.sceneId = (m.w.getCurrentSceneId : Int)) (hn : ini.field_10 = (n : Int)) :
    (∀ k, k ≤ n → ∃ mk r, engineFlag0x20Updates env k m = .ok mk ∧ mk.w.records[i]? = some r ∧
        r.field_10 = (n : Int) - k ∧ r.field_1a_flags_maybe = ini.field_1a_flags_maybe) ∧
    (∀ k, n < k → ∃ mk r, engineFlag0x20Updates env k m = .ok mk ∧ mk.w.records[i]? = some r ∧
        r.field_10 = -1 ∧ r.field_1a_flags_maybe = ini.field_1a_flags_maybe ||| INI_FLAG_10) ∧
    (∀ (m' : Machine) (r : DragonINI), anyBit m'.w._flags ENGINE_FLAG_20 = true →
        FlickerHasActor m'.w → m'.w.records[i]? = some r → r.field_10 < 0 →
        ∃ m'', engineFlag0x20UpdateFunction env m' = .ok m'' ∧ m''.w.records[i]? = some r) := by
  refine ⟨fun k hk => ?_, fun k hk => ?_, fun m' r h20' hfl' hget' hneg => ?_⟩
  · obtain ⟨mk, hmk, hrk⟩ := engineFlag0x20Updates_records env hf k m h20 hfl
    have hit := (countdownRecord_iterate m.w.sceneId k n ini hscene hn).1 hk
    exact ⟨mk, _, hmk, by rw [hrk, List.getElem?_map, hget]; rfl, hit.1, hit.2⟩
  · obtain ⟨mk, hmk, hrk⟩ := engineFlag0x20Updates_records env hf k m h20 hfl
    have hit := (countdownRecord_iterate m.w.sceneId k n ini hscene hn).2 hk
    exact ⟨mk, _, hmk, by rw [hrk, List.getElem?_map, hget]; rfl, hit.1, hit.2⟩
  · obtain ⟨m1, hm1, hr1, _, _, _⟩ := engineFlag0x20UpdateFunction_step env hf m' h20' hfl'
    refine ⟨m1, hm1, ?_⟩
    rw [hr1, List.getElem?_map, hget']
    simp [countdownRecord_negative _ r hneg]


theorem KeepsRegistry_id : KeepsRegistry id := fun _ => ⟨rfl, rfl, rfl, rfl⟩

theorem CountdownFrame_idle : CountdownFrame Env.idle :=
  { cursor_update := KeepsRegistry_id
    setActorSequenceId := fun _ => KeepsRegistry_id
    setPriority := fun _ => KeepsRegistry_id
    updateSequence := fun _ _ => KeepsRegistry_id
    notVisible := fun _ => rfl }

/-- C9 at `countdownMachine` with idle collaborators: the countdown 2 of
record 0 goes 2, 1, 0 over the first two calls and is -1 with bit 0x10 set
from the third call on. -/
theorem countdown_sets_script_pending_once_witness :
    CountdownFrame Env.idle ∧ anyBit countdownMachine.w._flags ENGINE_FLAG_20 = true ∧
    FlickerHasActor countdownMachine.w ∧ countdownMachine.w.records[0]? = some countdownIni ∧
    countdownIni.sceneId = (countdownMachine.w.getCurrentSceneId : Int) ∧
    countdownIni.field_10 = ((2 : Nat) : Int) ∧
    ((∀ k, k ≤ 2 → ∃ mk r, engineFlag0x20Updates Env.idle k countdownMachine = .ok mk ∧
        mk.w.records[0]? = some r ∧ r.field_10 = ((2 : Nat) : Int) - k ∧
        r.field_1a_flags_maybe = countdownIni.field_1a_flags_maybe) ∧
    (∀ k, 2 < k → ∃ mk r, engineFlag0x20Updates Env.idle k countdownMachine = .ok mk ∧
        mk.w.records[0]? = some r ∧ r.field_10 = -1 ∧
        r.field_1a_flags_maybe = countdownIni.field_1a_flags_maybe ||| INI_FLAG_10) ∧
    (∀ (m' : Machine) (r : DragonINI), anyBit m'.w._flags ENGINE_FLAG_20 = true →
        FlickerHasActor m'.w → m'.w.records[0]? = some r → r.field_10 < 0 →
        ∃ m'', engineFlag0x20UpdateFunction Env.idle m' = .ok m'' ∧
          m''.w.records[0]? = some r)) :=
  ⟨CountdownFrame_idle, by decide, fun fl h => by simp [World.getFlickerRecord, countdownMachine, World.blank] at h,
    rfl, rfl, rfl,
    countdown_sets_script_pending_once Env.idle CountdownFrame_idle countdownMachine (by decide)
      (fun fl h => by simp [World.getFlickerRecord, countdownMachine, World.blank] at h)
      0 countdownIni 2 rfl rfl rfl⟩

/-! ## The dispatcher: latch and right button -/

theorem LogGrows_refl (m : Machine) : LogGrows m m := ⟨[], by simp, by simp⟩

theorem LogGrows_trans {a b c : Machine} (h1 : LogGrows a b) (h2 : LogGrows b c) :
    LogGrows a c := by
  obtain ⟨x, hx, hx'⟩ := h1
  obtain ⟨y, hy, hy'⟩ := h2
  exact ⟨x ++ y, by rw [hy, hx, List.append_assoc], by simp [hx', hy']⟩

theorem LogGrows_of_log {m m' : Machine} (h : m'.log = m.log) : LogGrows m m' :=
  ⟨[], by simp [h], by simp⟩

theorem LogGrows_ext (m : Machine) (c : Call) (f : World → World)
    (hc : c ≠ Call.cursor_selectPreviousCursor) : LogGrows m (m.ext c f) :=
  ⟨[c], rfl, by simpa using hc.symm⟩

theorem LogGrows_enter (m : Machine) (c : Call)
    (hc : c ≠ Call.cursor_selectPreviousCursor) : LogGrows m (m.enter c) :=
  ⟨[c], rfl, by simpa using hc.symm⟩

theorem works_firstProbe_log (env : Env) (m : Machine) :
    LogGrows m (works_firstProbe env m).2.2 := by
  simp [LogGrows, works_firstProbe, Machine.ext]

theorem works_secondProbe_log (env : Env) (uVar2 : Nat) (m : Machine) :
    LogGrows m (works_secondProbe env uVar2 m).2.2 := by
  unfold works_secondProbe
  split_ifs <;> simp [LogGrows, Machine.ext, Machine.upd]

theorem works_commit_log (env : Env) (c : ScriptOpCall) (m : Machine) :
    LogGrows m (works_commit env c m).2 := by
  unfold works_commit
  split_ifs <;> simp [LogGrows, Machine.ext, Machine.upd]

theorem FUN_8002931c_body_log (m : Machine) :
    (FUN_8002931c_body m).log = m.log ++ [Call.FUN_8002931c] := by
  unfold FUN_8002931c_body
  simp only []
  split
  · rfl
  · split
    · rfl
    · split_ifs <;> rfl

theorem works_lookProbe_log (env : Env) (uVar4 pvVar7 pvVar8 : Nat) (c : ScriptOpCall)
    (m : Machine) : LogGrows m (works_lookProbe env uVar4 pvVar7 pvVar8 c m).2 := by
  unfold works_lookProbe
  split_ifs <;> simp [LogGrows, Machine.ext]

theorem works_with_obd_data_1_finish_log (env : Env) (uVar1 uVar4 uVar6 pvVar7 pvVar8 : Nat)
    (c : ScriptOpCall) (m : Machine) :
    LogGrows m (endOf id (works_with_obd_data_1_finish env uVar1 uVar4 uVar6 pvVar7 pvVar8 c m)) := by
  unfold works_with_obd_data_1_finish
  have hl := works_lookProbe_log env uVar4 pvVar7 pvVar8 c m
  split_ifs
  · refine LogGrows_trans hl ?_
    simp [FUN_8002931c, Machine.halt, endOf, LogGrows, FUN_8002931c_body_log, Except.bind]
  · exact LogGrows_trans hl (LogGrows_of_log rfl)
  · exact LogGrows_of_log rfl

theorem works_resolve_log (env : Env) (uVar1 uVar2 : Nat) (m : Machine) :
    LogGrows m (endOf id (works_resolve env uVar1 uVar2 m)) :=
  LogGrows_trans (LogGrows_trans (LogGrows_trans (works_firstProbe_log env m)
    (works_secondProbe_log env uVar2 _)) (works_commit_log env _ _))
    (works_with_obd_data_1_finish_log env _ _ _ _ _ _ _)

theorem works_with_obd_data_1_log (env : Env) (m : Machine) :
    ∃ added, (endOf id (works_with_obd_data_1 env m)).log
        = m.log ++ Call.works_with_obd_data_1 :: added ∧
      Call.cursor_selectPreviousCursor ∉ added := by
  unfold works_with_obd_data_1
  simp only []
  split_ifs with h
  · obtain ⟨added, ha, hn⟩ := works_resolve_log env m.w._flags m.w.scriptOpcodes._data_800728c0
      (works_enter m)
    refine ⟨added, ?_, hn⟩
    rw [ha]
    simp [works_enter, Machine.upd, Machine.enter]
  · exact ⟨[], rfl, by simp⟩

theorem gameLoop_latch3_queue_ok (m : Machine) (flicker : DragonINI) (a : Nat)
    (hflicker : m.w.getFlickerRecord = some flicker) (hactor : flicker.actor = some a)
    (hd : m.w.cursor.data_80072890 ≤ m.w.records.length)
    (hc : m.w.scriptOpcodes._data_800728c0 ≤ m.w.records.length) :
    ∃ m0, gameLoop_latch3_queue m = .ok m0 ∧ m0.w.bit_flags_8006fbd8 = 0 ∧ m0.log = m.log := by
  unfold gameLoop_latch3_queue
  have hfl : (m.upd fun w => { w with bit_flags_8006fbd8 := 0 }).w.getFlickerRecord
      = some flicker := hflicker
  simp only [hfl, hactor]
  dsimp only [Machine.upd, World.getINI, World.getCurrentSceneId]
  split_ifs with h1 h2 h3 h4 h5
  · obtain ⟨ini, hini⟩ : ∃ ini, m.w.records[m.w.cursor.data_80072890 - 1]? = some ini :=
      ⟨_, List.getElem?_eq_getElem (by omega)⟩
    rw [hini]
    exact ⟨_, rfl, rfl, rfl⟩
  · exact ⟨_, rfl, rfl, rfl⟩
  · obtain ⟨ini, hini⟩ : ∃ ini, m.w.records[m.w.scriptOpcodes._data_800728c0 - 1]? = some ini :=
      ⟨_, List.getElem?_eq_getElem (by omega)⟩
    rw [hini]
    exact ⟨_, rfl, rfl, rfl⟩
  all_goals exact ⟨_, rfl, rfl, rfl⟩

theorem gameLoop_latch3_flag8_log (m : Machine) :
    (endOf id (gameLoop_latch3_flag8 m)).log = m.log := by
  unfold gameLoop_latch3_flag8
  split_ifs
  · split
    · rfl
    · split_ifs <;> rfl
  · rfl

theorem gameLoop_latch3_finish_log (uVar3 : Nat) (m : Machine) :
    (endOf Loop.m (gameLoop_latch3_finish uVar3 m)).log = m.log := by
  have h := gameLoop_latch3_flag8_log m
  unfold gameLoop_latch3_finish
  cases hf : gameLoop_latch3_flag8 m with
  | error e => rw [hf] at h; exact h
  | ok m1 => rw [hf] at h; exact h

/-- C3 as stated fails: in `latchRightClickMachine` the latch is 3 at the
start of the dispatch, the right button was released and input is enabled;
the tick runs `selectPreviousCursor` alone and the latch is still 3. -/
theorem gameLoop_right_button_preempts_latch3 :
    latchRightClickMachine.w.bit_flags_8006fbd8 = 3 ∧
    latchRightClickMachine.w._rightMouseButtonUp = true ∧
    latchRightClickMachine.w.isInputEnabled = true ∧
    ∃ l, gameLoop_dispatch Env.idle 0 0 latchRightClickMachine = .ok l ∧
      l.m.log = [Call.cursor_selectPreviousCursor] ∧ l.m.w.bit_flags_8006fbd8 = 3 :=
  ⟨rfl, rfl, rfl, _, rfl, rfl, rfl⟩

/-- C3, amended. In a tick whose latch `bit_flags_8006fbd8` is 3 when the
dispatch starts: if the right mouse button was released this tick and input
is enabled, the tick runs the cursor cycling (`selectPreviousCursor`), resets
the idle counter and ends, without touching the latch; otherwise the tick
resets the latch to 0, runs `works_with_obd_data_1` on a state whose latch is
0, and `selectPreviousCursor` is not called on that tick.  The flicker
record has an actor and the queued object ids name records of the table. -/
theorem gameLoop_dispatch_latch3 (env : Env) (fuel uVar3 : Nat) (m : Machine)
    (flicker : DragonINI) (a : Nat) (h3 : m.w.bit_flags_8006fbd8 = 3)
    (hflicker : m.w.getFlickerRecord = some flicker) (hactor : flicker.actor = some a)
    (hd : m.w.cursor.data_80072890 ≤ m.w.records.length)
    (hc : m.w.scriptOpcodes._data_800728c0 ≤ m.w.records.length) :
    ((m.w._rightMouseButtonUp && m.w.isInputEnabled) = true →
      gameLoop_dispatch env fuel uVar3 m = .ok
        { actorId := uVar3
          m := (m.ext .cursor_selectPreviousCursor env.cursor_selectPreviousCursor).setCounter 0 }) ∧
    ((m.w._rightMouseButtonUp && m.w.isInputEnabled) = false →
      ∃ m0, m0.w.bit_flags_8006fbd8 = 0 ∧ m0.log = m.log ∧
        gameLoop_dispatch env fuel uVar3 m =
          (Except.bind (works_with_obd_data_1 env m0) fun m1 => gameLoop_latch3_finish uVar3 m1) ∧
        ∃ added, (endOf Loop.m (gameLoop_dispatch env fuel uVar3 m)).log
            = m.log ++ Call.works_with_obd_data_1 :: added ∧
          Call.cursor_selectPreviousCursor ∉ added) := by
  constructor
  · intro hr
    simp [gameLoop_dispatch, hr]
  · intro hr
    obtain ⟨m0, hq, hl0, hlog0⟩ := gameLoop_latch3_queue_ok m flicker a hflicker hactor hd hc
    have hdisp : gameLoop_dispatch env fuel uVar3 m =
        (Except.bind (works_with_obd_data_1 env m0) fun m1 => gameLoop_latch3_finish uVar3 m1) := by
      simp only [gameLoop_dispatch, hr, h3, gameLoop_latch3, hq, Bool.false_eq_true, if_false,
        if_true]
      rfl
    refine ⟨m0, hl0, hlog0, hdisp, ?_⟩
    obtain ⟨added, ha, hn⟩ := works_with_obd_data_1_log env m0
    refine ⟨added, ?_, hn⟩
    rw [hdisp, ← hlog0, ← ha]
    cases hw : works_with_obd_data_1 env m0 with
    | error e => rfl
    | ok m1 => exact gameLoop_latch3_finish_log uVar3 m1

/-- C3 amended, at `latchMachine` with idle collaborators: without the
right-button release the tick resolves the interaction. -/
theorem gameLoop_dispatch_latch3_witness :
    latchMachine.w.bit_flags_8006fbd8 = 3 ∧
    latchMachine.w.getFlickerRecord = some flickerRecord ∧ flickerRecord.actor = some 0 ∧
    ((latchMachine.w._rightMouseButtonUp && latchMachine.w.isInputEnabled) = true →
      gameLoop_dispatch Env.idle 0 0 latchMachine = .ok
        { actorId := 0
          m := (latchMachine.ext .cursor_selectPreviousCursor
            Env.idle.cursor_selectPreviousCursor).setCounter 0 }) ∧
    ((latchMachine.w._rightMouseButtonUp && latchMachine.w.isInputEnabled) = false →
      ∃ m0, m0.w.bit_flags_8006fbd8 = 0 ∧ m0.log = latchMachine.log ∧
        gameLoop_dispatch Env.idle 0 0 latchMachine =
          (Except.bind (works_with_obd_data_1 Env.idle m0) fun m1 => gameLoop_latch3_finish 0 m1) ∧
        ∃ added, (endOf Loop.m (gameLoop_dispatch Env.idle 0 0 latchMachine)).log
            = latchMachine.log ++ Call.works_with_obd_data_1 :: added ∧
          Call.cursor_selectPreviousCursor ∉ added) :=
  ⟨rfl, rfl, rfl,
    gameLoop_dispatch_latch3 Env.idle 0 0 latchMachine flickerRecord 0 rfl rfl rfl
      (by decide) (by decide)⟩

/-! ## Inventory toggle -/

theorem KeepsInventoryMode_id : KeepsInventoryMode id := fun _ => ⟨rfl, rfl⟩

/-- The open tick of the Closed branch: the inventory button is released,
input is enabled, the latch is not walking and variable 7 is not 1. -/
theorem gameLoop_dispatch_open (env : Env) (fuel uVar3 : Nat) (m : Machine)
    (hclosed : m.w.inventory._type = 0) (hvar : m.w.getVar 7 ≠ 1)
    (hkey : m.w._iKeyUp = true) (hinput : m.w.isInputEnabled = true)
    (hlatch : m.w.bit_flags_8006fbd8 &&& 3 ≠ 1) (hright : m.w._rightMouseButtonUp = false)
    (hlatch3 : m.w.bit_flags_8006fbd8 ≠ 3) :
    gameLoop_dispatch env fuel uVar3 m =
      joined_r0x80027a38 uVar3
        { w := env.inventory_openInventory (openedWorld m.w)
          log := m.log ++ [Call.inventory_openInventory] } := by
  have hv : m.w.vars 7 ≠ 1 := hvar
  simp [gameLoop_dispatch, gameLoop_closed, joined_r0x800271d0, hclosed, hv, hkey, hinput,
    hlatch, hright, hlatch3, World.checkForInventoryButtonRelease, Machine.setOldShowing,
    Machine.setType, Machine.upd, Machine.setCounter, World.getVar, Machine.ext, openedWorld]

/-- The close tick of the Primary branch: the inventory button is released
and the dispatch reaches the Primary branch. -/
theorem gameLoop_dispatch_close (env : Env) (fuel uVar3 : Nat) (m : Machine)
    (hprimary : m.w.inventory._type = 1) (hkey : m.w._iKeyUp = true)
    (hright : (m.w._rightMouseButtonUp && m.w.isInputEnabled) = false)
    (hlatch3 : m.w.bit_flags_8006fbd8 ≠ 3) :
    gameLoop_dispatch env fuel uVar3 m =
      LAB_80027970 env uVar3 (m.setCounter 0) := by
  simp [gameLoop_dispatch, gameLoop_primary, hprimary, hkey, hright, hlatch3,
    World.checkForInventoryButtonRelease]

theorem joined_r0x80027a38_ok (uVar3 : Nat) (m : Machine) :
    ∃ l, joined_r0x80027a38 uVar3 m = .ok l ∧ l.actorId = uVar3 ∧ l.m.log = m.log ∧
      l.m.w = { m.w with cursor := { m.w.cursor with
        _sequenceID := if m.w.cursor.iniItemInHand = 0 then 1 else 5 } } := by
  unfold joined_r0x80027a38
  split_ifs with h <;> exact ⟨_, rfl, rfl, rfl, rfl⟩

/-- C5. Inventory toggle round trip.  Starting in Closed mode with
configuration variable 7 equal to 0, an open tick (inventory button
released, input enabled, latch & 3 ≠ 1, no right-button release, latch ≠ 3)
puts the inventory in Primary mode; and a following close tick (inventory
button released in that Primary mode with that remembered mode, the dispatch
reaching the Primary branch) puts it back in Closed, the mode before the
open tick.  `openInventory` and `closeInventory` leave the mode and its
history alone. -/
theorem inventory_toggle_round_trip (env : Env) (fuel uVar3 uVar3' : Nat) (m : Machine)
    (hopen : KeepsInventoryMode env.inventory_openInventory)
    (hclose : KeepsInventoryMode env.inventory_closeInventory)
    (hclosed : m.w.inventory._type = 0) (hvar : m.w.getVar 7 = 0)
    (hkey : m.w.checkForInventoryButtonRelease = true) (hinput : m.w.isInputEnabled = true)
    (hlatch : m.w.bit_flags_8006fbd8 &&& 3 ≠ 1) (hright : m.w._rightMouseButtonUp = false)
    (hlatch3 : m.w.bit_flags_8006fbd8 ≠ 3) :
    ∃ l1, gameLoop_dispatch env fuel uVar3 m = .ok l1 ∧ l1.m.w.inventory._type = 1 ∧
      ∀ m2 : Machine, m2.w.inventory._type = l1.m.w.inventory._type →
        m2.w.inventory._old_showing_value = l1.m.w.inventory._old_showing_value →
        m2.w.checkForInventoryButtonRelease = true →
        (m2.w._rightMouseButtonUp && m2.w.isInputEnabled) = false →
        m2.w.bit_flags_8006fbd8 ≠ 3 →
        ∃ l2, gameLoop_dispatch env fuel uVar3' m2 = .ok l2 ∧
          l2.m.w.inventory._type = 0 ∧ l2.m.w.inventory._type = m.w.inventory._type := by
  have hv : m.w.getVar 7 ≠ 1 := by rw [hvar]; decide
  obtain ⟨l1, hl1, _, _, hw1⟩ := joined_r0x80027a38_ok uVar3
    { w := env.inventory_openInventory (openedWorld m.w)
      log := m.log ++ [Call.inventory_openInventory] }
  have htype1 : l1.m.w.inventory._type = 1 := by
    rw [hw1]
    exact (hopen (openedWorld m.w)).1
  have hold1 : l1.m.w.inventory._old_showing_value = 0 := by
    rw [hw1]
    exact (hopen (openedWorld m.w)).2
  refine ⟨l1, ?_, htype1, ?_⟩
  · rw [gameLoop_dispatch_open env fuel uVar3 m hclosed hv hkey hinput hlatch hright hlatch3]
    exact hl1
  · intro m2 ht ho hk hr h3
    rw [htype1] at ht
    rw [hold1] at ho
    rw [gameLoop_dispatch_close env fuel uVar3' m2 ht hk hr h3]
    refine ⟨_, rfl, ?_, ?_⟩
    · show (env.inventory_closeInventory (m2.setCounter 0).w).inventory._old_showing_value = 0
      rw [(hclose _).2]
      exact ho
    · show (env.inventory_closeInventory (m2.setCounter 0).w).inventory._old_showing_value
          = m.w.inventory._type
      rw [(hclose _).2, hclosed]
      exact ho

/-- C5 at `openKeyMachine` with idle collaborators. -/
theorem inventory_toggle_round_trip_witness :
    KeepsInventoryMode Env.idle.inventory_openInventory ∧
    KeepsInventoryMode Env.idle.inventory_closeInventory ∧
    openKeyMachine.w.inventory._type = 0 ∧ openKeyMachine.w.getVar 7 = 0 ∧
    openKeyMachine.w.checkForInventoryButtonRelease = true ∧
    openKeyMachine.w.isInputEnabled = true ∧
    ∃ l1, gameLoop_dispatch Env.idle 0 0 openKeyMachine = .ok l1 ∧ l1.m.w.inventory._type = 1 ∧
      ∀ m2 : Machine, m2.w.inventory._type = l1.m.w.inventory._type →
        m2.w.inventory._old_showing_value = l1.m.w.inventory._old_showing_value →
        m2.w.checkForInventoryButtonRelease = true →
        (m2.w._rightMouseButtonUp && m2.w.isInputEnabled) = false →
        m2.w.bit_flags_8006fbd8 ≠ 3 →
        ∃ l2, gameLoop_dispatch Env.idle 0 0 m2 = .ok l2 ∧
          l2.m.w.inventory._type = 0 ∧ l2.m.w.inventory._type = openKeyMachine.w.inventory._type :=
  ⟨KeepsInventoryMode_id, KeepsInventoryMode_id, rfl, rfl, rfl, rfl,
    inventory_toggle_round_trip Env.idle 0 0 0 openKeyMachine KeepsInventoryMode_id
      KeepsInventoryMode_id rfl rfl rfl rfl (by decide) rfl (by decide)⟩

/-- C6 as stated fails: in `primaryKeyMachine` the mode is Primary, the
remembered mode is Secondary and variable 7 is 1; on the release of the
inventory button the resulting mode is Secondary (2), not Closed. -/
theorem primary_close_ignores_variable_7 :
    primaryKeyMachine.w.inventory._type = 1 ∧
    primaryKeyMachine.w.inventory._old_showing_value = 2 ∧
    primaryKeyMachine.w.getVar 7 = 1 ∧
    primaryKeyMachine.w.checkForInventoryButtonRelease = true ∧
    ∃ l, gameLoop_dispatch Env.idle 0 0 primaryKeyMachine = .ok l ∧
      l.m.w.inventory._type = 2 :=
  ⟨rfl, rfl, rfl, rfl, _, rfl, rfl⟩

/-- C6, amended. In Primary mode, when the inventory button is released and
the dispatch reaches the Primary branch, the resulting mode is the
remembered previous mode `_old_showing_value` (Closed when it is Closed,
Secondary when it is Secondary) and the remembered mode becomes Primary,
whatever the value of configuration variable 7: the variable is not read in
this transition.  `closeInventory` leaves the mode and its history alone. -/
theorem primary_close_restores_previous_mode (env : Env) (fuel uVar3 : Nat) (m : Machine)
    (hclose : KeepsInventoryMode env.inventory_closeInventory)
    (hprimary : m.w.inventory._type = 1) (hkey : m.w.checkForInventoryButtonRelease = true)
    (hright : (m.w._rightMouseButtonUp && m.w.isInputEnabled) = false)
    (hlatch3 : m.w.bit_flags_8006fbd8 ≠ 3) :
    ∃ l, gameLoop_dispatch env fuel uVar3 m = .ok l ∧
      l.m.w.inventory._type = m.w.inventory._old_showing_value ∧
      l.m.w.inventory._old_showing_value = 1 ∧
      ∀ vars : Nat → Nat, ∃ l',
        gameLoop_dispatch env fuel uVar3 { m with w := { m.w with vars := vars } } = .ok l' ∧
        l'.m.w.inventory._type = m.w.inventory._old_showing_value := by
  have key : ∀ m : Machine, m.w.inventory._type = 1 → m.w.checkForInventoryButtonRelease = true →
      (m.w._rightMouseButtonUp && m.w.isInputEnabled) = false → m.w.bit_flags_8006fbd8 ≠ 3 →
      ∃ l, gameLoop_dispatch env fuel uVar3 m = .ok l ∧
        l.m.w.inventory._type = m.w.inventory._old_showing_value ∧
        l.m.w.inventory._old_showing_value = 1 := by
    intro m hp hk hr h3
    rw [gameLoop_dispatch_close env fuel uVar3 m hp hk hr h3]
    refine ⟨_, rfl, ?_, ?_⟩
    · show (env.inventory_closeInventory (m.setCounter 0).w).inventory._old_showing_value
          = m.w.inventory._old_showing_value
      rw [(hclose _).2]
      rfl
    · show (env.inventory_closeInventory (m.setCounter 0).w).inventory._type = 1
      rw [(hclose _).1]
      exact hp
  obtain ⟨l, hl, ht, ho⟩ := key m hprimary hkey hright hlatch3
  refine ⟨l, hl, ht, ho, fun vars => ?_⟩
  obtain ⟨l', hl', ht', _⟩ := key { m with w := { m.w with vars := vars } } hprimary hkey hright
    hlatch3
  exact ⟨l', hl', ht'⟩

/-- C6 amended, at `primaryKeyMachine` with idle collaborators. -/
theorem primary_close_restores_previous_mode_witness :
    KeepsInventoryMode Env.idle.inventory_closeInventory ∧
    primaryKeyMachine.w.inventory._type = 1 ∧
    primaryKeyMachine.w.checkForInventoryButtonRelease = true ∧
    ∃ l, gameLoop_dispatch Env.idle 0 0 primaryKeyMachine = .ok l ∧
      l.m.w.inventory._type = primaryKeyMachine.w.inventory._old_showing_value ∧
      l.m.w.inventory._old_showing_value = 1 ∧
      ∀ vars : Nat → Nat, ∃ l',
        gameLoop_dispatch Env.idle 0 0
          { primaryKeyMachine with w := { primaryKeyMachine.w with vars := vars } } = .ok l' ∧
        l'.m.w.inventory._type = primaryKeyMachine.w.inventory._old_showing_value :=
  ⟨KeepsInventoryMode_id, rfl, rfl,
    primary_close_restores_previous_mode Env.idle 0 0 primaryKeyMachine KeepsInventoryMode_id
      rfl rfl rfl (by decide)⟩

/-! ## The inventory mode is changed by the dispatcher alone -/

theorem SameMode_refl (m : Machine) : SameMode m m := ⟨rfl, rfl⟩

theorem SameMode_trans {a b c : Machine} (h1 : SameMode a b) (h2 : SameMode b c) :
    SameMode a c := ⟨h2.1.trans h1.1, h2.2.trans h1.2⟩

theorem SameMode_ext_right {m m1 : Machine} {c : Call} {f : World → World}
    (hf : KeepsInventoryMode f) (h : SameMode m m1) : SameMode m (m1.ext c f) :=
  SameMode_trans h (hf m1.w)

theorem SameMode_upd_right {m m1 : Machine} {g : World → World}
    (hg : ∀ w, (g w).inventory = w.inventory) (h : SameMode m m1) : SameMode m (m1.upd g) := by
  refine SameMode_trans h ?_
  unfold SameMode Machine.upd
  rw [show (g m1.w).inventory = m1.w.inventory from hg m1.w]
  exact ⟨rfl, rfl⟩

theorem SameMode_enter_right {m m1 : Machine} {c : Call} (h : SameMode m m1) :
    SameMode m (m1.enter c) := h

theorem SameMode_setCounter_right {m m1 : Machine} {v : Nat} (h : SameMode m m1) :
    SameMode m (m1.setCounter v) := h

theorem SameMode_setCursorSequenceID_right {m m1 : Machine} {v : Int} (h : SameMode m m1) :
    SameMode m (m1.setCursorSequenceID v) := h

theorem OkSameMode_ok {α : Type} {state : α → Machine} {m : Machine} {a : α}
    (h : SameMode m (state a)) : OkSameMode state m (.ok a) :=
  ⟨fun b hb => by cases hb; exact h⟩

theorem OkSameMode_error {α : Type} {state : α → Machine} {m : Machine} {e : Halt} :
    OkSameMode state m (.error e) :=
  ⟨fun b hb => by cases hb⟩

theorem OkSameMode_halt {α : Type} {state : α → Machine} {m m1 : Machine} {why : Abort} :
    OkSameMode state m (m1.halt why) := OkSameMode_error

theorem OkSameMode_bind {α β : Type} {sa : α → Machine} {sb : β → Machine} {m : Machine}
    {r : Run α} {k : α → Run β} :
    OkSameMode sa m r → (∀ a, SameMode m (sa a) → OkSameMode sb m (k a)) →
    OkSameMode sb m (Except.bind r k) := by
  intro hr hk
  cases r with
  | error e => exact OkSameMode_error
  | ok a => exact hk a (hr.out a rfl)

theorem runINIScripts_record_mode (env : Env) (hf : AllCalls KeepsInventoryMode env) (i : Nat)
    (ini : DragonINI) {m0 : Machine} (m : Machine) (h : SameMode m0 m) :
    SameMode m0 (runINIScripts_record env i ini m) := by
  unfold runINIScripts_record
  dsimp only
  split_ifs
  · exact SameMode_upd_right (fun _ => rfl) (SameMode_ext_right (hf.scriptOpcodes_runScript3 _)
      (SameMode_upd_right (fun _ => rfl) (SameMode_upd_right (fun _ => rfl) h)))
  · exact h

theorem runINIScripts_loop_mode (env : Env) (hf : AllCalls KeepsInventoryMode env) {m0 : Machine} :
    ∀ (fuel i : Nat) (m : Machine), SameMode m0 m → SameMode m0 (runINIScripts_loop env fuel i m) := by
  intro fuel
  induction fuel with
  | zero => intro i m h; exact h
  | succ fuel ih =>
    intro i m h
    unfold runINIScripts_loop
    split_ifs
    · split
      · exact h
      · exact ih _ _ (runINIScripts_record_mode env hf i _ m h)
    · exact h

theorem runINIScripts_mode (env : Env) (hf : AllCalls KeepsInventoryMode env) {m0 : Machine}
    (m : Machine) (h : SameMode m0 m) : SameMode m0 (runINIScripts env m) :=
  runINIScripts_loop_mode env hf _ _ _ (SameMode_enter_right h)

theorem walkFlickerToObject_walk_mode (env : Env) (hf : AllCalls KeepsInventoryMode env)
    (flickerINI targetINI : DragonINI) (x y : Int) {m0 : Machine} (m : Machine)
    (h : SameMode m0 m) :
    OkSameMode id m0 (walkFlickerToObject_walk env flickerINI targetINI x y m) := by
  have e1 := fun a x y u w => (hf.actor_pathfinding_maybe a x y u w).1
  have e2 := fun a x y u w => (hf.actor_pathfinding_maybe a x y u w).2
  unfold walkFlickerToObject_walk
  split
  · exact OkSameMode_halt
  · refine OkSameMode_ok ?_
    unfold SameMode at h ⊢
    split_ifs <;>
      simp only [id, Machine.upd, Machine.ext, World.modifyActor, e1, e2] <;> exact h

theorem SameMode_setLatch_right {m m1 : Machine} {v : Nat} (h : SameMode m m1) :
    SameMode m (m1.setLatch v) := h

theorem walkFlickerToObject_target_mode (env : Env) (hf : AllCalls KeepsInventoryMode env)
    (flickerINI : DragonINI) {m0 : Machine} (m : Machine) (h : SameMode m0 m) :
    OkSameMode id m0 (walkFlickerToObject_target env flickerINI m) := by
  unfold walkFlickerToObject_target
  split
  · exact OkSameMode_halt
  · split_ifs
    · exact OkSameMode_ok h
    · exact walkFlickerToObject_walk_mode env hf _ _ _ _ _ h
    · split
      · exact OkSameMode_halt
      · exact walkFlickerToObject_walk_mode env hf _ _ _ _ _ h

theorem walkFlickerToObject_arrive_mode (fi : Nat)
    (flickerINI : DragonINI) {m0 : Machine} (m : Machine) (h : SameMode m0 m) :
    OkSameMode id m0 (walkFlickerToObject_arrive fi flickerINI m) := by
  unfold walkFlickerToObject_arrive
  split
  · exact OkSameMode_ok h
  · split
    · exact OkSameMode_halt
    · refine OkSameMode_ok ?_
      unfold SameMode at h ⊢
      simp only [id, Machine.upd, Machine.setLatch, World.modifyActor, World.modifyINI]
      exact h

theorem walkFlickerToObject_free_mode (env : Env) (hf : AllCalls KeepsInventoryMode env)
    (flickerINI : DragonINI) {m0 : Machine} (m : Machine) (h : SameMode m0 m) :
    OkSameMode id m0 (walkFlickerToObject_free env flickerINI m) := by
  have e1 := fun a x y u w => (hf.actor_pathfinding_maybe a x y u w).1
  have e2 := fun a x y u w => (hf.actor_pathfinding_maybe a x y u w).2
  unfold walkFlickerToObject_free
  split_ifs
  · split
    · exact OkSameMode_halt
    · refine OkSameMode_ok ?_
      unfold SameMode at h ⊢
      simp only [id, Machine.upd, Machine.ext, Machine.setLatch, World.modifyActor, e1, e2]
      exact h
  · exact OkSameMode_ok h

theorem walkFlickerToObject_body_mode (env : Env) (hf : AllCalls KeepsInventoryMode env)
    (fi : Nat) (flickerINI : DragonINI) {m0 : Machine} (m : Machine) (h : SameMode m0 m) :
    OkSameMode id m0 (walkFlickerToObject_body env fi flickerINI m) := by
  unfold walkFlickerToObject_body
  split_ifs
  · exact walkFlickerToObject_target_mode env hf _ _ h
  · exact OkSameMode_ok h
  · exact walkFlickerToObject_arrive_mode _ _ _ h
  · exact walkFlickerToObject_free_mode env hf _ _ h
  · exact OkSameMode_ok h
  · exact OkSameMode_ok h

theorem walkFlickerToObject_mode (env : Env) (hf : AllCalls KeepsInventoryMode env)
    {m0 : Machine} (m : Machine) (h : SameMode m0 m) :
    OkSameMode id m0 (walkFlickerToObject env m) := by
  unfold walkFlickerToObject
  split
  · exact walkFlickerToObject_body_mode env hf _ _ _ h
  · exact OkSameMode_halt

/-! ### Object-interaction resolution -/

theorem works_firstProbe_mode (env : Env) (hf : AllCalls KeepsInventoryMode env) {m0 : Machine}
    (m : Machine) (h : SameMode m0 m) : SameMode m0 (works_firstProbe env m).2.2 :=
  SameMode_trans h (show SameMode m _ from hf.cursor_executeScript _ _ m.w)

theorem works_secondProbe_mode (env : Env) (hf : AllCalls KeepsInventoryMode env) {m0 : Machine}
    (uVar2 : Nat) (m : Machine) (h : SameMode m0 m) :
    SameMode m0 (works_secondProbe env uVar2 m).2.2 := by
  have e1 := fun c u w => (hf.cursor_executeScript c u w).1
  have e2 := fun c u w => (hf.cursor_executeScript c u w).2
  unfold works_secondProbe
  unfold SameMode at h ⊢
  split_ifs
  · simp only [Machine.upd, Machine.ext, e1, e2]
    exact h
  · exact h

theorem works_commit_mode (env : Env) (hf : AllCalls KeepsInventoryMode env) {m0 : Machine}
    (c : ScriptOpCall) (m : Machine) (h : SameMode m0 m) :
    SameMode m0 (works_commit env c m).2 := by
  have e1 := fun c w => (hf.scriptOpcodes_runScript c w).1
  have e2 := fun c w => (hf.scriptOpcodes_runScript c w).2
  unfold works_commit
  unfold SameMode at h ⊢
  split_ifs
  · simp only [Machine.upd, Machine.ext, World.clearFlags, e1, e2]
    exact h
  · exact h

theorem works_lookProbe_mode (env : Env) (hf : AllCalls KeepsInventoryMode env) {m0 : Machine}
    (uVar4 pvVar7 pvVar8 : Nat) (c : ScriptOpCall) (m : Machine) (h : SameMode m0 m) :
    SameMode m0 (works_lookProbe env uVar4 pvVar7 pvVar8 c m).2 := by
  have e1 := fun c w => (hf.scriptOpcodes_FUN_800297d8 c w).1
  have e2 := fun c w => (hf.scriptOpcodes_FUN_800297d8 c w).2
  unfold works_lookProbe
  unfold SameMode at h ⊢
  split_ifs
  · simp only [Machine.ext, e1, e2]
    exact h
  · exact h

theorem works_with_obd_data_1_finish_mode (env : Env) (hf : AllCalls KeepsInventoryMode env)
    {m0 : Machine} (uVar1 uVar4 uVar6 pvVar7 pvVar8 : Nat) (c : ScriptOpCall) (m : Machine)
    (h : SameMode m0 m) :
    OkSameMode id m0 (works_with_obd_data_1_finish env uVar1 uVar4 uVar6 pvVar7 pvVar8 c m) := by
  unfold works_with_obd_data_1_finish
  split_ifs
  · exact OkSameMode_error
  · exact OkSameMode_ok (works_lookProbe_mode env hf _ _ _ _ _ h)
  · exact OkSameMode_ok h

theorem works_resolve_mode (env : Env) (hf : AllCalls KeepsInventoryMode env) {m0 : Machine}
    (uVar1 uVar2 : Nat) (m : Machine) (h : SameMode m0 m) :
    OkSameMode id m0 (works_resolve env uVar1 uVar2 m) :=
  works_with_obd_data_1_finish_mode env hf _ _ _ _ _ _ _
    (works_commit_mode env hf _ _
      (works_secondProbe_mode env hf _ _ (works_firstProbe_mode env hf _ h)))

theorem works_with_obd_data_1_mode (env : Env) (hf : AllCalls KeepsInventoryMode env)
    {m0 : Machine} (m : Machine) (h : SameMode m0 m) :
    OkSameMode id m0 (works_with_obd_data_1 env m) := by
  unfold works_with_obd_data_1
  dsimp only
  split_ifs
  · exact works_resolve_mode env hf _ _ _ h
  · exact OkSameMode_halt

/-! ### The update pass -/

theorem wait_mode (env : Env) (hf : AllCalls KeepsInventoryMode env) {m0 : Machine}
    (m : Machine) (h : SameMode m0 m) : SameMode m0 (wait env m) := by
  have e1 := fun ms w => (hf.system_delayMillis ms w).1
  have e2 := fun ms w => (hf.system_delayMillis ms w).2
  unfold wait calulateTimeLeft
  unfold SameMode at h ⊢
  dsimp only
  split_ifs <;> simp only [Machine.upd, Machine.ext, e1, e2] <;> exact h

theorem updateEvents_event_mode (env : Env) (hf : AllCalls KeepsInventoryMode env)
    {m0 : Machine} (event : Event) (m : Machine) (h : SameMode m0 m) :
    SameMode m0 (updateEvents_event env event m) := by
  unfold updateEvents_event
  split
  · exact SameMode_ext_right hf.quitGame h
  · exact SameMode_ext_right (hf.cursor_updatePosition _ _) h
  · exact h
  · exact h
  · split_ifs
    · exact h
    · exact h
  · exact h

theorem updateEvents_loop_mode (env : Env) (hf : AllCalls KeepsInventoryMode env)
    {m0 : Machine} : ∀ (fuel : Nat) (m : Machine), SameMode m0 m →
      OkSameMode id m0 (updateEvents_loop env fuel m) := by
  intro fuel
  induction fuel with
  | zero => intro m _; exact OkSameMode_halt
  | succ fuel ih =>
    intro m h
    unfold updateEvents_loop
    have h1 : SameMode m0 (m.ext .eventMan_pollEvent fun _ => (env.eventMan_pollEvent m.w).2) :=
      SameMode_trans h (show SameMode m _ from hf.eventMan_pollEvent m.w)
    dsimp only
    split
    · exact OkSameMode_ok h1
    · exact ih _ (updateEvents_event_mode env hf _ _ h1)

theorem updateEvents_mode (env : Env) (hf : AllCalls KeepsInventoryMode env) {m0 : Machine}
    (fuel : Nat) (m : Machine) (h : SameMode m0 m) :
    OkSameMode id m0 (updateEvents env fuel m) :=
  updateEvents_loop_mode env hf fuel _ h

theorem updateActorSequences_exec_mode (env : Env) (hf : AllCalls KeepsInventoryMode env)
    {m0 : Machine} (actorId : Nat) : ∀ (fuel : Nat) (opCall : OpCall) (m : Machine),
      SameMode m0 m → OkSameMode id m0 (updateActorSequences_exec env actorId fuel opCall m) := by
  have e1 := fun a c w => (hf.sequenceOpcodes_execOpcode a c w).1
  have e2 := fun a c w => (hf.sequenceOpcodes_execOpcode a c w).2
  intro fuel
  induction fuel with
  | zero => intro _ m _; exact OkSameMode_halt
  | succ fuel ih =>
    intro opCall m h
    unfold updateActorSequences_exec
    split_ifs
    · apply ih
      unfold SameMode at h ⊢
      simp only [Machine.upd, Machine.ext, World.modifyActor, e1, e2]
      exact h
    · exact OkSameMode_ok h

theorem updateActorSequences_actor_mode (env : Env) (hf : AllCalls KeepsInventoryMode env)
    {m0 : Machine} (fuel actorId : Nat) (m : Machine) (h : SameMode m0 m) :
    OkSameMode id m0 (updateActorSequences_actor env fuel actorId m) := by
  have e1 := fun a w => (hf.actor_resetSequenceIP a w).1
  have e2 := fun a w => (hf.actor_resetSequenceIP a w).2
  unfold updateActorSequences_actor
  split_ifs
  · exact OkSameMode_ok h
  · apply updateActorSequences_exec_mode env hf
    unfold SameMode at h ⊢
    simp only [Machine.upd, Machine.ext, World.modifyActor, e1, e2]
    exact h
  · exact updateActorSequences_exec_mode env hf _ _ _ _ h
  · exact OkSameMode_ok h

theorem updateActorSequences_loop_mode (env : Env) (hf : AllCalls KeepsInventoryMode env)
    {m0 : Machine} (fuel : Nat) : ∀ (actorId : Nat) (m : Machine), SameMode m0 m →
      OkSameMode id m0 (updateActorSequences_loop env fuel actorId m) := by
  intro actorId
  induction actorId with
  | zero => intro m h; exact OkSameMode_ok h
  | succ actorId ih =>
    intro m h
    unfold updateActorSequences_loop
    refine OkSameMode_bind (updateActorSequences_actor_mode env hf fuel actorId m h)
      (fun a ha => ?_)
    exact ih a ha

theorem updateActorSequences_mode (env : Env) (hf : AllCalls KeepsInventoryMode env)
    {m0 : Machine} (fuel : Nat) (m : Machine) (h : SameMode m0 m) :
    OkSameMode id m0 (updateActorSequences env fuel m) := by
  unfold updateActorSequences
  dsimp only
  split_ifs
  · exact OkSameMode_ok h
  · exact updateActorSequences_loop_mode env hf fuel _ m h
  · exact updateActorSequences_loop_mode env hf fuel _ m h

theorem updatePathfindingActors_loop_mode (env : Env) (hf : AllCalls KeepsInventoryMode env)
    {m0 : Machine} : ∀ (n i : Nat) (m : Machine), SameMode m0 m →
      SameMode m0 (updatePathfindingActors_loop env n i m) := by
  intro n
  induction n with
  | zero => intro i m h; exact h
  | succ n ih =>
    intro i m h
    unfold updatePathfindingActors_loop
    exact ih _ _ (SameMode_ext_right (hf.actor_walkPath i) h)

theorem updateHandler_isFlicker_ok (env : Env) (i : Nat) (m : Machine) :
    ∀ b, updateHandler_isFlicker env i m = .ok b → True := fun _ _ => trivial

theorem updateHandler_layer_mode (env : Env) {m0 : Machine} (i : Nat) (m : Machine)
    (h : SameMode m0 m) : OkSameMode id m0 (updateHandler_layer env i m) := by
  unfold updateHandler_layer
  dsimp only
  cases updateHandler_isFlicker env i m with
  | error e => exact OkSameMode_error
  | ok b => exact OkSameMode_ok h

theorem updateHandler_actor_mode (env : Env) {m0 : Machine} (i : Nat) (m : Machine)
    (h : SameMode m0 m) : OkSameMode id m0 (updateHandler_actor env i m) := by
  unfold updateHandler_actor
  split_ifs
  · refine OkSameMode_bind (updateHandler_layer_mode env i m h) (fun a ha => ?_)
    exact OkSameMode_ok ha
  · exact OkSameMode_ok h
  · exact OkSameMode_ok h

theorem updateHandler_foreground_mode (env : Env) {m0 : Machine} :
    ∀ (n i : Nat) (m : Machine), SameMode m0 m →
      OkSameMode id m0 (updateHandler_foreground env n i m) := by
  intro n
  induction n with
  | zero => intro i m h; exact OkSameMode_ok h
  | succ n ih =>
    intro i m h
    unfold updateHandler_foreground
    refine OkSameMode_bind (updateHandler_actor_mode env i m h) (fun a ha => ?_)
    exact ih _ a ha

theorem updateHandler_background_mode {m0 : Machine} :
    ∀ (n i : Nat) (m : Machine), SameMode m0 m →
      SameMode m0 (updateHandler_background n i m) := by
  intro n
  induction n with
  | zero => intro i m h; exact h
  | succ n ih =>
    intro i m h
    unfold updateHandler_background
    exact ih _ _ h

theorem engineFlag0x20_flicker_mode (env : Env) (hf : AllCalls KeepsInventoryMode env)
    {m0 : Machine} (s : Nat) (m : Machine) (h : SameMode m0 m) :
    OkSameMode id m0 (engineFlag0x20_flicker env s m) := by
  have a1 := fun n w => (hf.inventory_setActorSequenceId n w).1
  have a2 := fun n w => (hf.inventory_setActorSequenceId n w).2
  have b1 := fun n w => (hf.inventory_setPriority n w).1
  have b2 := fun n w => (hf.inventory_setPriority n w).2
  have c1 := fun a s w => (hf.actor_updateSequence a s w).1
  have c2 := fun a s w => (hf.actor_updateSequence a s w).2
  unfold engineFlag0x20_flicker
  dsimp only
  repeat' split
  all_goals first
    | exact OkSameMode_halt
    | (refine OkSameMode_ok ?_
       unfold SameMode at h ⊢
       simp only [id, Machine.upd, Machine.ext, a1, a2, b1, b2, c1, c2]
       exact h)

theorem engineFlag0x20_cursor_mode (env : Env) (hf : AllCalls KeepsInventoryMode env)
    {m0 : Machine} (m : Machine) (h : SameMode m0 m) :
    SameMode m0 (engineFlag0x20_cursor env m) := by
  unfold engineFlag0x20_cursor
  split_ifs
  · exact SameMode_ext_right hf.cursor_update h
  · exact h

theorem engineFlag0x20_countdown_mode (env : Env) {m0 : Machine} (s : Nat) (m : Machine)
    (h : SameMode m0 m) : SameMode m0 (engineFlag0x20_countdown env s m) := by
  unfold engineFlag0x20_countdown
  dsimp only
  split_ifs <;> exact h

theorem engineFlag0x20UpdateFunction_mode (env : Env) (hf : AllCalls KeepsInventoryMode env)
    {m0 : Machine} (m : Machine) (h : SameMode m0 m) :
    OkSameMode id m0 (engineFlag0x20UpdateFunction env m) := by
  unfold engineFlag0x20UpdateFunction
  split_ifs
  · refine OkSameMode_bind
      (engineFlag0x20_flicker_mode env hf _ _ (engineFlag0x20_cursor_mode env hf m h))
      (fun a ha => ?_)
    exact OkSameMode_ok (engineFlag0x20_countdown_mode env _ a ha)
  · exact OkSameMode_ok h

theorem updateHandler_rest_mode (env : Env) (hf : AllCalls KeepsInventoryMode env)
    {m0 : Machine} (m : Machine) (h : SameMode m0 m) :
    OkSameMode id m0 (updateHandler_rest env m) := by
  unfold updateHandler_rest
  have h1 : SameMode m0 (if anyBit m.w._flags ENGINE_FLAG_80 then
      updateHandler_background (DRAGONS_ENGINE_NUM_ACTORS - 0x17) 0x17 m else m) := by
    split_ifs
    · exact updateHandler_background_mode _ _ _ h
    · exact h
  generalize (if anyBit m.w._flags ENGINE_FLAG_80 then
      updateHandler_background (DRAGONS_ENGINE_NUM_ACTORS - 0x17) 0x17 m else m) = m1 at h1 ⊢
  dsimp only
  have h2 : SameMode m0 (if m1.w.isFlagSet ENGINE_FLAG_4 then updatePathfindingActors env m1
      else m1) := by
    split_ifs
    · exact updatePathfindingActors_loop_mode env hf _ _ _ h1
    · exact h1
  generalize (if m1.w.isFlagSet ENGINE_FLAG_4 then updatePathfindingActors env m1 else m1) = m2
    at h2 ⊢
  refine OkSameMode_bind (?_ : OkSameMode id m0 _) (fun a ha => ?_)
  · split_ifs
    · exact engineFlag0x20UpdateFunction_mode env hf m2 h2
    · exact OkSameMode_ok h2
  · exact OkSameMode_ok ha

theorem updateHandler_mode (env : Env) (hf : AllCalls KeepsInventoryMode env) {m0 : Machine}
    (fuel : Nat) (m : Machine) (h : SameMode m0 m) :
    OkSameMode id m0 (updateHandler env fuel m) := by
  unfold updateHandler
  refine OkSameMode_bind (updateActorSequences_mode env hf fuel _ h) (fun a ha => ?_)
  refine OkSameMode_bind (updateHandler_foreground_mode env _ _ _ ?_) (fun b hb => ?_)
  · exact SameMode_ext_right hf.inventory_updateVisibility
      (SameMode_ext_right hf.cursor_updateVisibility ha)
  · exact updateHandler_rest_mode env hf b hb

theorem waitForFrames_loop_mode (env : Env) (hf : AllCalls KeepsInventoryMode env)
    {m0 : Machine} (fuel : Nat) : ∀ (n : Nat) (m : Machine), SameMode m0 m →
      OkSameMode id m0 (waitForFrames_loop env fuel n m) := by
  intro n
  induction n with
  | zero => intro m h; exact OkSameMode_ok h
  | succ n ih =>
    intro m h
    unfold waitForFrames_loop
    refine OkSameMode_bind (updateHandler_mode env hf fuel _ (wait_mode env hf m h))
      (fun a ha => ?_)
    refine OkSameMode_bind (updateEvents_mode env hf fuel _ ?_) (fun b hb => ?_)
    · exact SameMode_ext_right hf.screen_updateScreen (SameMode_ext_right hf.scene_draw ha)
    · exact ih b hb

theorem waitForFrames_mode (env : Env) (hf : AllCalls KeepsInventoryMode env) {m0 : Machine}
    (fuel n : Nat) (m : Machine) (h : SameMode m0 m) :
    OkSameMode id m0 (waitForFrames env fuel n m) :=
  waitForFrames_loop_mode env hf fuel n m h

/-! ### The dispatcher -/

theorem OkHistory_of_sameMode {m : Machine} {r : Run Loop} (h : OkSameMode Loop.m m r) :
    OkHistory m r :=
  ⟨fun l hl hne => absurd (h.out l hl).1 hne⟩

theorem OkHistory_error {m : Machine} {e : Halt} : OkHistory m (.error e) :=
  ⟨fun l hl => by cases hl⟩

theorem OkHistory_bind {m : Machine} {r : Run Machine} {k : Machine → Run Loop} :
    OkSameMode id m r → (∀ a, SameMode m a → OkHistory m (k a)) →
    OkHistory m (Except.bind r k) := by
  intro hr hk
  cases r with
  | error e => exact OkHistory_error
  | ok a => exact hk a (hr.out a rfl)

theorem LAB_80027b58_mode (env : Env) (hf : AllCalls KeepsInventoryMode env) {m0 : Machine}
    (uVar3 : Nat) (m : Machine) (h : SameMode m0 m) :
    OkSameMode Loop.m m0 (LAB_80027b58 env uVar3 m) :=
  OkSameMode_ok (runINIScripts_mode env hf m h)

theorem joined_r0x80027a38_mode {m0 : Machine} (uVar3 : Nat) (m : Machine) (h : SameMode m0 m) :
    OkSameMode Loop.m m0 (joined_r0x80027a38 uVar3 m) := by
  unfold joined_r0x80027a38
  split_ifs <;> exact OkSameMode_ok h

theorem LAB_80027ab4_after_mode {m0 : Machine} (b : Bool) (m : Machine) (h : SameMode m0 m) :
    SameMode m0 (LAB_80027ab4_after b m) := by
  unfold LAB_80027ab4_after
  unfold SameMode at h ⊢
  dsimp only
  split_ifs <;> exact h

theorem LAB_80027ab4_mode (env : Env) (hf : AllCalls KeepsInventoryMode env) {m0 : Machine}
    (uVar3 : Nat) (m : Machine) (h : SameMode m0 m) :
    OkSameMode Loop.m m0 (LAB_80027ab4 env uVar3 m) := by
  unfold LAB_80027ab4
  refine OkSameMode_bind (walkFlickerToObject_mode env hf (LAB_80027ab4_queue m) h)
    (fun a ha => ?_)
  exact LAB_80027b58_mode env hf _ _ (LAB_80027ab4_after_mode _ a ha)

theorem closed_after_bag_mode (env : Env) (hf : AllCalls KeepsInventoryMode env) {m0 : Machine}
    (uVar3 uVar6 : Nat) (m : Machine) (h : SameMode m0 m) :
    OkSameMode Loop.m m0 (closed_after_bag env uVar3 uVar6 m) := by
  unfold closed_after_bag
  split_ifs
  · exact OkSameMode_error
  · exact LAB_80027ab4_mode env hf uVar3 m h

/-- The open transition: when it returns, the mode is Primary and the
remembered mode is the one the entry state remembers. -/
theorem joined_r0x800271d0_history (env : Env) (hf : AllCalls KeepsInventoryMode env)
    (uVar3 uVar7 sequenceId : Nat) (m : Machine) :
    ∀ l, joined_r0x800271d0 env uVar3 uVar7 sequenceId m = .ok l →
      l.m.w.inventory._type = 1 ∧
      l.m.w.inventory._old_showing_value = m.w.inventory._old_showing_value := by
  have e1 := fun w => (hf.inventory_openInventory w).1
  have e2 := fun w => (hf.inventory_openInventory w).2
  intro l hl
  unfold joined_r0x800271d0 at hl
  dsimp only at hl
  split_ifs at hl
  · cases hl
  · unfold joined_r0x80027a38 at hl
    split_ifs at hl <;> cases hl <;>
      simp only [Machine.setCursorSequenceID, Machine.upd, Machine.ext, Machine.setType,
        Machine.setCounter, e1, e2] <;> exact ⟨trivial, trivial⟩

theorem LAB_80027970_history (env : Env) (hf : AllCalls KeepsInventoryMode env) {m0 : Machine}
    (uVar3 : Nat) (m : Machine) (h : SameMode m0 m) :
    OkHistory m0 (LAB_80027970 env uVar3 m) := by
  have e1 := fun w => (hf.inventory_closeInventory w).1
  refine ⟨fun l hl _ => ?_⟩
  unfold LAB_80027970 at hl
  cases hl
  simp only [Machine.setType, Machine.setOldShowing, Machine.upd, Machine.ext, e1]
  exact h.1

theorem LAB_80027294_store_mode {m0 : Machine} (uVar3 uVar7 : Nat) (m : Machine)
    (h : SameMode m0 m) : OkSameMode Loop.m m0 (LAB_80027294_store uVar3 uVar7 m) := by
  unfold LAB_80027294_store
  split_ifs
  · exact OkSameMode_ok h
  · exact OkSameMode_halt

theorem LAB_80027294_history (env : Env) (hf : AllCalls KeepsInventoryMode env)
    (fuel uVar3 uVar6 : Nat) {m0 : Machine} (m : Machine) (h : SameMode m0 m) :
    OkHistory m0 (LAB_80027294 env fuel uVar3 uVar6 m) := by
  unfold LAB_80027294
  split_ifs
  · refine ⟨fun l hl _ => ?_⟩
    have := (joined_r0x800271d0_history env hf _ _ _ _ l hl).2
    rw [this]
    exact h.1
  · exact OkHistory_of_sameMode (closed_after_bag_mode env hf _ _ m h)
  · split
    · exact OkHistory_error
    · split_ifs
      · refine OkHistory_bind
          (waitForFrames_mode env hf fuel 1 _ (SameMode_setCursorSequenceID_right h))
          (fun a ha => ?_)
        exact OkHistory_of_sameMode (LAB_80027294_store_mode _ _ a ha)
      · exact OkHistory_of_sameMode (closed_after_bag_mode env hf _ _ m h)

theorem closed_click_history (env : Env) (hf : AllCalls KeepsInventoryMode env)
    (fuel uVar3 uVar6 : Nat) {m0 : Machine} (m : Machine) (h : SameMode m0 m) :
    OkHistory m0 (closed_click env fuel uVar3 uVar6 m) := by
  unfold closed_click
  split_ifs
  · exact LAB_80027294_history env hf _ _ _ _ h
  · exact OkHistory_of_sameMode (LAB_80027ab4_mode env hf _ _ h)
  · exact LAB_80027294_history env hf _ _ _ _ h
  · exact OkHistory_of_sameMode (closed_after_bag_mode env hf _ _ _ h)
  · exact OkHistory_of_sameMode (LAB_80027ab4_mode env hf _ _ h)

theorem gameLoop_closed_history (env : Env) (hf : AllCalls KeepsInventoryMode env)
    (fuel uVar3 : Nat) (m : Machine) : OkHistory m (gameLoop_closed env fuel uVar3 m) := by
  unfold gameLoop_closed
  split_ifs
  · refine ⟨fun l hl _ => ?_⟩
    have := (joined_r0x800271d0_history env hf _ _ _ _ l hl).2
    rw [this]
    rfl
  · exact closed_click_history env hf _ _ _ _ (SameMode_setCounter_right (SameMode_refl m))
  · exact OkHistory_of_sameMode (LAB_80027b58_mode env hf _ _ (SameMode_refl m))

theorem gameLoop_secondary_history (env : Env) (hf : AllCalls KeepsInventoryMode env)
    (uVar3 : Nat) (m : Machine) : OkHistory m (gameLoop_secondary env uVar3 m) := by
  have e2 := fun w => (hf.inventory_openInventory w).2
  unfold gameLoop_secondary
  split_ifs
  · exact OkHistory_error
  · refine ⟨fun l hl _ => ?_⟩
    unfold joined_r0x80027a38 at hl
    split_ifs at hl <;> cases hl <;>
      simp only [Machine.setCursorSequenceID, Machine.upd, Machine.ext, Machine.setType,
        Machine.setCounter, Machine.setOldShowing, e2]
  · exact OkHistory_of_sameMode (LAB_80027ab4_mode env hf _ _ (SameMode_refl m))
  · exact OkHistory_of_sameMode (LAB_80027b58_mode env hf _ _ (SameMode_refl m))

theorem LAB_8002790c_history (env : Env) (hf : AllCalls KeepsInventoryMode env)
    (fuel uVar3 : Nat) {m0 : Machine} (m : Machine) (h : SameMode m0 m) :
    OkHistory m0 (LAB_8002790c env fuel uVar3 m) := by
  unfold LAB_8002790c
  split_ifs
  · exact OkHistory_of_sameMode (LAB_80027b58_mode env hf _ _ h)
  · refine OkHistory_bind
      (waitForFrames_mode env hf fuel 2 _ (SameMode_setCursorSequenceID_right h))
      (fun a ha => ?_)
    exact LAB_80027970_history env hf uVar3 a ha

theorem primary_panel_history (env : Env) (hf : AllCalls KeepsInventoryMode env)
    (fuel uVar3 : Nat) {m0 : Machine} (m : Machine) (h : SameMode m0 m) :
    OkHistory m0 (primary_panel env fuel uVar3 m0.w.inventory._type m) := by
  unfold primary_panel
  split_ifs
  · exact OkHistory_error
  · exact ⟨fun l hl _ => by cases hl; rfl⟩
  · exact LAB_8002790c_history env hf _ _ _ h
  · exact OkHistory_error
  · exact ⟨fun l hl _ => by cases hl; rfl⟩

theorem primary_item_queue_mode {m0 : Machine} (m : Machine) (h : SameMode m0 m) :
    SameMode m0 (primary_item_queue m) := by
  unfold primary_item_queue
  unfold SameMode at h ⊢
  dsimp only
  split_ifs <;> exact h

theorem primary_item_show_mode (env : Env) (hf : AllCalls KeepsInventoryMode env)
    (uVar3 actor item : Nat) {m0 : Machine} (m : Machine) (h : SameMode m0 m) :
    OkSameMode Loop.m m0 (primary_item_show env uVar3 actor item m) := by
  have e1 := fun a s w => (hf.actor_updateSequence a s w).1
  have e2 := fun a s w => (hf.actor_updateSequence a s w).2
  unfold primary_item_show
  split
  · exact OkSameMode_halt
  · refine OkSameMode_ok ?_
    unfold SameMode at h ⊢
    simp only [Machine.upd, Machine.ext, World.modifyActor, e1, e2]
    exact h

theorem primary_item_swap_mode {m0 : Machine} (actorId_00 : Nat) (m : Machine)
    (h : SameMode m0 m) : SameMode m0 (primary_item_swap actorId_00 m) := by
  unfold primary_item_swap
  unfold SameMode at h ⊢
  simp only [Machine.upd, Machine.setCursorSequenceID, World.modifyActor]
  exact h

theorem primary_item_history (env : Env) (hf : AllCalls KeepsInventoryMode env)
    (fuel uVar3 : Nat) {m0 : Machine} (m : Machine) (h : SameMode m0 m) :
    OkHistory m0 (primary_item env fuel uVar3 m) := by
  unfold primary_item
  split_ifs
  · refine OkHistory_bind (walkFlickerToObject_mode env hf _ (primary_item_queue_mode m h))
      (fun a ha => ?_)
    exact LAB_8002790c_history env hf fuel uVar3 a ha
  · split
    · exact OkHistory_error
    · split_ifs
      · exact OkHistory_of_sameMode
          (primary_item_show_mode env hf _ _ _ _ (primary_item_swap_mode _ m h))
      · exact OkHistory_of_sameMode (OkSameMode_ok (primary_item_swap_mode _ m h))

theorem primary_drop_history (env : Env) (hf : AllCalls KeepsInventoryMode env)
    (fuel uVar3 : Nat) {m0 : Machine} (m : Machine) (h : SameMode m0 m) :
    OkHistory m0 (primary_drop env fuel uVar3 m) := by
  have e1 := fun a s w => (hf.actor_updateSequence a s w).1
  have e2 := fun a s w => (hf.actor_updateSequence a s w).2
  unfold primary_drop
  split_ifs
  · split
    · exact OkHistory_error
    · apply LAB_8002790c_history env hf
      unfold primary_drop_shown primary_drop_place
      unfold SameMode at h ⊢
      dsimp only
      split_ifs <;>
        simp only [Machine.upd, Machine.ext, Machine.setCursorSequenceID, World.modifyActor,
          e1, e2] <;> exact h
  · exact OkHistory_error
  · exact LAB_8002790c_history env hf _ _ _ h

theorem primary_click_history (env : Env) (hf : AllCalls KeepsInventoryMode env)
    (fuel uVar3 : Nat) {m0 : Machine} (m : Machine) (h : SameMode m0 m) :
    OkHistory m0 (primary_click env fuel uVar3 m0.w.inventory._type m) := by
  unfold primary_click
  split_ifs
  · exact primary_panel_history env hf fuel uVar3 m h
  · exact primary_item_history env hf fuel uVar3 m h
  · exact OkHistory_of_sameMode (LAB_80027b58_mode env hf _ _ h)
  · exact primary_drop_history env hf fuel uVar3 m h

theorem gameLoop_primary_history (env : Env) (hf : AllCalls KeepsInventoryMode env)
    (fuel uVar3 : Nat) (m : Machine) : OkHistory m (gameLoop_primary env fuel uVar3 m) := by
  unfold gameLoop_primary
  split_ifs
  · exact LAB_80027970_history env hf _ _ (SameMode_setCounter_right (SameMode_refl m))
  · exact primary_click_history env hf fuel uVar3 _
      (SameMode_setCounter_right (SameMode_refl m))
  · exact LAB_8002790c_history env hf _ _ _ (SameMode_refl m)

theorem gameLoop_latch3_queue_mode {m0 : Machine} (m : Machine) (h : SameMode m0 m) :
    OkSameMode id m0 (gameLoop_latch3_queue m) := by
  unfold gameLoop_latch3_queue
  dsimp only
  repeat' split
  all_goals first
    | exact OkSameMode_halt
    | exact OkSameMode_ok h

theorem gameLoop_latch3_flag8_mode {m0 : Machine} (m : Machine) (h : SameMode m0 m) :
    OkSameMode id m0 (gameLoop_latch3_flag8 m) := by
  unfold gameLoop_latch3_flag8
  repeat' split
  all_goals first
    | exact OkSameMode_halt
    | exact OkSameMode_ok h

theorem gameLoop_latch3_mode (env : Env) (hf : AllCalls KeepsInventoryMode env)
    (uVar3 : Nat) (m : Machine) : OkSameMode Loop.m m (gameLoop_latch3 env uVar3 m) := by
  unfold gameLoop_latch3
  refine OkSameMode_bind (gameLoop_latch3_queue_mode m (SameMode_refl m)) (fun a ha => ?_)
  refine OkSameMode_bind (works_with_obd_data_1_mode env hf a ha) (fun b hb => ?_)
  unfold gameLoop_latch3_finish
  refine OkSameMode_bind (gameLoop_latch3_flag8_mode b hb) (fun c hc => ?_)
  exact OkSameMode_ok hc

theorem gameLoop_dispatch_history (env : Env) (hf : AllCalls KeepsInventoryMode env)
    (fuel uVar3 : Nat) (m : Machine) : OkHistory m (gameLoop_dispatch env fuel uVar3 m) := by
  unfold gameLoop_dispatch
  split_ifs
  · exact OkHistory_of_sameMode (OkSameMode_ok (SameMode_setCounter_right
      (SameMode_ext_right hf.cursor_selectPreviousCursor (SameMode_refl m))))
  · exact OkHistory_of_sameMode (gameLoop_latch3_mode env hf uVar3 m)
  · exact gameLoop_closed_history env hf fuel uVar3 m
  · exact OkHistory_of_sameMode (LAB_80027b58_mode env hf _ _ (SameMode_refl m))
  · exact gameLoop_secondary_history env hf uVar3 m
  · exact OkHistory_of_sameMode (LAB_80027b58_mode env hf _ _ (SameMode_refl m))
  · exact gameLoop_primary_history env hf fuel uVar3 m

theorem AllCalls_idle : AllCalls KeepsInventoryMode Env.idle := by
  constructor <;> intros <;> intro w <;> exact ⟨rfl, rfl⟩

theorem AllCalls_clickEnv : AllCalls KeepsInventoryMode clickEnv := by
  constructor <;> intros <;> intro w <;> first
    | exact ⟨rfl, rfl⟩
    | (by_cases h : w.hidden = 0 <;> simp [clickEnv, h])

theorem OkHistory_from {m0 m : Machine} {r : Run Loop} (h : SameMode m0 m)
    (hr : OkHistory m r) : OkHistory m0 r :=
  ⟨fun l hl hne => by
    have := hr.out l hl (by rw [h.1]; exact hne)
    rw [this, h.1]⟩

theorem gameLoop_fidget_mode (env : Env) (hf : AllCalls KeepsInventoryMode env) {m0 : Machine}
    (m : Machine) (h : SameMode m0 m) : OkSameMode id m0 (gameLoop_fidget env m) := by
  have e1 := fun a s w => (hf.actor_updateSequence a s w).1
  have e2 := fun a s w => (hf.actor_updateSequence a s w).2
  unfold gameLoop_fidget
  split_ifs
  · split
    · split
      · exact OkSameMode_halt
      · split_ifs
        · dsimp only
          split
          · exact OkSameMode_halt
          · refine OkSameMode_ok ?_
            unfold SameMode at h ⊢
            simp only [id, Machine.upd, Machine.ext, Machine.setCounter, World.modifyActor,
              World.modifyINI, World.setFlags, e1, e2]
            exact h
        · exact OkSameMode_ok h
    · exact OkSameMode_halt
  · exact OkSameMode_ok h

theorem gameLoop_fidgetDone_mode {m0 : Machine} (m : Machine) (h : SameMode m0 m) :
    OkSameMode id m0 (gameLoop_fidgetDone m) := by
  unfold gameLoop_fidgetDone
  repeat' split
  all_goals first
    | exact OkSameMode_halt
    | exact OkSameMode_ok h

theorem gameLoop_cursorOffset_mode (env : Env) (hf : AllCalls KeepsInventoryMode env)
    {m0 : Machine} (m : Machine) (h : SameMode m0 m) :
    OkSameMode id m0 (gameLoop_cursorOffset env m) := by
  have e1 := fun w => (hf.cursor_updateINIUnderCursor w).1
  have e2 := fun w => (hf.cursor_updateINIUnderCursor w).2
  have key : ∀ v, SameMode m0 (((m.ext .cursor_updateINIUnderCursor
      fun _ => (env.cursor_updateINIUnderCursor m.w).2)).upd fun w =>
        { w with cursor := { w.cursor with _cursorActivationSeqOffset := v } }) := by
    intro v
    unfold SameMode at h ⊢
    simp only [Machine.upd, Machine.ext, e1, e2]
    exact h
  unfold gameLoop_cursorOffset
  dsimp only
  repeat' split
  all_goals first
    | exact OkSameMode_halt
    | exact OkSameMode_ok (key _)

theorem gameLoop_body_history (env : Env) (hf : AllCalls KeepsInventoryMode env)
    (fuel : Nat) (l : Loop) : OkHistory l.m (gameLoop_body env fuel l) := by
  unfold gameLoop_body
  have h0 : SameMode l.m (wait env ((l.m.ext .scene_draw env.scene_draw).ext
      .screen_updateScreen env.screen_updateScreen)) :=
    wait_mode env hf _ (SameMode_ext_right hf.screen_updateScreen
      (SameMode_ext_right hf.scene_draw (SameMode_refl l.m)))
  refine OkHistory_bind (updateHandler_mode env hf fuel _ h0) (fun a ha => ?_)
  refine OkHistory_bind (updateEvents_mode env hf fuel a ha) (fun b hb => ?_)
  have hb1 : SameMode l.m (if b.w.getCurrentSceneId ≠ 2 then
      b.upd fun w => { w with _sceneId1 := w.getCurrentSceneId } else b) := by
    split_ifs
    · exact hb
    · exact hb
  dsimp only
  refine OkHistory_bind (gameLoop_fidget_mode env hf _ (SameMode_setCounter_right hb1))
    (fun c hc => ?_)
  refine OkHistory_bind (gameLoop_fidgetDone_mode c hc) (fun d hd => ?_)
  have hd1 : SameMode l.m (if d.w.bit_flags_8006fbd8 = 0 then
      d.upd fun w => w.setFlags ENGINE_FLAG_8 else d) := by
    split_ifs
    · exact hd
    · exact hd
  cases hh : gameLoop_hover env l.actorId (if d.w.bit_flags_8006fbd8 = 0 then
      d.upd fun w => w.setFlags ENGINE_FLAG_8 else d) with
  | error e => exact OkHistory_error
  | ok uVar3 =>
    refine OkHistory_bind (gameLoop_cursorOffset_mode env hf _ hd1) (fun e he => ?_)
    exact OkHistory_from he (gameLoop_dispatch_history env hf fuel uVar3 e)

/-- C7. Single-slot history: every tick of `gameLoop` that returns and
changes the inventory mode ends with `_old_showing_value` equal to the mode
at the start of the tick.  The collaborators leave the inventory mode and
its history alone. -/
theorem gameLoop_tick_single_slot_history (env : Env)
    (hf : AllCalls KeepsInventoryMode env) (fuel : Nat) (l l1 : Loop)
    (hrun : gameLoop_body env fuel l = .ok l1)
    (hchanged : l1.m.w.inventory._type ≠ l.m.w.inventory._type) :
    l1.m.w.inventory._old_showing_value = l.m.w.inventory._type :=
  (gameLoop_body_history env hf fuel l).out l1 hrun hchanged

/-- C7 at `panelClickTick`: a click on the panel hit-target 0x8001 in Primary
mode closes the inventory and leaves Primary as the remembered mode. -/
theorem gameLoop_tick_single_slot_history_witness :
    AllCalls KeepsInventoryMode clickEnv ∧
    ∃ l1, gameLoop_body clickEnv 8 panelClickTick = .ok l1 ∧
      l1.m.w.inventory._type = 0 ∧ panelClickTick.m.w.inventory._type = 1 ∧
      l1.m.w.inventory._old_showing_value = panelClickTick.m.w.inventory._type :=
  ⟨AllCalls_clickEnv, _, rfl, rfl, rfl,
    gameLoop_tick_single_slot_history clickEnv AllCalls_clickEnv 8 panelClickTick _ rfl
      (by decide)⟩

/-! ## Closed to Primary -/

theorem KeepsHandAndCounter_id : KeepsHandAndCounter id := fun _ => ⟨rfl, rfl⟩

theorem LAB_80027294_gate (env : Env) (hf : AllCalls KeepsInventoryMode env)
    (fuel uVar3 uVar6 : Nat) (m : Machine) (hclosed : m.w.inventory._type = 0) (l : Loop)
    (hl : LAB_80027294 env fuel uVar3 uVar6 m = .ok l) (hp : l.m.w.inventory._type = 1) :
    m.w.cursor.iniItemInHand = 0 ∧ m.w.bit_flags_8006fbd8 &&& 3 ≠ 1 ∧ m.w.getVar 7 ≠ 1 := by
  have stay : ∀ r : Run Loop, OkSameMode Loop.m m r → r = .ok l → False := by
    intro r hr e
    have := (hr.out l e).1
    rw [hclosed, hp] at this
    exact absurd this (by decide)
  unfold LAB_80027294 at hl
  split_ifs at hl with h1 h2
  · refine ⟨h1, h2, fun h7 => ?_⟩
    unfold joined_r0x800271d0 at hl
    dsimp only at hl
    rw [if_pos h7] at hl
    cases hl
  · exact (stay _ (closed_after_bag_mode env hf _ _ m (SameMode_refl m)) hl).elim
  · split at hl
    · cases hl
    · split_ifs at hl
      · refine (stay _ ?_ hl).elim
        refine OkSameMode_bind
          (waitForFrames_mode env hf fuel 1 _ (SameMode_setCursorSequenceID_right (SameMode_refl m)))
          (fun a ha => ?_)
        exact LAB_80027294_store_mode _ _ a ha
      · exact (stay _ (closed_after_bag_mode env hf _ _ m (SameMode_refl m)) hl).elim

theorem closed_click_gate (env : Env) (hf : AllCalls KeepsInventoryMode env)
    (fuel uVar3 uVar6 : Nat) (m : Machine) (hclosed : m.w.inventory._type = 0) (l : Loop)
    (hl : closed_click env fuel uVar3 uVar6 m = .ok l) (hp : l.m.w.inventory._type = 1) :
    (m.w.cursor._iniUnderCursor = 0x8002 ∨
      (m.w.cursor._iniUnderCursor = 0x8001 ∧ m.w.inventory._sequenceId = 0)) ∧
    m.w.cursor.iniItemInHand = 0 ∧ m.w.bit_flags_8006fbd8 &&& 3 ≠ 1 ∧ m.w.getVar 7 ≠ 1 := by
  have stay : ∀ r : Run Loop, OkSameMode Loop.m m r → r = .ok l → False := by
    intro r hr e
    have := (hr.out l e).1
    rw [hclosed, hp] at this
    exact absurd this (by decide)
  unfold closed_click at hl
  split_ifs at hl with h1 h2 h3 h4
  · exact ⟨Or.inl h2, LAB_80027294_gate env hf fuel uVar3 uVar6 m hclosed l hl hp⟩
  · exact (stay _ (LAB_80027ab4_mode env hf _ m (SameMode_refl m)) hl).elim
  · exact ⟨Or.inr ⟨not_not.mp h3, h4⟩, LAB_80027294_gate env hf fuel uVar3 uVar6 m hclosed l hl hp⟩
  · exact (stay _ (closed_after_bag_mode env hf _ _ m (SameMode_refl m)) hl).elim
  · exact (stay _ (LAB_80027ab4_mode env hf _ m (SameMode_refl m)) hl).elim

theorem gameLoop_closed_gate (env : Env) (hf : AllCalls KeepsInventoryMode env)
    (fuel uVar3 : Nat) (m : Machine) (hclosed : m.w.inventory._type = 0) (l : Loop)
    (hl : gameLoop_closed env fuel uVar3 m = .ok l) (hp : l.m.w.inventory._type = 1) :
    m.w.bit_flags_8006fbd8 &&& 3 ≠ 1 ∧ m.w.getVar 7 ≠ 1 ∧
      ((m.w.checkForInventoryButtonRelease = true ∧ m.w.isInputEnabled = true) ∨
        (m.w.checkForActionButtonRelease = true ∧ m.w.isFlagSet ENGINE_FLAG_8 = true ∧
          (m.w.cursor._iniUnderCursor = 0x8002 ∨
            (m.w.cursor._iniUnderCursor = 0x8001 ∧ m.w.inventory._sequenceId = 0)) ∧
          m.w.cursor.iniItemInHand = 0)) := by
  unfold gameLoop_closed at hl
  split_ifs at hl with h1 h2
  · simp only [Bool.and_eq_true, decide_eq_true_eq] at h1
    refine ⟨h1.2, fun h7 => ?_, Or.inl h1.1⟩
    unfold joined_r0x800271d0 at hl
    dsimp only at hl
    rw [if_pos h7] at hl
    cases hl
  · simp only [Bool.and_eq_true] at h2
    obtain ⟨hb, hh, hlatch, hv⟩ :=
      closed_click_gate env hf fuel uVar3 _ (m.setCounter 0) hclosed l hl hp
    exact ⟨hlatch, hv, Or.inr ⟨h2.1, h2.2, hb, hh⟩⟩
  · have := ((LAB_80027b58_mode env hf uVar3 m (SameMode_refl m)).out l hl).1
    rw [hclosed, hp] at this
    exact absurd this (by decide)

/-- C8 as stated fails: in `bagClickMachine` the mode is Closed and input is
disabled, and the tick ends in Primary mode: the click on the bag opens the
inventory without a test of `isInputEnabled`. -/
theorem bag_click_opens_with_input_disabled :
    bagClickMachine.w.inventory._type = 0 ∧ bagClickMachine.w.isInputEnabled = false ∧
    ∃ l, gameLoop_dispatch Env.idle 0 0 bagClickMachine = .ok l ∧ l.m.w.inventory._type = 1 :=
  ⟨rfl, rfl, _, rfl, rfl⟩

/-- C8, amended. A tick whose dispatch starts in Closed mode ends in Primary
mode only if the latch is not walking (latch & 3 ≠ 1), variable 7 is not 1
and either the inventory button was released with input enabled, or the
action button was released with `ENGINE_FLAG_8` set on the bag (hit-target
0x8002, or 0x8001 while the inventory sequence is 0) with an empty hand; the
click on the bag does not depend on `isInputEnabled`.  Conversely, when the
inventory button is released in Closed mode with input enabled,
latch & 3 ≠ 1, latch ≠ 3, no right-button release and variable 7 ≠ 1, the
tick ends in Primary mode with the idle counter 0 and the cursor sequence 1
if no item is in hand and 5 otherwise.  The collaborators leave the
inventory mode alone and `openInventory` leaves the idle counter and the
item in hand alone. -/
theorem closed_to_primary_gating (env : Env) (hf : AllCalls KeepsInventoryMode env)
    (hopen : KeepsHandAndCounter env.inventory_openInventory)
    (fuel uVar3 : Nat) (m : Machine) (hclosed : m.w.inventory._type = 0) :
    (∀ l, gameLoop_dispatch env fuel uVar3 m = .ok l → l.m.w.inventory._type = 1 →
      m.w.bit_flags_8006fbd8 &&& 3 ≠ 1 ∧ m.w.getVar 7 ≠ 1 ∧
      ((m.w.checkForInventoryButtonRelease = true ∧ m.w.isInputEnabled = true) ∨
        (m.w.checkForActionButtonRelease = true ∧ m.w.isFlagSet ENGINE_FLAG_8 = true ∧
          (m.w.cursor._iniUnderCursor = 0x8002 ∨
            (m.w.cursor._iniUnderCursor = 0x8001 ∧ m.w.inventory._sequenceId = 0)) ∧
          m.w.cursor.iniItemInHand = 0))) ∧
    (m.w.checkForInventoryButtonRelease = true → m.w.isInputEnabled = true →
      m.w.bit_flags_8006fbd8 &&& 3 ≠ 1 → m.w.bit_flags_8006fbd8 ≠ 3 →
      m.w._rightMouseButtonUp = false → m.w.getVar 7 ≠ 1 →
      ∃ l, gameLoop_dispatch env fuel uVar3 m = .ok l ∧ l.m.w.inventory._type = 1 ∧
        l.m.w._counter = 0 ∧
        l.m.w.cursor._sequenceID = if m.w.cursor.iniItemInHand = 0 then 1 else 5) := by
  constructor
  · intro l hl hp
    have stay : ∀ r : Run Loop, OkSameMode Loop.m m r → r = .ok l → False := by
      intro r hr e
      have := (hr.out l e).1
      rw [hclosed, hp] at this
      exact absurd this (by decide)
    unfold gameLoop_dispatch at hl
    split_ifs at hl with h1 h2 h3 h4 h5
    · cases hl
      have := (SameMode_setCounter_right (SameMode_ext_right hf.cursor_selectPreviousCursor
        (SameMode_refl m)) : SameMode m ((m.ext .cursor_selectPreviousCursor
          env.cursor_selectPreviousCursor).setCounter 0)).1
      rw [hclosed] at this
      exact absurd (this.symm.trans hp) (by decide)
    · exact (stay _ (gameLoop_latch3_mode env hf uVar3 m) hl).elim
    · exact gameLoop_closed_gate env hf fuel uVar3 m hclosed l hl hp
    all_goals omega
  · intro hkey hinput hlatch hlatch3 hright hvar
    obtain ⟨l, hl, _, _, hw⟩ := joined_r0x80027a38_ok uVar3
      { w := env.inventory_openInventory (openedWorld m.w)
        log := m.log ++ [Call.inventory_openInventory] }
    refine ⟨l, ?_, ?_, ?_, ?_⟩
    · rw [gameLoop_dispatch_open env fuel uVar3 m hclosed hvar hkey hinput hlatch hright hlatch3]
      exact hl
    · rw [hw]
      exact (hf.inventory_openInventory (openedWorld m.w)).1
    · rw [hw]
      exact (hopen (openedWorld m.w)).1
    · rw [hw]
      show (if (env.inventory_openInventory (openedWorld m.w)).cursor.iniItemInHand = 0
        then 1 else 5) = _
      rw [(hopen (openedWorld m.w)).2]
      rfl

/-- C8 at `bagClickMachine` (the click on the bag) and at `openKeyMachine`
(the inventory button) with idle collaborators. -/
theorem closed_to_primary_gating_witness :
    AllCalls KeepsInventoryMode Env.idle ∧ KeepsHandAndCounter Env.idle.inventory_openInventory ∧
    bagClickMachine.w.inventory._type = 0 ∧ openKeyMachine.w.inventory._type = 0 ∧
    (bagClickMachine.w.bit_flags_8006fbd8 &&& 3 ≠ 1 ∧ bagClickMachine.w.getVar 7 ≠ 1 ∧
      ((bagClickMachine.w.checkForInventoryButtonRelease = true ∧
          bagClickMachine.w.isInputEnabled = true) ∨
        (bagClickMachine.w.checkForActionButtonRelease = true ∧
          bagClickMachine.w.isFlagSet ENGINE_FLAG_8 = true ∧
          (bagClickMachine.w.cursor._iniUnderCursor = 0x8002 ∨
            (bagClickMachine.w.cursor._iniUnderCursor = 0x8001 ∧
              bagClickMachine.w.inventory._sequenceId = 0)) ∧
          bagClickMachine.w.cursor.iniItemInHand = 0))) ∧
    ∃ l, gameLoop_dispatch Env.idle 0 0 openKeyMachine = .ok l ∧ l.m.w.inventory._type = 1 ∧
      l.m.w._counter = 0 ∧
      l.m.w.cursor._sequenceID = if openKeyMachine.w.cursor.iniItemInHand = 0 then 1 else 5 :=
  ⟨AllCalls_idle, KeepsHandAndCounter_id, rfl, rfl,
    (closed_to_primary_gating Env.idle AllCalls_idle KeepsHandAndCounter_id 0 0 bagClickMachine
      rfl).1 _ rfl rfl,
    (closed_to_primary_gating Env.idle AllCalls_idle KeepsHandAndCounter_id 0 0 openKeyMachine
      rfl).2 rfl rfl (by decide) (by decide) rfl (by decide)⟩

/-! ## The default fallback -/

theorem low16_of_masked {x y : Nat} (hx : x &&& 0xffff = 0) (hy : y &&& 0xffff = 0) :
    (x &&& 0xfffd ||| y) &&& 0xffff = 0 := by
  rw [Nat.and_comm, Nat.and_or_distrib_left, Nat.and_comm 0xffff y, hy, Nat.and_comm,
    Nat.and_assoc, Nat.and_comm 0xfffd, ← Nat.and_assoc, hx]
  rfl

theorem low16_of_masked_left {x : Nat} (hx : x &&& 0xffff = 0) :
    (x &&& 0xfffd) &&& 0xffff = 0 := by
  rw [Nat.and_assoc, Nat.and_comm 0xfffd, ← Nat.and_assoc, hx]
  rfl

theorem anyBit_cleared_10 (x : Nat) : anyBit (andNot32 x ACTOR_FLAG_10) ACTOR_FLAG_10 = false := by
  have h : (0xFFFFFFFF ^^^ ACTOR_FLAG_10) &&& ACTOR_FLAG_10 = 0 := by decide
  unfold anyBit andNot32
  rw [Nat.and_assoc, h, Nat.and_zero]
  rfl

theorem anyBit_cleared_10_set_4 (x : Nat) :
    anyBit (andNot32 x ACTOR_FLAG_10 ||| ACTOR_FLAG_4) ACTOR_FLAG_10 = false := by
  have h : (0xFFFFFFFF ^^^ ACTOR_FLAG_10) &&& ACTOR_FLAG_10 = 0 := by decide
  have h4 : ACTOR_FLAG_10 &&& ACTOR_FLAG_4 = 0 := by decide
  unfold anyBit andNot32
  rw [Nat.and_comm, Nat.and_or_distrib_left, Nat.and_comm, Nat.and_assoc, h, Nat.and_zero, h4]
  rfl

theorem anyBit_set_4 (x : Nat) : anyBit (x ||| ACTOR_FLAG_4) ACTOR_FLAG_4 = true := by
  have h : (x ||| ACTOR_FLAG_4) &&& ACTOR_FLAG_4 ≠ 0 := by
    intro h
    have := congrArg (fun n => n.testBit 2) h
    have h2 : Nat.testBit 4 2 = true := by decide
    simp [Nat.testBit_or, Nat.testBit_and, ACTOR_FLAG_4, h2] at this
  unfold anyBit
  simpa using h

theorem gameLoop_latch3_queue_cursor (m m0 : Machine) (hq : gameLoop_latch3_queue m = .ok m0) :
    m0.w.cursor = m.w.cursor ∧ m0.w.bit_flags_8006fbd8 = 0 ∧ m0.log = m.log := by
  unfold gameLoop_latch3_queue at hq
  dsimp only at hq
  repeat' split at hq
  all_goals first
    | (cases hq; exact ⟨rfl, rfl, rfl⟩)
    | cases hq

theorem works_secondProbe_skip (env : Env) (uVar2 : Nat) (m : Machine)
    (h : m.w.cursor.data_800728b0_cursor_seqID ≤ 4) :
    works_secondProbe env uVar2 m = (0, { _code := none, _codeEnd := none, _result := 0 }, m) := by
  unfold works_secondProbe
  rw [if_neg (by omega)]

theorem works_selectBody_none (env : Env) (uVar4 : Nat) (local_48 local_38 : ScriptOpCall)
    (h : uVar4 &&& 0xffff = 0) :
    works_selectBody env uVar4 0 local_48 local_38
      = { _code := none, _codeEnd := none, _result := 0 } := by
  unfold works_selectBody
  simp [h]

theorem works_commit_none (env : Env) (m : Machine) :
    works_commit env { _code := none, _codeEnd := none, _result := 0 } m
      = ({ _code := none, _codeEnd := none, _result := 0 }, m) := by
  unfold works_commit
  simp

theorem works_resolve_fallback (env : Env) (uVar1 uVar2 : Nat) (m0 : Machine)
    (hp : (works_firstProbe env (works_enter m0)).1 &&& 0xffff = 0)
    (hseq : (probedMachine env m0).w.cursor.data_800728b0_cursor_seqID ≤ 4)
    (hlook : (probedMachine env m0).w.cursor.data_800728b0_cursor_seqID ≠ 3
      ∨ lookAnswer env m0 &&& 0xffff = 0) :
    works_resolve env uVar1 uVar2 (works_enter m0)
      = .error { why := .FUN_8002931c, state := FUN_8002931c_body (fallbackMachine env m0) } := by
  have hzero : (works_lookProbe env ((works_firstProbe env (works_enter m0)).1 &&& 0xfffd)
      (env.getFromOpt ((m0.w.cursor.data_80072890 : Int) - 1) + 8)
      (env.getFromOpt ((m0.w.cursor.data_80072890 : Int) - 1) + 8
        + READ_LE_UINT32 env (env.getFromOpt ((m0.w.cursor.data_80072890 : Int) - 1)))
      { _code := none, _codeEnd := none, _result := 0 } (probedMachine env m0)).1 &&& 0xffff
        = 0 := by
    unfold works_lookProbe
    split_ifs with h3
    · rcases hlook with h | h
      · exact absurd h3 h
      · exact low16_of_masked hp h
    · exact low16_of_masked_left hp
  unfold works_resolve
  dsimp only
  have hs := works_secondProbe_skip env uVar2 (works_firstProbe env (works_enter m0)).2.2 hseq
  rw [hs]
  dsimp only
  rw [works_selectBody_none env _ _ _ hp, works_commit_none]
  unfold works_with_obd_data_1_finish
  dsimp only
  rw [if_pos (by rfl), if_pos ⟨hzero, by rfl⟩]
  rfl

theorem FUN_8002931c_body_flags (m : Machine) (fl : DragonINI) (a : Nat)
    (hfl : m.w.getFlickerRecord = some fl) (ha : fl.actor = some a) :
    ((FUN_8002931c_body m).w.actors a).isFlagSet ACTOR_FLAG_10 = false ∧
    ((m.w.getCurrentSceneId ≠ 0x2e ∨ (m.w.actors a)._actorResource_id ≠ some 0x91) →
      ((FUN_8002931c_body m).w.actors a).isFlagSet ACTOR_FLAG_4 = true) := by
  have hfl1 : (m.enter .FUN_8002931c).w.getFlickerRecord = some fl := hfl
  unfold FUN_8002931c_body
  simp only [hfl1, ha]
  split_ifs with h
  · simp only [Machine.upd, Machine.enter, World.modifyActor, Function.update_same,
      Actor.isFlagSet, Actor.setFlag, Actor.clearFlag]
    exact ⟨anyBit_cleared_10_set_4 _, fun _ => anyBit_set_4 _⟩
  · simp only [Machine.upd, Machine.enter, World.modifyActor, Function.update_same,
      Actor.isFlagSet, Actor.clearFlag]
    refine ⟨anyBit_cleared_10 _, fun h1 => absurd ?_ h⟩
    rcases h1 with h1 | h1
    · exact Or.inl h1
    · refine Or.inr (Or.inr ?_)
      simpa [Machine.upd, Machine.enter, World.modifyActor, Actor.clearFlag] using h1

theorem works_lookProbe_noRun (env : Env) (uVar4 pvVar7 pvVar8 : Nat) (c : ScriptOpCall)
    (m : Machine) :
    ∃ added, (works_lookProbe env uVar4 pvVar7 pvVar8 c m).2.log = m.log ++ added ∧
      ∀ r, Call.scriptOpcodes_runScript r ∉ added := by
  unfold works_lookProbe
  by_cases h : m.w.cursor.data_800728b0_cursor_seqID = 3
  · rw [if_pos h]
    exact ⟨[Call.scriptOpcodes_FUN_800297d8 { c with _code := some pvVar7, _codeEnd := some pvVar8 }],
      rfl, by simp⟩
  · rw [if_neg h]
    exact ⟨[], (List.append_nil _).symm, by simp⟩

theorem fallbackMachine_log (env : Env) (m0 : Machine) :
    ∃ added, (fallbackMachine env m0).log = m0.log ++ Call.works_with_obd_data_1 :: added ∧
      ∀ c, Call.scriptOpcodes_runScript c ∉ added := by
  obtain ⟨added, ha, hn⟩ := works_lookProbe_noRun env
    ((works_firstProbe env (works_enter m0)).1 &&& 0xfffd)
    (env.getFromOpt ((m0.w.cursor.data_80072890 : Int) - 1) + 8)
    (env.getFromOpt ((m0.w.cursor.data_80072890 : Int) - 1) + 8
      + READ_LE_UINT32 env (env.getFromOpt ((m0.w.cursor.data_80072890 : Int) - 1)))
    { _code := none, _codeEnd := none, _result := 0 } (probedMachine env m0)
  refine ⟨Call.cursor_executeScript
    (scriptOpCallAt env (env.getFromOpt ((m0.w.cursor.data_80072890 : Int) - 1))) 1 :: added,
    ?_, ?_⟩
  · unfold fallbackMachine
    rw [ha]
    show (m0.log ++ [Call.works_with_obd_data_1] ++ [Call.cursor_executeScript
      (scriptOpCallAt env (env.getFromOpt ((m0.w.cursor.data_80072890 : Int) - 1))) 1])
        ++ added = _
    simp
  · intro c hc
    rcases List.mem_cons.mp hc with h | h
    · cases h
    · exact hn c h

/-- C4 as stated fails: in `lookLatchMachine` the latch is 3, the object 1
is queued with the cursor action 3 (a plain walk, no second probe) and the
probe answers 0; the look probe `FUN_800297d8` answers 1, so the tick
returns without the fallback: `FUN_8002931c` is not called and flag 0x4 of
the player actor stays clear. -/
theorem look_probe_suppresses_fallback :
    lookLatchMachine.w.bit_flags_8006fbd8 = 3 ∧ lookLatchMachine.w.cursor.data_80072890 = 1 ∧
    lookLatchMachine.w.cursor.data_800728b0_cursor_seqID = 3 ∧
    (∀ c u w, (lookEnv.cursor_executeScript c u w).1 = 0) ∧
    lookLatchMachine.w.getFlickerRecord = some flickerRecord ∧ flickerRecord.actor = some 0 ∧
    ∃ l, gameLoop_dispatch lookEnv 0 0 lookLatchMachine = .ok l ∧
      l.m.w.bit_flags_8006fbd8 = 0 ∧
      l.m.log = [Call.works_with_obd_data_1,
        Call.cursor_executeScript (scriptOpCallAt lookEnv 0) 1,
        Call.scriptOpcodes_FUN_800297d8 (scriptOpCallAt lookEnv 0)] ∧
      (l.m.w.actors 0).isFlagSet ACTOR_FLAG_4 = false :=
  ⟨rfl, rfl, rfl, fun _ _ _ => rfl, rfl, rfl, _, rfl, rfl, rfl, rfl⟩

/-- C4, amended. With the latch at 3, no right-button pre-emption and a
valid target queued (`data_80072890 > 0`), the tick clears the latch to 0
before the resolution starts.  If the probe result is zero in its low 16
bits, the queued cursor action is at most 4 (no second probe) and, for the
queued action 3, the look probe `FUN_800297d8` answers zero as well, then
`runScript` is not invoked and the fallback `FUN_8002931c` runs: in the
state the step ends in, flag 0x10 of the player actor is clear, and flag 0x4
is set unless the scene is 0x2e and the actor resource is 0x91. -/
theorem gameLoop_latch3_default_fallback (env : Env) (fuel uVar3 : Nat) (m m0 : Machine)
    (h3 : m.w.bit_flags_8006fbd8 = 3)
    (hright : (m.w._rightMouseButtonUp && m.w.isInputEnabled) = false)
    (hq : gameLoop_latch3_queue m = .ok m0)
    (hd : m.w.cursor.data_80072890 > 0)
    (hp : (works_firstProbe env (works_enter m0)).1 &&& 0xffff = 0)
    (hseq : (probedMachine env m0).w.cursor.data_800728b0_cursor_seqID ≤ 4)
    (hlook : (probedMachine env m0).w.cursor.data_800728b0_cursor_seqID ≠ 3
      ∨ lookAnswer env m0 &&& 0xffff = 0) :
    m0.w.bit_flags_8006fbd8 = 0 ∧
    endOf Loop.m (gameLoop_dispatch env fuel uVar3 m)
      = FUN_8002931c_body (fallbackMachine env m0) ∧
    (∃ added, (endOf Loop.m (gameLoop_dispatch env fuel uVar3 m)).log
        = m.log ++ Call.works_with_obd_data_1 :: added ∧
      Call.FUN_8002931c ∈ added ∧ ∀ c, Call.scriptOpcodes_runScript c ∉ added) ∧
    ∀ fl a, (fallbackMachine env m0).w.getFlickerRecord = some fl → fl.actor = some a →
      ((endOf Loop.m (gameLoop_dispatch env fuel uVar3 m)).w.actors a).isFlagSet ACTOR_FLAG_10
        = false ∧
      (((fallbackMachine env m0).w.getCurrentSceneId ≠ 0x2e
          ∨ ((fallbackMachine env m0).w.actors a)._actorResource_id ≠ some 0x91) →
        ((endOf Loop.m (gameLoop_dispatch env fuel uVar3 m)).w.actors a).isFlagSet ACTOR_FLAG_4
          = true) := by
  obtain ⟨hcur, hlatch, hlog⟩ := gameLoop_latch3_queue_cursor m m0 hq
  have hassert : (works_enter m0).w.cursor.data_80072890 > 0 := by
    show m0.w.cursor.data_80072890 > 0
    rw [hcur]
    exact hd
  have hwork : works_with_obd_data_1 env m0
      = .error { why := .FUN_8002931c, state := FUN_8002931c_body (fallbackMachine env m0) } := by
    unfold works_with_obd_data_1
    dsimp only
    rw [if_neg (not_not.mpr hassert)]
    exact works_resolve_fallback env _ _ m0 hp hseq hlook
  have hend : endOf Loop.m (gameLoop_dispatch env fuel uVar3 m)
      = FUN_8002931c_body (fallbackMachine env m0) := by
    simp only [gameLoop_dispatch, hright, h3, gameLoop_latch3, hq, Bool.false_eq_true,
      if_false, if_true]
    show endOf Loop.m (Except.bind (works_with_obd_data_1 env m0) fun m =>
      gameLoop_latch3_finish uVar3 m) = _
    rw [hwork]
    rfl
  refine ⟨hlatch, hend, ?_, ?_⟩
  · obtain ⟨added, ha, hn⟩ := fallbackMachine_log env m0
    refine ⟨added ++ [Call.FUN_8002931c], ?_, by simp, ?_⟩
    · rw [hend, FUN_8002931c_body_log, ha, hlog]
      simp
    · intro c hc
      rcases List.mem_append.mp hc with h | h
      · exact hn c h
      · simp at h
  · intro fl a hfl ha
    rw [hend]
    exact FUN_8002931c_body_flags _ fl a hfl ha

/-- C4 amended, at `latchMachine` with idle collaborators: the probe answers
0, the queued action is 0 and the fallback runs on the player actor 0. -/
theorem gameLoop_latch3_default_fallback_witness :
    latchMachine.w.bit_flags_8006fbd8 = 3 ∧ latchMachine.w.cursor.data_80072890 > 0 ∧
    (endOf id (gameLoop_latch3_queue latchMachine)).w.bit_flags_8006fbd8 = 0 ∧
    ((endOf Loop.m (gameLoop_dispatch Env.idle 0 0 latchMachine)).w.actors 0).isFlagSet
      ACTOR_FLAG_10 = false ∧
    ((endOf Loop.m (gameLoop_dispatch Env.idle 0 0 latchMachine)).w.actors 0).isFlagSet
      ACTOR_FLAG_4 = true :=
  ⟨rfl, by decide,
    (gameLoop_latch3_default_fallback Env.idle 0 0 latchMachine
      (endOf id (gameLoop_latch3_queue latchMachine)) rfl rfl rfl (by decide) rfl (by decide)
      (Or.inl (by decide))).1,
    ((gameLoop_latch3_default_fallback Env.idle 0 0 latchMachine
      (endOf id (gameLoop_latch3_queue latchMachine)) rfl rfl rfl (by decide) rfl (by decide)
      (Or.inl (by decide))).2.2.2 flickerRecord 0 rfl rfl).1,
    ((gameLoop_latch3_default_fallback Env.idle 0 0 latchMachine
      (endOf id (gameLoop_latch3_queue latchMachine)) rfl rfl rfl (by decide) rfl (by decide)
      (Or.inl (by decide))).2.2.2 flickerRecord 0 rfl rfl).2 (Or.inl (by decide))⟩

/-! ## Priority-layer range -/

/-- C11. Range of the priority-layer remap: for 0 ≤ x ≤ 16 the result lies
in [0, 8], it is x itself for x ≤ 8 and x - 8 for 9 ≤ x ≤ 16; the result is
0 for every x ≥ 17, in particular for 17. -/
theorem remapPriorityLayer_range (x : Int) :
    (0 ≤ x → x ≤ 16 → 0 ≤ remapPriorityLayer x ∧ remapPriorityLayer x ≤ 8) ∧
    (0 ≤ x → x ≤ 8 → remapPriorityLayer x = x) ∧
    (9 ≤ x → x ≤ 16 → remapPriorityLayer x = x - 8) ∧
    (17 ≤ x → remapPriorityLayer x = 0) ∧
    remapPriorityLayer 17 = 0 := by
  unfold remapPriorityLayer
  refine ⟨?_, ?_, ?_, ?_, ?_⟩
  · intro h0 h16
    dsimp only
    split_ifs <;> omega
  · intro h0 h8
    dsimp only
    split_ifs <;> omega
  · intro h9 h16
    dsimp only
    split_ifs <;> omega
  · intro h17
    dsimp only
    split_ifs <;> omega
  · decide

/-- C11 at the layers 5, 12 and 40. -/
theorem remapPriorityLayer_range_witness :
    remapPriorityLayer 5 = 5 ∧ remapPriorityLayer 12 = 12 - 8 ∧ remapPriorityLayer 40 = 0 ∧
    (0 ≤ remapPriorityLayer 12 ∧ remapPriorityLayer 12 ≤ 8) :=
  ⟨(remapPriorityLayer_range 5).2.1 (by decide) (by decide),
    (remapPriorityLayer_range 12).2.2.1 (by decide) (by decide),
    (remapPriorityLayer_range 40).2.2.2.1 (by decide),
    (remapPriorityLayer_range 12).1 (by decide) (by decide)⟩

/-! ## Tick deadline -/

/-- C15. Tick deadline without 32-bit wrap-around (the current time and the
stored deadline are at least 17 ms below 2^32): with `d` the stored deadline
and `now` the current time, if `d ≤ now` the call returns 0 and sets the
deadline to `now + 17`, otherwise it returns `d - now`, which is positive,
and sets the deadline to `d + 17`; nothing else changes, and the new
deadline is at least `d + 17`. -/
theorem calulateTimeLeft_deadline (env : Env) (w : World)
    (hnow : env.system_getMillis w + 17 < 4294967296)
    (hd : w._nextUpdatetime + 17 < 4294967296) :
    (w._nextUpdatetime ≤ env.system_getMillis w →
      calulateTimeLeft env w
        = (0, { w with _nextUpdatetime := env.system_getMillis w + 17 })) ∧
    (env.system_getMillis w < w._nextUpdatetime →
      calulateTimeLeft env w
        = (w._nextUpdatetime - env.system_getMillis w,
            { w with _nextUpdatetime := w._nextUpdatetime + 17 }) ∧
      0 < (calulateTimeLeft env w).1) ∧
    w._nextUpdatetime + 17 ≤ (calulateTimeLeft env w).2._nextUpdatetime := by
  have hmod : env.system_getMillis w % 4294967296 = env.system_getMillis w :=
    Nat.mod_eq_of_lt (by omega)
  have h1 : (env.system_getMillis w + 17) % 4294967296 = env.system_getMillis w + 17 :=
    Nat.mod_eq_of_lt hnow
  have h2 : (w._nextUpdatetime + 17) % 4294967296 = w._nextUpdatetime + 17 :=
    Nat.mod_eq_of_lt hd
  unfold calulateTimeLeft
  simp only [hmod, DRAGONS_TICK_INTERVAL, h1, h2]
  refine ⟨?_, ?_, ?_⟩
  · intro h
    rw [if_pos h]
  · intro h
    rw [if_neg (by omega)]
    exact ⟨rfl, by show 0 < w._nextUpdatetime - env.system_getMillis w; omega⟩
  · split_ifs with h
    · show w._nextUpdatetime + 17 ≤ env.system_getMillis w + 17
      omega
    · exact Nat.le_refl _

/-- C15 with the clock at 1000: an overrun deadline 900 gives delay 0 and
the deadline 1017; a deadline 1500 gives delay 500 and the deadline 1517. -/
theorem calulateTimeLeft_deadline_witness :
    calulateTimeLeft { Env.idle with system_getMillis := fun _ => 1000 }
        { World.blank with _nextUpdatetime := 900 }
      = (0, { World.blank with _nextUpdatetime := 1000 + 17 }) ∧
    calulateTimeLeft { Env.idle with system_getMillis := fun _ => 1000 }
        { World.blank with _nextUpdatetime := 1500 }
      = (1500 - 1000, { World.blank with _nextUpdatetime := 1500 + 17 }) :=
  ⟨(calulateTimeLeft_deadline { Env.idle with system_getMillis := fun _ => 1000 }
      { World.blank with _nextUpdatetime := 900 } (by decide) (by decide)).1 (by decide),
    ((calulateTimeLeft_deadline { Env.idle with system_getMillis := fun _ => 1000 }
      { World.blank with _nextUpdatetime := 1500 } (by decide) (by decide)).2.1
        (by decide)).1⟩

/-! ## Flag sets -/

theorem testBit_high_of_u32 {x i : Nat} (hx : x < 4294967296) (hi : 32 ≤ i) :
    x.testBit i = false :=
  Nat.testBit_lt_two_pow
    (Nat.lt_of_lt_of_le (show x < 2 ^ 32 from hx) (Nat.pow_le_pow_right (by decide : 2 > 0) hi))

theorem testBit_andNot32 (x f i : Nat) (hx : x < 4294967296) :
    (andNot32 x f).testBit i = (x.testBit i && !f.testBit i) := by
  unfold andNot32
  rw [Nat.testBit_and, Nat.testBit_xor]
  by_cases hi : i < 32
  · have : Nat.testBit 0xFFFFFFFF i = true := by
      have := Nat.testBit_two_pow_sub_one 32 i
      simpa [hi] using this
    rw [this]
    cases f.testBit i <;> simp
  · rw [testBit_high_of_u32 hx (by omega)]
    simp

theorem anyBit_or_self (x f : Nat) (hf : f ≠ 0) : anyBit (x ||| f) f = true := by
  have h : (x ||| f) &&& f = f := by
    apply Nat.eq_of_testBit_eq
    intro i
    rw [Nat.testBit_and, Nat.testBit_or]
    cases x.testBit i <;> cases f.testBit i <;> rfl
  unfold anyBit
  rw [h]
  simpa using hf

theorem anyBit_andNot32_self (x f : Nat) (hx : x < 4294967296) :
    anyBit (andNot32 x f) f = false := by
  have h : andNot32 x f &&& f = 0 := by
    apply Nat.eq_of_testBit_eq
    intro i
    rw [Nat.testBit_and, testBit_andNot32 x f i hx]
    cases x.testBit i <;> cases f.testBit i <;> simp
  unfold anyBit
  rw [h]
  rfl

/-- C18. The two flag sets are independent and combined by OR and AND-NOT
only.  For 32-bit flag words and every mask `f`: `setFlags f` gives the
engine flags `old | f` and `clearFlags f` gives `old & ~f` (bit by bit), both
with `_unkFlags1` unchanged; `setUnkFlags` and `clearUnkFlags` do the same
on `_unkFlags1` with the engine flags unchanged; `isFlagSet f` is true after
`setFlags f` when `f ≠ 0` and false after `clearFlags f`; a bit outside `f`
is never changed. -/
theorem flag_sets_independent (w : World) (f : Nat) (hflags : w._flags < 4294967296)
    (hunk : w._unkFlags1 < 4294967296) :
    ((w.setFlags f)._flags = w._flags ||| f ∧ (w.setFlags f)._unkFlags1 = w._unkFlags1) ∧
    ((∀ i, ((w.clearFlags f)._flags).testBit i = (w._flags.testBit i && !f.testBit i)) ∧
      (w.clearFlags f)._unkFlags1 = w._unkFlags1) ∧
    ((w.setUnkFlags f)._unkFlags1 = w._unkFlags1 ||| f ∧ (w.setUnkFlags f)._flags = w._flags) ∧
    ((∀ i, ((w.clearUnkFlags f)._unkFlags1).testBit i
        = (w._unkFlags1.testBit i && !f.testBit i)) ∧
      (w.clearUnkFlags f)._flags = w._flags) ∧
    (f ≠ 0 → (w.setFlags f).isFlagSet f = true ∧ (w.setUnkFlags f).isUnkFlagSet f = true) ∧
    ((w.clearFlags f).isFlagSet f = false ∧ (w.clearUnkFlags f).isUnkFlagSet f = false) ∧
    (∀ i, f.testBit i = false →
      ((w.setFlags f)._flags).testBit i = w._flags.testBit i ∧
      ((w.clearFlags f)._flags).testBit i = w._flags.testBit i ∧
      ((w.setUnkFlags f)._unkFlags1).testBit i = w._unkFlags1.testBit i ∧
      ((w.clearUnkFlags f)._unkFlags1).testBit i = w._unkFlags1.testBit i) := by
  refine ⟨⟨rfl, rfl⟩, ⟨fun i => testBit_andNot32 _ f i hflags, rfl⟩, ⟨rfl, rfl⟩,
    ⟨fun i => testBit_andNot32 _ f i hunk, rfl⟩, ?_, ?_, ?_⟩
  · intro hf
    exact ⟨anyBit_or_self _ f hf, anyBit_or_self _ f hf⟩
  · exact ⟨anyBit_andNot32_self _ f hflags, anyBit_andNot32_self _ f hunk⟩
  · intro i hi
    refine ⟨?_, ?_, ?_, ?_⟩
    · show (w._flags ||| f).testBit i = _
      rw [Nat.testBit_or, hi, Bool.or_false]
    · show (andNot32 w._flags f).testBit i = _
      rw [testBit_andNot32 _ f i hflags, hi]
      simp
    · show (w._unkFlags1 ||| f).testBit i = _
      rw [Nat.testBit_or, hi, Bool.or_false]
    · show (andNot32 w._unkFlags1 f).testBit i = _
      rw [testBit_andNot32 _ f i hunk, hi]
      simp

/-- C18 at the engine flags 0x1066 with the mask 0x22: setting and clearing
the mask. -/
theorem flag_sets_independent_witness :
    (({ World.blank with _flags := 0x1066 } : World).setFlags 0x22)._flags = 0x1066 ||| 0x22 ∧
    (({ World.blank with _flags := 0x1066 } : World).clearFlags 0x22).isFlagSet 0x22 = false ∧
    (({ World.blank with _flags := 0x1066 } : World).setFlags 0x22).isFlagSet 0x22 = true :=
  ⟨(flag_sets_independent { World.blank with _flags := 0x1066 } 0x22 (by decide)
      (by decide)).1.1,
    (flag_sets_independent { World.blank with _flags := 0x1066 } 0x22 (by decide)
      (by decide)).2.2.2.2.2.1.1,
    ((flag_sets_independent { World.blank with _flags := 0x1066 } 0x22 (by decide)
      (by decide)).2.2.2.2.1 (by decide)).1⟩

/-! ## Record scripts -/

theorem runINIScripts_record_flags (env : Env) (i : Nat) (ini : DragonINI) (m : Machine) :
    (runINIScripts_record env i ini m).w._flags = m.w._flags := by
  unfold runINIScripts_record
  split_ifs <;> rfl

theorem runINIScripts_loop_flags (env : Env) (fuel : Nat) :
    ∀ (i : Nat) (m : Machine), (runINIScripts_loop env fuel i m).w._flags = m.w._flags := by
  induction fuel with
  | zero => intro i m; rfl
  | succ n ih =>
    intro i m
    unfold runINIScripts_loop
    split_ifs
    · split
      · rfl
      · rw [ih, runINIScripts_record_flags]
    · rfl

theorem anyBit_andNot32_const (x f : Nat) (hf : (0xFFFFFFFF ^^^ f) &&& f = 0) :
    anyBit (andNot32 x f) f = false := by
  unfold anyBit andNot32
  rw [Nat.and_assoc, hf, Nat.and_zero]
  rfl

theorem scriptEntryWorld_flag8 (i : Nat) (w : World) :
    (scriptEntryWorld i w).isFlagSet ENGINE_FLAG_8 = false :=
  anyBit_andNot32_const _ ENGINE_FLAG_8 (by decide)

theorem scriptEntryWorld_pending (i : Nat) (w : World) (r : DragonINI)
    (h : (scriptEntryWorld i w).getINI i = some r) :
    anyBit r.field_1a_flags_maybe INI_FLAG_10 = false := by
  unfold scriptEntryWorld World.clearFlags World.modifyINI World.getINI at h
  simp only [List.getElem?_modify_eq] at h
  cases hr : w.records[i]? with
  | none => rw [hr] at h; cases h
  | some r0 =>
    rw [hr] at h
    cases h
    exact anyBit_andNot32_const _ INI_FLAG_10 (by decide)

/-- C14. `runINIScripts` leaves the engine flags unchanged whatever the
scripts do: for every table and every behaviour of `runScript3`, the engine
flag word on return equals its value at entry.  In the loop body, a record
without the pending bit 0x10 is skipped; for a record with the bit, the
script is invoked in the world `scriptEntryWorld`, in which `ENGINE_FLAG_8`
is clear and the pending bit of the record itself is already clear, and the
engine flags are restored after it. -/
theorem runINIScripts_keeps_flags (env : Env) (m : Machine) :
    (runINIScripts env m).w._flags = m.w._flags ∧
    ∀ (i : Nat) (ini : DragonINI) (m1 : Machine),
      (anyBit ini.field_1a_flags_maybe INI_FLAG_10 = false →
        runINIScripts_record env i ini m1 = m1) ∧
      (anyBit ini.field_1a_flags_maybe INI_FLAG_10 = true →
        (runINIScripts_record env i ini m1).w
          = { (env.scriptOpcodes_runScript3 (scriptOpCallAt env (env.getFromOpt i))
                (scriptEntryWorld i m1.w)).2 with _flags := m1.w._flags } ∧
        (scriptEntryWorld i m1.w).isFlagSet ENGINE_FLAG_8 = false ∧
        ∀ r, (scriptEntryWorld i m1.w).getINI i = some r →
          anyBit r.field_1a_flags_maybe INI_FLAG_10 = false) := by
  constructor
  · unfold runINIScripts
    rw [runINIScripts_loop_flags]
    rfl
  · intro i ini m1
    constructor
    · intro h
      unfold runINIScripts_record
      rw [h]
      rfl
    · intro h
      refine ⟨?_, scriptEntryWorld_flag8 i m1.w, scriptEntryWorld_pending i m1.w⟩
      unfold runINIScripts_record
      rw [h]
      rfl

/-- C14 at `pendingWorld` with scripts that set every engine flag: the
script of record 0 runs and the engine flags are 0 again on return. -/
theorem runINIScripts_keeps_flags_witness :
    (runINIScripts flagSettingEnv { w := pendingWorld, log := [] }).w._flags = 0 ∧
    (runINIScripts flagSettingEnv { w := pendingWorld, log := [] }).log
      = [Call.runINIScripts,
          Call.scriptOpcodes_runScript3 0 (scriptOpCallAt flagSettingEnv 0)] ∧
    (runINIScripts_record flagSettingEnv 0 pendingRecord { w := pendingWorld, log := [] }).w
      = { (flagSettingEnv.scriptOpcodes_runScript3
            (scriptOpCallAt flagSettingEnv (flagSettingEnv.getFromOpt 0))
            (scriptEntryWorld 0 pendingWorld)).2 with _flags := 0 } :=
  ⟨(runINIScripts_keeps_flags flagSettingEnv { w := pendingWorld, log := [] }).1, rfl,
    (((runINIScripts_keeps_flags flagSettingEnv { w := pendingWorld, log := [] }).2 0
      pendingRecord { w := pendingWorld, log := [] }).2 rfl).1⟩

/-! ## Second probe -/

/-- C19 fails on the code: in `itemUseMachine` the first probe runs the
program of object 1 (buffer 100) and `_data_800728c0` holds object 2 (buffer
200) at entry; the second probe runs the program of object 1 again, and the
program of object 2 is not run. -/
theorem second_probe_reruns_queued_object :
    itemUseMachine.w.cursor.data_80072890 = 1 ∧
    itemUseMachine.w.scriptOpcodes._data_800728c0 = 2 ∧
    itemUseMachine.w.cursor.data_800728b0_cursor_seqID = 5 ∧
    tableEnv.getFromOpt (1 - 1) = 100 ∧ tableEnv.getFromOpt (2 - 1) = 200 ∧
    ∃ m, works_with_obd_data_1 tableEnv itemUseMachine = .ok m ∧
      m.log.take 3 = [Call.works_with_obd_data_1,
        Call.cursor_executeScript (scriptOpCallAt tableEnv 100) 1,
        Call.cursor_executeScript (scriptOpCallAt tableEnv 100) 1] ∧
      Call.cursor_executeScript (scriptOpCallAt tableEnv 200) 1 ∉ m.log :=
  ⟨rfl, rfl, rfl, rfl, rfl, _, rfl, rfl, by decide⟩

/-- The second probe of `works_with_obd_data_1` as the code has it: when the
queued action kind `data_800728b0_cursor_seqID` exceeds 4 after the first
probe, `_data_800728c0` is overwritten with `_cursor->data_80072890` before
the buffer is looked up by `_data_800728c0`, so the probe executes the
program of the object `_cursor->data_80072890` (as the first probe left it),
the program the first probe ran whenever the first probe left
`data_80072890` unchanged.  The entry value of `_data_800728c0` is saved and
written back after the probe, and is not used to choose the program. -/
theorem works_secondProbe_queued_object (env : Env) (m0 : Machine)
    (hseq : (probedMachine env m0).w.cursor.data_800728b0_cursor_seqID > 4) :
    works_secondProbe env m0.w.scriptOpcodes._data_800728c0 (probedMachine env m0)
      = ((env.cursor_executeScript
            (scriptOpCallAt env
              (env.getFromOpt (((probedMachine env m0).w.cursor.data_80072890 : Int) - 1))) 1
            (secondProbeWorld (probedMachine env m0).w)).1,
          (env.cursor_executeScript
            (scriptOpCallAt env
              (env.getFromOpt (((probedMachine env m0).w.cursor.data_80072890 : Int) - 1))) 1
            (secondProbeWorld (probedMachine env m0).w)).2.1,
          { w :=
              { (env.cursor_executeScript
                  (scriptOpCallAt env
                    (env.getFromOpt
                      (((probedMachine env m0).w.cursor.data_80072890 : Int) - 1))) 1
                  (secondProbeWorld (probedMachine env m0).w)).2.2 with
                scriptOpcodes :=
                  { (env.cursor_executeScript
                      (scriptOpCallAt env
                        (env.getFromOpt
                          (((probedMachine env m0).w.cursor.data_80072890 : Int) - 1))) 1
                      (secondProbeWorld (probedMachine env m0).w)).2.2.scriptOpcodes with
                    _data_800728c0 := m0.w.scriptOpcodes._data_800728c0 } }
            log := (probedMachine env m0).log ++
              [Call.cursor_executeScript
                (scriptOpCallAt env
                  (env.getFromOpt
                    (((probedMachine env m0).w.cursor.data_80072890 : Int) - 1))) 1] }) ∧
    (works_secondProbe env m0.w.scriptOpcodes._data_800728c0
        (probedMachine env m0)).2.2.w.scriptOpcodes._data_800728c0
      = m0.w.scriptOpcodes._data_800728c0 ∧
    (probedMachine env m0).log = m0.log ++ [Call.works_with_obd_data_1,
      Call.cursor_executeScript
        (scriptOpCallAt env (env.getFromOpt ((m0.w.cursor.data_80072890 : Int) - 1))) 1] ∧
    ((probedMachine env m0).w.cursor.data_80072890 = m0.w.cursor.data_80072890 →
      scriptOpCallAt env
          (env.getFromOpt (((probedMachine env m0).w.cursor.data_80072890 : Int) - 1))
        = scriptOpCallAt env (env.getFromOpt ((m0.w.cursor.data_80072890 : Int) - 1))) := by
  refine ⟨?_, ?_, ?_, ?_⟩
  · unfold works_secondProbe
    rw [if_pos hseq]
    rfl
  · unfold works_secondProbe
    rw [if_pos hseq]
    rfl
  · unfold probedMachine works_firstProbe works_enter
    simp [Machine.ext, Machine.enter, Machine.upd]
  · intro hk
    rw [hk]

/-- The second probe as the code has it, at `itemUseMachine`: it runs the
program of object 1, the queued object, and `_data_800728c0` is 2 again
afterwards. -/
theorem works_secondProbe_queued_object_witness :
    (probedMachine tableEnv itemUseMachine).w.cursor.data_800728b0_cursor_seqID > 4 ∧
    (works_secondProbe tableEnv itemUseMachine.w.scriptOpcodes._data_800728c0
        (probedMachine tableEnv itemUseMachine)).2.2.w.scriptOpcodes._data_800728c0
      = itemUseMachine.w.scriptOpcodes._data_800728c0 ∧
    scriptOpCallAt tableEnv (tableEnv.getFromOpt
        (((probedMachine tableEnv itemUseMachine).w.cursor.data_80072890 : Int) - 1))
      = scriptOpCallAt tableEnv
          (tableEnv.getFromOpt ((itemUseMachine.w.cursor.data_80072890 : Int) - 1)) :=
  ⟨by decide,
    (works_secondProbe_queued_object tableEnv itemUseMachine (by decide)).2.1,
    (works_secondProbe_queued_object tableEnv itemUseMachine (by decide)).2.2.2 rfl⟩

/-! ## Committed body -/

theorem low16_and_2 (x : Nat) : (x &&& 0xffff) &&& 2 = x &&& 2 := by
  rw [Nat.and_assoc]
  rfl

theorem works_commit_runs (env : Env) (body : ScriptOpCall) (m : Machine)
    (h1 : body._code ≠ none) (h2 : body._codeEnd ≠ none) :
    works_commit env body m
      = ((env.scriptOpcodes_runScript body (m.w.clearFlags ENGINE_FLAG_8)).1,
          { w := (env.scriptOpcodes_runScript body (m.w.clearFlags ENGINE_FLAG_8)).2
            log := m.log ++ [Call.scriptOpcodes_runScript body] }) := by
  unfold works_commit
  rw [if_pos ⟨h1, h2⟩]
  rfl

theorem works_commit_skips (env : Env) (body : ScriptOpCall) (m : Machine)
    (h : body._code = none) : works_commit env body m = (body, m) := by
  unfold works_commit
  rw [if_neg (fun hc => hc.1 h)]

/-- The selection and the commit of `works_with_obd_data_1` for probe
contexts whose cursors are `c48` and `c38` (the second one when the second
probe answered), by cases on the low 16 bits of the probe results. -/
theorem works_selectBody_cases (env : Env) (uVar4 uVar6 : Nat)
    (local_48 local_38 : ScriptOpCall) (c48 c38 : Nat) (m : Machine)
    (h48 : local_48._code = some c48)
    (h38 : uVar6 &&& 0xffff ≠ 0 → local_38._code = some c38) :
    ((uVar4 &&& 0xffff = 0 ∧ uVar6 &&& 0xffff = 0) →
      works_selectBody env uVar4 uVar6 local_48 local_38
        = { _code := none, _codeEnd := none, _result := 0 } ∧
      works_commit env (works_selectBody env uVar4 uVar6 local_48 local_38) m
        = (works_selectBody env uVar4 uVar6 local_48 local_38, m)) ∧
    ((uVar4 &&& 0xffff ≠ 0 ∨ uVar6 &&& 0xffff ≠ 0) →
      works_commit env (works_selectBody env uVar4 uVar6 local_48 local_38) m
        = ((env.scriptOpcodes_runScript (works_selectBody env uVar4 uVar6 local_48 local_38)
              (m.w.clearFlags ENGINE_FLAG_8)).1,
            { w := (env.scriptOpcodes_runScript
                (works_selectBody env uVar4 uVar6 local_48 local_38)
                (m.w.clearFlags ENGINE_FLAG_8)).2
              log := m.log ++ [Call.scriptOpcodes_runScript
                (works_selectBody env uVar4 uVar6 local_48 local_38)] }) ∧
      (m.w.clearFlags ENGINE_FLAG_8).isFlagSet ENGINE_FLAG_8 = false) ∧
    ((uVar6 &&& 0xffff ≠ 0 ∧ (uVar4 &&& 0xffff = 0
        ∨ ((uVar4 &&& 0xffff) &&& 2 ≠ 0 ∧ (uVar6 &&& 0xffff) &&& 2 = 0))) →
      works_selectBody env uVar4 uVar6 local_48 local_38
        = { _code := some (c38 + 8)
            _codeEnd := some (c38 + 8 + READ_LE_UINT16 env (c38 + 6))
            _result := 0 }) ∧
    ((uVar4 &&& 0xffff ≠ 0 ∧ ¬ (uVar6 &&& 0xffff ≠ 0 ∧ (uVar4 &&& 0xffff = 0
        ∨ ((uVar4 &&& 0xffff) &&& 2 ≠ 0 ∧ (uVar6 &&& 0xffff) &&& 2 = 0)))) →
      works_selectBody env uVar4 uVar6 local_48 local_38
        = { _code := some (c48 + 8)
            _codeEnd := some (c48 + 8 + READ_LE_UINT16 env (c48 + 6))
            _result := 0 }) := by
  have second : (uVar6 &&& 0xffff ≠ 0 ∧ (uVar4 &&& 0xffff = 0
        ∨ ((uVar4 &&& 0xffff) &&& 2 ≠ 0 ∧ (uVar6 &&& 0xffff) &&& 2 = 0))) →
      works_selectBody env uVar4 uVar6 local_48 local_38
        = { _code := some (c38 + 8)
            _codeEnd := some (c38 + 8 + READ_LE_UINT16 env (c38 + 6))
            _result := 0 } := by
    rintro ⟨h6, h⟩
    rw [low16_and_2, low16_and_2] at h
    unfold works_selectBody
    dsimp only
    rw [if_pos h6, if_neg (by
      rintro ⟨h4, hc⟩
      rcases h with h | ⟨ha, hb⟩
      · exact h4 h
      · rcases hc with (hc | hc) | hc
        · exact ha hc
        · exact hc hb
        · exact h6 hc)]
    unfold probedBody
    rw [h38 h6]
    rfl
  have first : (uVar4 &&& 0xffff ≠ 0 ∧ ¬ (uVar6 &&& 0xffff ≠ 0 ∧ (uVar4 &&& 0xffff = 0
        ∨ ((uVar4 &&& 0xffff) &&& 2 ≠ 0 ∧ (uVar6 &&& 0xffff) &&& 2 = 0)))) →
      works_selectBody env uVar4 uVar6 local_48 local_38
        = { _code := some (c48 + 8)
            _codeEnd := some (c48 + 8 + READ_LE_UINT16 env (c48 + 6))
            _result := 0 } := by
    rintro ⟨h4, h⟩
    rw [low16_and_2, low16_and_2] at h
    have hc : (uVar4 &&& 2 = 0 ∨ uVar6 &&& 2 ≠ 0) ∨ uVar6 &&& 0xffff = 0 := by
      by_cases h6 : uVar6 &&& 0xffff = 0
      · exact Or.inr h6
      · by_cases ha : uVar4 &&& 2 = 0
        · exact Or.inl (Or.inl ha)
        · by_cases hb : uVar6 &&& 2 = 0
          · exact absurd ⟨h6, Or.inr ⟨ha, hb⟩⟩ h
          · exact Or.inl (Or.inr hb)
    unfold works_selectBody
    dsimp only
    rw [if_pos ⟨h4, hc⟩]
    unfold probedBody
    rw [h48]
    split_ifs <;> rfl
  refine ⟨?_, ?_, second, first⟩
  · rintro ⟨h4, h6⟩
    have hb : works_selectBody env uVar4 uVar6 local_48 local_38
        = { _code := none, _codeEnd := none, _result := 0 } := by
      unfold works_selectBody
      dsimp only
      rw [if_neg (not_not.mpr h6), if_neg (fun hc => hc.1 h4)]
    rw [hb]
    exact ⟨rfl, works_commit_skips env _ m rfl⟩
  · intro h
    refine ⟨?_, anyBit_andNot32_const _ ENGINE_FLAG_8 (by decide)⟩
    by_cases hs : uVar6 &&& 0xffff ≠ 0 ∧ (uVar4 &&& 0xffff = 0
        ∨ ((uVar4 &&& 0xffff) &&& 2 ≠ 0 ∧ (uVar6 &&& 0xffff) &&& 2 = 0))
    · apply works_commit_runs <;> rw [second hs] <;> simp
    · have h4 : uVar4 &&& 0xffff ≠ 0 := by
        intro h4
        rcases h with h | h
        · exact h h4
        · exact hs ⟨h, Or.inl h4⟩
      apply works_commit_runs <;> rw [first ⟨h4, hs⟩] <;> simp

/-! ## Actor update order -/

theorem updateActorSequences_exec_log (env : Env) (a : Nat) (fuel : Nat) :
    ∀ (opCall : OpCall) (m : Machine),
      ∃ added, (endOf id (updateActorSequences_exec env a fuel opCall m)).log = m.log ++ added ∧
        ∀ x ∈ executedActors added, x = a := by
  induction fuel with
  | zero =>
    intro opCall m
    exact ⟨[], (List.append_nil _).symm, by simp [executedActors]⟩
  | succ n ih =>
    intro opCall m
    unfold updateActorSequences_exec
    split_ifs
    · dsimp only
      generalize hM : Machine.upd (Machine.ext m (Call.sequenceOpcodes_execOpcode a _) _) _ = m1
      have hlog : ∃ c, m1.log = m.log ++ [Call.sequenceOpcodes_execOpcode a c] := by
        rw [← hM]
        exact ⟨_, rfl⟩
      obtain ⟨c, hc⟩ := hlog
      generalize (env.sequenceOpcodes_execOpcode a _ m.w).1 = op1
      obtain ⟨added, ha, hx⟩ := ih op1 m1
      refine ⟨Call.sequenceOpcodes_execOpcode a c :: added, ?_, ?_⟩
      · rw [ha, hc, List.append_assoc, List.singleton_append]
      · intro x hx1
        simp only [executedActors, List.filterMap_cons, Call.sequenceActor] at hx1
        rcases List.mem_cons.mp hx1 with h | h
        · exact h
        · exact hx x h
    · exact ⟨[], (List.append_nil _).symm, by simp [executedActors]⟩

theorem updateActorSequences_exec_first (env : Env) (a : Nat) (fuel : Nat) (opCall : OpCall)
    (m : Machine) (h : opCall._result = 1) :
    ∃ added, (endOf id (updateActorSequences_exec env a (fuel + 1) opCall m)).log
        = m.log ++ added ∧ a ∈ executedActors added := by
  unfold updateActorSequences_exec
  rw [if_pos h]
  dsimp only
  generalize hM : Machine.upd (Machine.ext m (Call.sequenceOpcodes_execOpcode a _) _) _ = m1
  have hlog : ∃ c, m1.log = m.log ++ [Call.sequenceOpcodes_execOpcode a c] := by
    rw [← hM]
    exact ⟨_, rfl⟩
  obtain ⟨c, hc⟩ := hlog
  generalize (env.sequenceOpcodes_execOpcode a _ m.w).1 = op1
  obtain ⟨added, ha, _⟩ := updateActorSequences_exec_log env a fuel op1 m1
  refine ⟨Call.sequenceOpcodes_execOpcode a c :: added, ?_, ?_⟩
  · rw [ha, hc, List.append_assoc, List.singleton_append]
  · simp [executedActors, Call.sequenceActor]

theorem sequenceReady_iff (actor : Actor) :
    sequenceReady actor = true ↔
      anyBit actor.flags ACTOR_FLAG_40 = true ∧ anyBit actor.flags ACTOR_FLAG_4 = false ∧
      anyBit actor.flags ACTOR_FLAG_400 = false ∧
      (actor.sequenceTimer = 0 ∨ anyBit actor.flags ACTOR_FLAG_1 = true) := by
  unfold sequenceReady
  simp only [Bool.and_eq_true, Bool.not_eq_true', Bool.or_eq_true, beq_iff_eq]
  tauto

/-- C13 as stated fails: in `skippedTick` the foreground actor 0 is ready
with sequence timer 0, and with the engine flag `ENGINE_FLAG_40` set the pass
skips it; in `blockedTick` the foreground actor 5 is ready with sequence
timer 0, and with its flag `ACTOR_FLAG_4` set its program is not executed.
Both passes return. -/
theorem ready_foreground_actor_not_executed :
    (anyBit (skippedTick.w.actors 0).flags ACTOR_FLAG_40 = true ∧
      (skippedTick.w.actors 0).sequenceTimer = 0 ∧
      (updateActorSequences Env.idle 2 skippedTick).isOk = true ∧
      executedActors (endOf id (updateActorSequences Env.idle 2 skippedTick)).log = []) ∧
    (anyBit (blockedTick.w.actors 5).flags ACTOR_FLAG_40 = true ∧
      (blockedTick.w.actors 5).sequenceTimer = 0 ∧
      (updateActorSequences Env.idle 2 blockedTick).isOk = true ∧
      executedActors (endOf id (updateActorSequences Env.idle 2 blockedTick)).log = []) :=
  ⟨⟨rfl, rfl, by decide, by decide⟩, ⟨rfl, rfl, by decide, by decide⟩⟩

/-- C13, amended. `updateActorSequences` does nothing when the engine flag
`ENGINE_FLAG_4` is clear; otherwise it visits the actors below 64 when the
engine flag 0x80 is set and the actors below 23 when it is clear, in
descending order.  When the loop reaches the actor `a` in the state `m1`
(with room for at least one opcode), it executes the sequence program of `a`
if and only if not (`a < 2` and the engine flag `ENGINE_FLAG_40` is set),
the actor's ready flag `ACTOR_FLAG_40` is set, its flags `ACTOR_FLAG_4` and
`ACTOR_FLAG_400` are clear, and its sequence timer is 0 or its restart flag
`ACTOR_FLAG_1` is set. -/
theorem updateActorSequences_eligibility (env : Env) (fuel : Nat) (m : Machine)
    (hfuel : 0 < fuel) :
    (anyBit m.w._flags ENGINE_FLAG_4 = false → updateActorSequences env fuel m = .ok m) ∧
    (anyBit m.w._flags ENGINE_FLAG_4 = true →
      updateActorSequences env fuel m
        = updateActorSequences_loop env fuel
            (if anyBit m.w._flags ENGINE_FLAG_80 then 64 else 23) m) ∧
    (∀ (a : Nat) (m1 : Machine),
      updateActorSequences_loop env fuel (a + 1) m1
        = Except.bind (updateActorSequences_actor env fuel a m1) fun m2 =>
            updateActorSequences_loop env fuel a m2) ∧
    (∀ (a : Nat) (m1 : Machine),
      ∃ added, (endOf id (updateActorSequences_actor env fuel a m1)).log = m1.log ++ added ∧
        (a ∈ executedActors added ↔
          ¬ (a < 2 ∧ anyBit m1.w._flags ENGINE_FLAG_40 = true) ∧
          anyBit (m1.w.actors a).flags ACTOR_FLAG_40 = true ∧
          anyBit (m1.w.actors a).flags ACTOR_FLAG_4 = false ∧
          anyBit (m1.w.actors a).flags ACTOR_FLAG_400 = false ∧
          ((m1.w.actors a).sequenceTimer = 0
            ∨ anyBit (m1.w.actors a).flags ACTOR_FLAG_1 = true))) := by
  refine ⟨?_, ?_, fun a m1 => rfl, ?_⟩
  · intro h
    unfold updateActorSequences
    rw [h]
    rfl
  · intro h
    unfold updateActorSequences
    rw [h]
    rfl
  · intro a m1
    obtain ⟨k, hk⟩ : ∃ k, fuel = k + 1 := ⟨fuel - 1, by omega⟩
    subst hk
    unfold updateActorSequences_actor
    split_ifs with hskip hready h1
    · exact ⟨[], (List.append_nil _).symm, by simp [executedActors, hskip]⟩
    · dsimp only
      generalize hM : Machine.upd (Machine.ext m1 (Call.actor_resetSequenceIP a) _) _ = m2
      have hc : m2.log = m1.log ++ [Call.actor_resetSequenceIP a] := by
        rw [← hM]
        rfl
      obtain ⟨added, ha, hmem⟩ := updateActorSequences_exec_first env a k
        { _op := 0, _code := 0, _deltaOfs := 0, _result := 1 } m2 rfl
      refine ⟨Call.actor_resetSequenceIP a :: added, ?_, ?_⟩
      · rw [ha, hc, List.append_assoc, List.singleton_append]
      · have hin : a ∈ executedActors (Call.actor_resetSequenceIP a :: added) := by
          simpa [executedActors, Call.sequenceActor] using hmem
        exact ⟨fun _ => ⟨hskip, (sequenceReady_iff _).mp hready⟩, fun _ => hin⟩
    · obtain ⟨added, ha, hmem⟩ := updateActorSequences_exec_first env a k
        { _op := 0, _code := 0, _deltaOfs := 0, _result := 1 } m1 rfl
      exact ⟨added, ha, fun _ => ⟨hskip, (sequenceReady_iff _).mp hready⟩, fun _ => hmem⟩
    · refine ⟨[], (List.append_nil _).symm, ?_⟩
      constructor
      · intro h
        simp [executedActors] at h
      · intro h
        exact absurd ((sequenceReady_iff _).mpr h.2) hready

/-- C13 amended, at `pausedTick`, `blockedTick` and `skippedTick`: with
`ENGINE_FLAG_4` clear the pass does nothing, with it set the pass is the loop
from 23, and the actor 0 of `skippedTick` is executed if and only if the
conditions hold. -/
theorem updateActorSequences_eligibility_witness :
    updateActorSequences Env.idle 2 pausedTick = .ok pausedTick ∧
    updateActorSequences Env.idle 2 blockedTick
      = updateActorSequences_loop Env.idle 2
          (if anyBit blockedTick.w._flags ENGINE_FLAG_80 then 64 else 23) blockedTick ∧
    ∃ added, (endOf id (updateActorSequences_actor Env.idle 2 0 skippedTick)).log
        = skippedTick.log ++ added ∧
      (0 ∈ executedActors added ↔
        ¬ (0 < 2 ∧ anyBit skippedTick.w._flags ENGINE_FLAG_40 = true) ∧
        anyBit (skippedTick.w.actors 0).flags ACTOR_FLAG_40 = true ∧
        anyBit (skippedTick.w.actors 0).flags ACTOR_FLAG_4 = false ∧
        anyBit (skippedTick.w.actors 0).flags ACTOR_FLAG_400 = false ∧
        ((skippedTick.w.actors 0).sequenceTimer = 0
          ∨ anyBit (skippedTick.w.actors 0).flags ACTOR_FLAG_1 = true)) :=
  ⟨(updateActorSequences_eligibility Env.idle 2 pausedTick (by decide)).1 rfl,
    (updateActorSequences_eligibility Env.idle 2 blockedTick (by decide)).2.1 rfl,
    (updateActorSequences_eligibility Env.idle 2 skippedTick (by decide)).2.2.2 0 skippedTick⟩

/-! ## Scene load -/

theorem KeepsFlags_id : KeepsFlags id := fun _ => ⟨rfl, rfl⟩

theorem loadScene_flags_baseline (m : Machine) :
    (loadScene_flags m).w._flags = 0x1066 ∧ (loadScene_flags m).w._unkFlags1 = 0 :=
  ⟨by show (0x1046 &&& 0x1c07040) ||| 0x26 = 0x1066; decide, rfl⟩

theorem loadScene_init_flags (env : Env) (hc : KeepsFlags env.cursor_init)
    (hi : KeepsFlags env.inventory_init) (m : Machine) :
    (loadScene_init env m).w._flags = m.w._flags ∧
    (loadScene_init env m).w._unkFlags1 = m.w._unkFlags1 := by
  unfold loadScene_init
  exact ⟨(hi _).1.trans (hc _).1, (hi _).2.trans (hc _).2⟩

theorem loadScene_startup_flags (env : Env)
    (hs : ∀ c, KeepsFlags fun w => (env.scriptOpcodes_runScript c w).2) (m : Machine) :
    (loadScene_startup env m).w._flags = m.w._flags ∧
    (loadScene_startup env m).w._unkFlags1 = m.w._unkFlags1 := by
  unfold loadScene_startup
  have h := hs (startupScriptOpCall env (env.getFromSpt 3))
    ((m.upd fun w => w.setVar 1 1).upd fun w => w.setSceneId 2).w
  exact ⟨h.1, h.2⟩

theorem loadScene_finish_flags (env : Env) (hl : ∀ s c, KeepsFlags (env.scene_loadScene s c))
    (sceneId : Nat) (m : Machine) :
    (endOf id (loadScene_finish env sceneId m)).w._flags = m.w._flags ∧
    (endOf id (loadScene_finish env sceneId m)).w._unkFlags1 = m.w._unkFlags1 := by
  unfold loadScene_finish
  split
  · exact ⟨rfl, rfl⟩
  · split_ifs
    · exact ⟨(hl sceneId 0x1e _).1, (hl sceneId 0x1e _).2⟩
    · exact ⟨(hl sceneId 0x1e _).1, (hl sceneId 0x1e _).2⟩

/-- C16. Scene-load flag baseline: for every prior state and every
`sceneId`, the first statements of `loadScene` set the engine flags to
(0x1046 & 0x1c07040) | 0x26 = 0x1066 and the auxiliary flags to 0, whatever
they were; and when the collaborators `loadScene` then calls (cursor and
inventory initialisation, the start-up script, the scene loader) leave the
two flag words untouched, the engine flags are 0x1066 and the auxiliary
flags are 0 in the state `loadScene` ends in, so on return. -/
theorem loadScene_flag_baseline (env : Env) (sceneId : Nat) (m : Machine) :
    ((loadScene_flags m).w._flags = (0x1046 &&& 0x1c07040) ||| 0x26 ∧
      (loadScene_flags m).w._flags = 0x1066 ∧ (loadScene_flags m).w._unkFlags1 = 0) ∧
    (KeepsFlags env.cursor_init → KeepsFlags env.inventory_init →
      (∀ c, KeepsFlags fun w => (env.scriptOpcodes_runScript c w).2) →
      (∀ s c, KeepsFlags (env.scene_loadScene s c)) →
      (endOf id (loadScene env sceneId m)).w._flags = 0x1066 ∧
      (endOf id (loadScene env sceneId m)).w._unkFlags1 = 0 ∧
      ∀ m1, loadScene env sceneId m = .ok m1 → m1.w._flags = 0x1066 ∧ m1.w._unkFlags1 = 0) := by
  refine ⟨⟨rfl, (loadScene_flags_baseline m).1, (loadScene_flags_baseline m).2⟩, ?_⟩
  intro hc hi hs hl
  have key : (endOf id (loadScene env sceneId m)).w._flags = 0x1066 ∧
      (endOf id (loadScene env sceneId m)).w._unkFlags1 = 0 := by
    unfold loadScene
    split_ifs
    · have h1 := loadScene_finish_flags env hl sceneId
        (loadScene_startup env (loadScene_init env (loadScene_flags m)))
      have h2 := loadScene_startup_flags env hs (loadScene_init env (loadScene_flags m))
      have h3 := loadScene_init_flags env hc hi (loadScene_flags m)
      have h4 := loadScene_flags_baseline m
      exact ⟨by rw [h1.1, h2.1, h3.1, h4.1], by rw [h1.2, h2.2, h3.2, h4.2]⟩
    · have h1 := loadScene_finish_flags env hl 0x12 (loadScene_init env (loadScene_flags m))
      have h3 := loadScene_init_flags env hc hi (loadScene_flags m)
      have h4 := loadScene_flags_baseline m
      exact ⟨by rw [h1.1, h3.1, h4.1], by rw [h1.2, h3.2, h4.2]⟩
  refine ⟨key.1, key.2, fun m1 h1 => ?_⟩
  rw [h1] at key
  exact key

/-- C16 at `flaggedMachine` with idle collaborators and scene 0x12: the
load returns with the engine flags 0x1066 and the auxiliary flags 0. -/
theorem loadScene_flag_baseline_witness :
    flaggedMachine.w._flags = 0xFFFFFFFF ∧ flaggedMachine.w._unkFlags1 = 0xFFFFFFFF ∧
    (loadScene Env.idle 0x12 flaggedMachine).isOk = true ∧
    (endOf id (loadScene Env.idle 0x12 flaggedMachine)).w._flags = 0x1066 ∧
    (endOf id (loadScene Env.idle 0x12 flaggedMachine)).w._unkFlags1 = 0 :=
  ⟨rfl, rfl, rfl,
    ((loadScene_flag_baseline Env.idle 0x12 flaggedMachine).2 KeepsFlags_id KeepsFlags_id
      (fun _ _ => ⟨rfl, rfl⟩) (fun _ _ _ => ⟨rfl, rfl⟩)).1,
    ((loadScene_flag_baseline Env.idle 0x12 flaggedMachine).2 KeepsFlags_id KeepsFlags_id
      (fun _ _ => ⟨rfl, rfl⟩) (fun _ _ _ => ⟨rfl, rfl⟩)).2.1⟩

/-! ## Bytecode framing -/

/-- C17 as stated fails: the start-up script of `loadScene` starts 4 bytes
into its buffer, not 8.  With the SPT entry 3 at address 1000, `loadScene`
for the scene 0x12 calls `runScript` with the start cursor 1004. -/
theorem loadScene_script_starts_4_bytes_in :
    sptEnv.getFromSpt 3 = 1000 ∧
    (endOf id (loadScene sptEnv 0x12 flaggedMachine)).log
      = [Call.cursor_init, Call.inventory_init,
          Call.scriptOpcodes_runScript
            { _code := some 1004, _codeEnd := some (1004 + 16843009), _result := 0 },
          Call.scene_loadScene 0x12 0x1e] ∧
    (1004 : Nat) ≠ 1000 + 8 :=
  ⟨rfl, by decide, by decide⟩

/-- C17, amended. Bytecode framing at the call sites.  `runINIScripts` and
both probes of `works_with_obd_data_1` build the context from an OPT buffer
with the start cursor 8 bytes into the buffer and the end bound at the
start plus the little-endian 32-bit length stored in the first 4 bytes of
the buffer; the start-up script of `loadScene` is built from the SPT buffer
3 with the start cursor 4 bytes into the buffer and the end bound at the
start plus the little-endian 32-bit length stored in the first 4 bytes. -/
theorem script_buffer_framing (env : Env) :
    (∀ data, scriptOpCallAt env data
      = { _code := some (data + 8)
          _codeEnd := some (data + 8 + (env.mem data % 256 + 256 * (env.mem (data + 1) % 256)
            + 65536 * (env.mem (data + 2) % 256) + 16777216 * (env.mem (data + 3) % 256)))
          _result := 0 }) ∧
    (∀ (i : Nat) (ini : DragonINI) (m : Machine),
      anyBit ini.field_1a_flags_maybe INI_FLAG_10 = true →
      (runINIScripts_record env i ini m).log
        = m.log ++ [Call.scriptOpcodes_runScript3 i (scriptOpCallAt env (env.getFromOpt i))]) ∧
    (∀ m : Machine, (works_firstProbe env m).2.2.log
      = m.log ++ [Call.cursor_executeScript
          (scriptOpCallAt env (env.getFromOpt ((m.w.cursor.data_80072890 : Int) - 1))) 1]) ∧
    (∀ (uVar2 : Nat) (m : Machine), m.w.cursor.data_800728b0_cursor_seqID > 4 →
      (works_secondProbe env uVar2 m).2.2.log
        = m.log ++ [Call.cursor_executeScript
            (scriptOpCallAt env (env.getFromOpt ((m.w.cursor.data_80072890 : Int) - 1))) 1]) ∧
    (∀ m : Machine, (loadScene_startup env m).log
      = m.log ++ [Call.scriptOpcodes_runScript
          { _code := some (env.getFromSpt 3 + 4)
            _codeEnd := some (env.getFromSpt 3 + 4
              + (env.mem (env.getFromSpt 3) % 256 + 256 * (env.mem (env.getFromSpt 3 + 1) % 256)
                + 65536 * (env.mem (env.getFromSpt 3 + 2) % 256)
                + 16777216 * (env.mem (env.getFromSpt 3 + 3) % 256)))
            _result := 0 }]) := by
  refine ⟨fun _ => rfl, ?_, fun _ => rfl, ?_, fun _ => rfl⟩
  · intro i ini m h
    unfold runINIScripts_record
    rw [h]
    rfl
  · intro uVar2 m h
    unfold works_secondProbe
    rw [if_pos h]
    rfl

/-- C17 amended, at `pendingWorld` and `itemUseMachine`. -/
theorem script_buffer_framing_witness :
    (runINIScripts_record tableEnv 0 pendingRecord { w := pendingWorld, log := [] }).log
      = [Call.scriptOpcodes_runScript3 0 (scriptOpCallAt tableEnv (tableEnv.getFromOpt 0))] ∧
    (works_secondProbe tableEnv 2 itemUseMachine).2.2.log
      = itemUseMachine.log ++ [Call.cursor_executeScript
          (scriptOpCallAt tableEnv
            (tableEnv.getFromOpt ((itemUseMachine.w.cursor.data_80072890 : Int) - 1))) 1] :=
  ⟨(script_buffer_framing tableEnv).2.1 0 pendingRecord { w := pendingWorld, log := [] } rfl,
    (script_buffer_framing tableEnv).2.2.2.1 2 itemUseMachine (by decide)⟩

/-! ## The two hover resolutions -/

theorem tileInIMG_getIni_eq (img : IMG) (x y : Int) :
    tileInIMG_getIni img x y = tileInIMG img x y := by
  unfold tileInIMG_getIni tileInIMG
  simp only [ge_iff_le, Bool.and_assoc]
  congr 3
  rw [Int.add_comm]

theorem getIniFromImg_loop_eq (env : Env) (w : World) (sceneId : Nat) (x y : Int)
    (hlen : w.records.length ≤ 65535) (fuel : Nat) :
    ∀ i : Nat, i ≤ w.records.length → w.records.length < i + fuel →
      getIniFromImg_loop env w sceneId x y fuel i
        = .ok (ipt_scan env sceneId x y (w.records.drop i) i) := by
  induction fuel with
  | zero => intro i h1 h2; omega
  | succ n ih =>
    intro i h1 h2
    unfold getIniFromImg_loop
    by_cases hi : i < w.records.length
    · rw [if_pos hi]
      have hget : w.getINI i = some (w.records[i]) := List.getElem?_eq_getElem hi
      have hdrop : w.records.drop i = w.records[i] :: w.records.drop (i + 1) :=
        List.drop_eq_getElem_cons hi
      have hmod : (i + 1) % 65536 = i + 1 := Nat.mod_eq_of_lt (by omega)
      rw [hget, hdrop, hmod]
      simp only [ipt_scan, tileInIMG_getIni_eq]
      rw [ih (i + 1) (by omega) (by omega)]
      split_ifs <;> first | rfl | rw [hmod]
    · rw [if_neg hi]
      have : w.records.drop i = [] := List.drop_eq_nil_of_le (by omega)
      rw [this]
      rfl

/-- C27. The two hover-resolution implementations agree: for every table of
at most 65535 records (a `uint16` count), every image-region table, scene id
and player position (the flicker record exists and has an actor),
`getIniFromImg` and `ipt_img_file_related` return the same value. -/
theorem getIniFromImg_eq_ipt_img_file_related (env : Env) (w : World) (flicker : DragonINI)
    (a : Nat) (hflicker : w.getFlickerRecord = some flicker) (hactor : flicker.actor = some a)
    (hlen : w.records.length ≤ 65535) :
    getIniFromImg env w = ipt_img_file_related env w ∧
    ∃ r, ipt_img_file_related env w = .ok r := by
  unfold getIniFromImg ipt_img_file_related
  simp only [hflicker, hactor]
  refine ⟨?_, _, rfl⟩
  rw [getIniFromImg_loop_eq env w _ _ _ hlen 65537 0 (Nat.zero_le _) (by omega)]
  rfl

/-- C27 at `hoverWorld`: both return 2. -/
theorem getIniFromImg_eq_ipt_img_file_related_witness :
    getIniFromImg hoverEnv hoverWorld = .ok 2 ∧
    getIniFromImg hoverEnv hoverWorld = ipt_img_file_related hoverEnv hoverWorld :=
  ⟨rfl,
    (getIniFromImg_eq_ipt_img_file_related hoverEnv hoverWorld pendingRecord 0 rfl rfl
      (by decide)).1⟩

/-! ## Frame pacing -/

theorem calulateTimeLeft_next_deadline (env : Env) (w w1 : World)
    (hd : w1._nextUpdatetime = (calulateTimeLeft env w).2._nextUpdatetime)
    (hc : clockOf env w + (calulateTimeLeft env w).1 ≤ clockOf env w1) :
    w1._nextUpdatetime ≤ clockOf env w1 + 17 := by
  unfold calulateTimeLeft at hd hc
  unfold clockOf at hc ⊢
  dsimp only at hd hc
  split_ifs at hd hc with h
  · rw [hd]
    have := Nat.mod_le (env.system_getMillis w % 4294967296 + DRAGONS_TICK_INTERVAL) 4294967296
    simp only [DRAGONS_TICK_INTERVAL] at this ⊢
    show (env.system_getMillis w % 4294967296 + 17) % 4294967296 ≤ _
    dsimp only at hc
    omega
  · rw [hd]
    have := Nat.mod_le (w._nextUpdatetime + DRAGONS_TICK_INTERVAL) 4294967296
    simp only [DRAGONS_TICK_INTERVAL] at this ⊢
    show (w._nextUpdatetime + 17) % 4294967296 ≤ _
    dsimp only at hc
    omega

theorem Paced_deadline (env : Env) (w : World) (h : Paced env w) :
    w._nextUpdatetime ≤ clockOf env w + 17 := by
  cases h with
  | start w0 _ h0 =>
    rw [h0]
    exact Nat.zero_le _
  | next w' _ _ hd hc => exact calulateTimeLeft_next_deadline env w' w hd hc

/-- C22. No drift accumulation beyond one interval.  In every world in
which a call of `wait` starts, along a run from `reset` (deadline 0) in
which each call reads a clock value at least the previous clock value plus
the delay the previous call returned, the delay `calulateTimeLeft` returns
is at most 17 ms and the stored deadline is at most 17 ms ahead of the
clock; `wait` sleeps for exactly that delay. -/
theorem wait_no_drift (env : Env) (w : World) (h : Paced env w) :
    (calulateTimeLeft env w).1 ≤ 17 ∧ w._nextUpdatetime ≤ clockOf env w + 17 ∧
    (∀ w0 : World, (reset w0)._nextUpdatetime = 0) ∧
    ∀ log, (wait env { w := w, log := log }).log
      = log ++ [Call.system_delayMillis (calulateTimeLeft env w).1] := by
  have hd := Paced_deadline env w h
  refine ⟨?_, hd, fun _ => rfl, fun _ => rfl⟩
  unfold calulateTimeLeft
  unfold clockOf at hd
  dsimp only
  split_ifs
  · exact Nat.zero_le _
  · show w._nextUpdatetime - env.system_getMillis w % 4294967296 ≤ 17
    omega

/-- C22 with the clock at 1000: the first call after `reset` and the next
call, at the same clock value, are paced and return at most 17. -/
theorem wait_no_drift_witness :
    Paced clockEnv (reset World.blank) ∧
    (calulateTimeLeft clockEnv (reset World.blank)).1 ≤ 17 ∧
    Paced clockEnv (calulateTimeLeft clockEnv (reset World.blank)).2 ∧
    (calulateTimeLeft clockEnv (calulateTimeLeft clockEnv (reset World.blank)).2).1 ≤ 17 :=
  ⟨Paced.start World.blank _ rfl,
    (wait_no_drift clockEnv (reset World.blank) (Paced.start World.blank _ rfl)).1,
    Paced.next (reset World.blank) _ (Paced.start World.blank _ rfl) rfl (by decide),
    (wait_no_drift clockEnv (calulateTimeLeft clockEnv (reset World.blank)).2
      (Paced.next (reset World.blank) _ (Paced.start World.blank _ rfl) rfl (by decide))).1⟩

/-! ## Idle fidget -/

theorem KeepsLatch_id : KeepsLatch id := fun _ => rfl

theorem lor_2_le_3 (x : Nat) (h : x ≤ 3) : x ||| 2 ≤ 3 := by
  interval_cases x <;> decide

theorem engineFlag0x20_flicker_latch (env : Env) (hs : ∀ n, KeepsLatch (env.inventory_setActorSequenceId n))
    (hp : ∀ n, KeepsLatch (env.inventory_setPriority n))
    (hu : ∀ a s, KeepsLatch (env.actor_updateSequence a s)) (sceneId : Nat) (m : Machine) :
    (endOf id (engineFlag0x20_flicker env sceneId m)).w.bit_flags_8006fbd8
        = m.w.bit_flags_8006fbd8 ∨
      (endOf id (engineFlag0x20_flicker env sceneId m)).w.bit_flags_8006fbd8
        = m.w.bit_flags_8006fbd8 ||| 2 := by
  unfold engineFlag0x20_flicker
  split
  · exact Or.inl rfl
  · rename_i fl _
    by_cases hscene : fl.sceneId = (sceneId : Int)
    · rw [if_pos hscene]
      split
      · exact Or.inl rfl
      · rename_i a _
        by_cases h10 : (m.w.actors a).isFlagSet ACTOR_FLAG_10 = true
        · rw [if_pos h10]
          by_cases hset : env.inventory_isActorSet m.w = true
          · rw [if_pos hset]
            exact Or.inl ((hp 0 _).trans (hs 8 _))
          · rw [if_neg hset]
            exact Or.inl rfl
        · rw [if_neg h10]
          dsimp only
          by_cases h2 : m.w.bit_flags_8006fbd8 &&& 2 = 0
          · rw [if_pos h2]
            split_ifs
            · exact Or.inr (hu _ _ _)
            · exact Or.inr rfl
          · rw [if_neg h2]
            split_ifs
            · exact Or.inl (hu _ _ _)
            · exact Or.inl rfl
    · rw [if_neg hscene]
      exact Or.inl (hp 0 _)

theorem engineFlag0x20_countdown_latch (env : Env) (sceneId : Nat) (m : Machine) :
    (engineFlag0x20_countdown env sceneId m).w.bit_flags_8006fbd8 = m.w.bit_flags_8006fbd8 := by
  unfold engineFlag0x20_countdown
  dsimp only
  split_ifs <;> rfl

theorem engineFlag0x20UpdateFunction_latch (env : Env) (hc : KeepsLatch env.cursor_update)
    (hs : ∀ n, KeepsLatch (env.inventory_setActorSequenceId n))
    (hp : ∀ n, KeepsLatch (env.inventory_setPriority n))
    (hu : ∀ a s, KeepsLatch (env.actor_updateSequence a s)) (m : Machine) :
    (endOf id (engineFlag0x20UpdateFunction env m)).w.bit_flags_8006fbd8
        = m.w.bit_flags_8006fbd8 ∨
      (endOf id (engineFlag0x20UpdateFunction env m)).w.bit_flags_8006fbd8
        = m.w.bit_flags_8006fbd8 ||| 2 := by
  have h0 : (engineFlag0x20_cursor env m).w.bit_flags_8006fbd8 = m.w.bit_flags_8006fbd8 := by
    unfold engineFlag0x20_cursor
    split_ifs
    · exact hc _
    · rfl
  have h1 := engineFlag0x20_flicker_latch env hs hp hu
    (engineFlag0x20_cursor env m).w.getCurrentSceneId (engineFlag0x20_cursor env m)
  unfold engineFlag0x20UpdateFunction
  split_ifs
  · cases hr : engineFlag0x20_flicker env (engineFlag0x20_cursor env m).w.getCurrentSceneId
        (engineFlag0x20_cursor env m) with
    | error e =>
      rw [hr] at h1
      rw [← h0]
      exact h1
    | ok m1 =>
      rw [hr] at h1
      rw [← h0]
      show (engineFlag0x20_countdown env _ m1).w.bit_flags_8006fbd8 = _ ∨
        (engineFlag0x20_countdown env _ m1).w.bit_flags_8006fbd8 = _
      rw [engineFlag0x20_countdown_latch]
      exact h1
  · exact Or.inl rfl

theorem walkFlickerToObject_walk_latch (env : Env) (f t : DragonINI) (x y : Int) (m : Machine) :
    (endOf id (walkFlickerToObject_walk env f t x y m)).w.bit_flags_8006fbd8 = 1 ∨
      (endOf id (walkFlickerToObject_walk env f t x y m)).w.bit_flags_8006fbd8
        = m.w.bit_flags_8006fbd8 := by
  unfold walkFlickerToObject_walk
  split
  · exact Or.inr rfl
  · exact Or.inl rfl

theorem walkFlickerToObject_body_latch (env : Env) (fi : Nat) (f : DragonINI) (m : Machine) :
    (endOf id (walkFlickerToObject_body env fi f m)).w.bit_flags_8006fbd8 = 0 ∨
      (endOf id (walkFlickerToObject_body env fi f m)).w.bit_flags_8006fbd8 = 1 ∨
      (endOf id (walkFlickerToObject_body env fi f m)).w.bit_flags_8006fbd8 = 3 ∨
      (endOf id (walkFlickerToObject_body env fi f m)).w.bit_flags_8006fbd8
        = m.w.bit_flags_8006fbd8 := by
  have walk : ∀ t x y,
      (endOf id (walkFlickerToObject_walk env f t x y m)).w.bit_flags_8006fbd8 = 0 ∨
      (endOf id (walkFlickerToObject_walk env f t x y m)).w.bit_flags_8006fbd8 = 1 ∨
      (endOf id (walkFlickerToObject_walk env f t x y m)).w.bit_flags_8006fbd8 = 3 ∨
      (endOf id (walkFlickerToObject_walk env f t x y m)).w.bit_flags_8006fbd8
        = m.w.bit_flags_8006fbd8 := by
    intro t x y
    rcases walkFlickerToObject_walk_latch env f t x y m with h | h
    · exact Or.inr (Or.inl h)
    · exact Or.inr (Or.inr (Or.inr h))
  unfold walkFlickerToObject_body
  split_ifs
  · unfold walkFlickerToObject_target
    split
    · exact Or.inr (Or.inr (Or.inr rfl))
    · split_ifs
      · exact Or.inr (Or.inr (Or.inr rfl))
      · exact walk _ _ _
      · split
        · exact Or.inr (Or.inr (Or.inr rfl))
        · exact walk _ _ _
  · exact Or.inr (Or.inr (Or.inl rfl))
  · unfold walkFlickerToObject_arrive
    split
    · exact Or.inr (Or.inr (Or.inl rfl))
    · split
      · exact Or.inr (Or.inr (Or.inr rfl))
      · exact Or.inr (Or.inr (Or.inl rfl))
  · unfold walkFlickerToObject_free
    split_ifs
    · split
      · exact Or.inr (Or.inr (Or.inr rfl))
      · exact Or.inl rfl
    · exact Or.inl rfl
  · exact Or.inr (Or.inr (Or.inl rfl))
  · exact Or.inl rfl

theorem walkFlickerToObject_latch (env : Env) (m : Machine) :
    (endOf id (walkFlickerToObject env m)).w.bit_flags_8006fbd8 = 0 ∨
      (endOf id (walkFlickerToObject env m)).w.bit_flags_8006fbd8 = 1 ∨
      (endOf id (walkFlickerToObject env m)).w.bit_flags_8006fbd8 = 3 ∨
      (endOf id (walkFlickerToObject env m)).w.bit_flags_8006fbd8 = m.w.bit_flags_8006fbd8 := by
  unfold walkFlickerToObject
  split
  · exact walkFlickerToObject_body_latch env _ _ (m.enter .walkFlickerToObject)
  · exact Or.inr (Or.inr (Or.inr rfl))

theorem gameLoop_latch3_queue_latch (m : Machine) :
    (endOf id (gameLoop_latch3_queue m)).w.bit_flags_8006fbd8 = 0 := by
  unfold gameLoop_latch3_queue
  dsimp only
  repeat' split
  all_goals rfl

/-- C21 as stated fails: in `idleLatchMachine` the latch is 0 and the engine
flag `ENGINE_FLAG_20` is set; `engineFlag0x20UpdateFunction` returns with
the latch at 2. -/
theorem engineFlag0x20UpdateFunction_latch_0_to_2 :
    idleLatchMachine.w.bit_flags_8006fbd8 = 0 ∧
    (engineFlag0x20UpdateFunction Env.idle idleLatchMachine).isOk = true ∧
    (endOf id (engineFlag0x20UpdateFunction Env.idle idleLatchMachine)).w.bit_flags_8006fbd8
      = 2 :=
  ⟨rfl, rfl, rfl⟩

/-- C21, amended. The interaction latch `bit_flags_8006fbd8` holds 0, 1, 2
or 3.  `gameLoop` starts its loop with the latch at 0 and the latch==3
branch resets it to 0; `walkFlickerToObject` ends with the latch at 0, 1 or
3, or leaves it as it was; `engineFlag0x20UpdateFunction` leaves the latch as
it was or sets its bit 2 (0 becomes 2, 1 becomes 3), when the collaborators
it calls leave the latch alone.  So each of them takes a latch of at most 3
to a latch of at most 3. -/
theorem latch_at_most_3 (env : Env) (m : Machine) (hlatch : m.w.bit_flags_8006fbd8 ≤ 3)
    (hc : KeepsLatch env.cursor_update)
    (hs : ∀ n, KeepsLatch (env.inventory_setActorSequenceId n))
    (hp : ∀ n, KeepsLatch (env.inventory_setPriority n))
    (hu : ∀ a s, KeepsLatch (env.actor_updateSequence a s)) :
    (∀ fuel ticks, ∃ m0, m0.w.bit_flags_8006fbd8 = 0 ∧
      gameLoop env fuel ticks m = gameLoop_loop env fuel ticks { actorId := 0, m := m0 }) ∧
    (endOf id (gameLoop_latch3_queue m)).w.bit_flags_8006fbd8 = 0 ∧
    ((endOf id (walkFlickerToObject env m)).w.bit_flags_8006fbd8 = 0 ∨
      (endOf id (walkFlickerToObject env m)).w.bit_flags_8006fbd8 = 1 ∨
      (endOf id (walkFlickerToObject env m)).w.bit_flags_8006fbd8 = 3 ∨
      (endOf id (walkFlickerToObject env m)).w.bit_flags_8006fbd8 = m.w.bit_flags_8006fbd8) ∧
    (endOf id (walkFlickerToObject env m)).w.bit_flags_8006fbd8 ≤ 3 ∧
    ((endOf id (engineFlag0x20UpdateFunction env m)).w.bit_flags_8006fbd8
        = m.w.bit_flags_8006fbd8 ∨
      (endOf id (engineFlag0x20UpdateFunction env m)).w.bit_flags_8006fbd8
        = m.w.bit_flags_8006fbd8 ||| 2) ∧
    (endOf id (engineFlag0x20UpdateFunction env m)).w.bit_flags_8006fbd8 ≤ 3 := by
  have hw := walkFlickerToObject_latch env m
  have he := engineFlag0x20UpdateFunction_latch env hc hs hp hu m
  refine ⟨fun fuel ticks => ⟨_, ?_, rfl⟩, gameLoop_latch3_queue_latch m, hw, ?_, he, ?_⟩
  · rfl
  · rcases hw with h | h | h | h <;> rw [h] <;> omega
  · rcases he with h | h
    · rw [h]
      exact hlatch
    · rw [h]
      exact lor_2_le_3 _ hlatch

/-- C21 amended, at `idleLatchMachine` with idle collaborators. -/
theorem latch_at_most_3_witness :
    idleLatchMachine.w.bit_flags_8006fbd8 ≤ 3 ∧
    (endOf id (walkFlickerToObject Env.idle idleLatchMachine)).w.bit_flags_8006fbd8 ≤ 3 ∧
    (endOf id (engineFlag0x20UpdateFunction Env.idle idleLatchMachine)).w.bit_flags_8006fbd8
      ≤ 3 :=
  ⟨by decide,
    (latch_at_most_3 Env.idle idleLatchMachine (by decide) KeepsLatch_id
      (fun _ => KeepsLatch_id) (fun _ => KeepsLatch_id) (fun _ _ => KeepsLatch_id)).2.2.2.1,
    (latch_at_most_3 Env.idle idleLatchMachine (by decide) KeepsLatch_id
      (fun _ => KeepsLatch_id) (fun _ => KeepsLatch_id) (fun _ _ => KeepsLatch_id)).2.2.2.2.2⟩

/-! ## Priority band -/

theorem KeepsLayers_id : KeepsLayers id := fun _ _ => rfl

theorem remapPriorityLayer_band (x : Int) (h : -1 ≤ x) :
    -1 ≤ remapPriorityLayer x ∧ remapPriorityLayer x ≤ 8 ∧
    (0 ≤ x → 0 ≤ remapPriorityLayer x) ∧ (x = -1 → remapPriorityLayer x = -1) := by
  unfold remapPriorityLayer
  dsimp only
  refine ⟨?_, ?_, ?_, ?_⟩
  · split_ifs <;> omega
  · split_ifs <;> omega
  · intro _
    split_ifs <;> omega
  · intro h1
    subst h1
    decide

theorem updateHandler_priority_layer (b : Bool) (p : Int) (x : Actor) (hp : -1 ≤ p)
    (hx : 0 ≤ x.priorityLayer) :
    -1 ≤ (updateHandler_priority b p x).priorityLayer ∧
    ((b = false ∨ p ≠ -1) → 0 ≤ (updateHandler_priority b p x).priorityLayer) ∧
    ((b = true ∧ p = -1) → (updateHandler_priority b p x).priorityLayer = -1) := by
  unfold updateHandler_priority
  refine ⟨?_, ?_, ?_⟩
  · split_ifs <;> first | exact hp | exact Int.le_trans (by decide) hx
  · intro h
    split_ifs with h1 h2 h3
    · show 0 ≤ p
      rcases h with h | h
      · rw [h] at h1
        cases h1
      · omega
    · exact hx
    · show 0 ≤ p
      omega
    · exact hx
  · rintro ⟨h1, h2⟩
    rw [if_pos h1, if_pos (Or.inl (by omega))]
    exact h2


theorem modifyActor_tick_layer (w : World) (i j : Nat) :
    ((w.modifyActor i tickSequenceTimer).actors j).priorityLayer = (w.actors j).priorityLayer := by
  unfold World.modifyActor
  dsimp only
  by_cases h : j = i
  · subst h
    rw [Function.update_same]
    unfold tickSequenceTimer
    split_ifs <;> rfl
  · rw [Function.update_noteq h]

theorem modifyActor_same (w : World) (i : Nat) (f : Actor → Actor) :
    (w.modifyActor i f).actors i = f (w.actors i) := by
  unfold World.modifyActor
  exact Function.update_same _ _ _

theorem SameLayers_refl (m : Machine) : SameLayers m m := fun _ => rfl

theorem SameLayers_trans {a b c : Machine} (h1 : SameLayers a b) (h2 : SameLayers b c) :
    SameLayers a c := fun i => (h2 i).trans (h1 i)

theorem updateHandler_background_layers (n i : Nat) (m : Machine) :
    SameLayers m (updateHandler_background n i m) := by
  induction n generalizing i m with
  | zero => exact SameLayers_refl m
  | succ n ih =>
    unfold updateHandler_background
    exact SameLayers_trans (fun j => modifyActor_tick_layer m.w i j) (ih _ _)

theorem updatePathfindingActors_loop_layers (env : Env)
    (hw : ∀ a, KeepsLayers (env.actor_walkPath a)) (n i : Nat) (m : Machine) :
    SameLayers m (updatePathfindingActors_loop env n i m) := by
  induction n generalizing i m with
  | zero => exact SameLayers_refl m
  | succ n ih =>
    unfold updatePathfindingActors_loop
    exact SameLayers_trans (fun j => hw i m.w j) (ih _ _)

theorem engineFlag0x20_flicker_layers (env : Env)
    (hs : ∀ n, KeepsLayers (env.inventory_setActorSequenceId n))
    (hp : ∀ n, KeepsLayers (env.inventory_setPriority n))
    (hu : ∀ a s, KeepsLayers (env.actor_updateSequence a s)) (sceneId : Nat) (m : Machine) :
    SameLayers m (endOf id (engineFlag0x20_flicker env sceneId m)) := by
  unfold engineFlag0x20_flicker
  split
  · exact SameLayers_refl m
  · rename_i fl _
    by_cases hscene : fl.sceneId = (sceneId : Int)
    · rw [if_pos hscene]
      split
      · exact SameLayers_refl m
      · rename_i a _
        by_cases h10 : (m.w.actors a).isFlagSet ACTOR_FLAG_10 = true
        · rw [if_pos h10]
          by_cases hset : env.inventory_isActorSet m.w = true
          · rw [if_pos hset]
            exact fun j => (hp 0 _ j).trans (hs 8 _ j)
          · rw [if_neg hset]
            exact SameLayers_refl m
        · rw [if_neg h10]
          dsimp only
          by_cases h2 : m.w.bit_flags_8006fbd8 &&& 2 = 0
          · rw [if_pos h2]
            split_ifs
            · exact fun j => hu _ _ _ j
            · exact fun j => rfl
          · rw [if_neg h2]
            split_ifs
            · exact fun j => hu _ _ _ j
            · exact fun j => rfl
    · rw [if_neg hscene]
      exact fun j => hp 0 _ j

theorem engineFlag0x20_countdown_layers (env : Env) (sceneId : Nat) (m : Machine) :
    SameLayers m (engineFlag0x20_countdown env sceneId m) := by
  unfold engineFlag0x20_countdown
  dsimp only
  split_ifs <;> exact fun _ => rfl

theorem engineFlag0x20UpdateFunction_layers (env : Env) (hc : KeepsLayers env.cursor_update)
    (hs : ∀ n, KeepsLayers (env.inventory_setActorSequenceId n))
    (hp : ∀ n, KeepsLayers (env.inventory_setPriority n))
    (hu : ∀ a s, KeepsLayers (env.actor_updateSequence a s)) (m : Machine) :
    SameLayers m (endOf id (engineFlag0x20UpdateFunction env m)) := by
  have h0 : SameLayers m (engineFlag0x20_cursor env m) := by
    unfold engineFlag0x20_cursor
    split_ifs
    · exact fun j => hc _ j
    · exact SameLayers_refl m
  have h1 := engineFlag0x20_flicker_layers env hs hp hu
    (engineFlag0x20_cursor env m).w.getCurrentSceneId (engineFlag0x20_cursor env m)
  unfold engineFlag0x20UpdateFunction
  split_ifs
  · cases hr : engineFlag0x20_flicker env (engineFlag0x20_cursor env m).w.getCurrentSceneId
        (engineFlag0x20_cursor env m) with
    | error e =>
      rw [hr] at h1
      exact SameLayers_trans h0 h1
    | ok m1 =>
      rw [hr] at h1
      exact SameLayers_trans h0 (SameLayers_trans h1 (engineFlag0x20_countdown_layers env _ m1))
  · exact SameLayers_refl m

theorem updateHandler_rest_layers (env : Env) (hw : ∀ a, KeepsLayers (env.actor_walkPath a))
    (hc : KeepsLayers env.cursor_update)
    (hs : ∀ n, KeepsLayers (env.inventory_setActorSequenceId n))
    (hp : ∀ n, KeepsLayers (env.inventory_setPriority n))
    (hu : ∀ a s, KeepsLayers (env.actor_updateSequence a s)) (m m1 : Machine)
    (hrun : updateHandler_rest env m = .ok m1) : SameLayers m m1 := by
  unfold updateHandler_rest at hrun
  dsimp only at hrun
  have ha : SameLayers m (if anyBit m.w._flags ENGINE_FLAG_80 then
      updateHandler_background (DRAGONS_ENGINE_NUM_ACTORS - 0x17) 0x17 m else m) := by
    split_ifs
    · exact updateHandler_background_layers _ _ _
    · exact SameLayers_refl m
  generalize (if anyBit m.w._flags ENGINE_FLAG_80 then
      updateHandler_background (DRAGONS_ENGINE_NUM_ACTORS - 0x17) 0x17 m else m) = ma at ha hrun
  have hb : SameLayers ma (if ma.w.isFlagSet ENGINE_FLAG_4 then updatePathfindingActors env ma
      else ma) := by
    split_ifs
    · exact updatePathfindingActors_loop_layers env hw _ _ _
    · exact SameLayers_refl ma
  generalize (if ma.w.isFlagSet ENGINE_FLAG_4 then updatePathfindingActors env ma else ma) = mb
    at hb hrun
  have hcc : SameLayers mb (endOf id (if mb.w.isFlagSet ENGINE_FLAG_20 then
      engineFlag0x20UpdateFunction env mb else .ok mb)) := by
    split_ifs
    · exact engineFlag0x20UpdateFunction_layers env hc hs hp hu mb
    · exact SameLayers_refl mb
  cases hr : (if mb.w.isFlagSet ENGINE_FLAG_20 then engineFlag0x20UpdateFunction env mb
      else .ok mb) with
  | error e =>
    rw [hr] at hrun
    cases hrun
  | ok mc =>
    rw [hr] at hrun hcc
    cases hrun
    exact SameLayers_trans ha (SameLayers_trans hb (SameLayers_trans hcc (fun _ => rfl)))

theorem updateHandler_actor_frame (env : Env) (i : Nat) (m m1 : Machine)
    (hrun : updateHandler_actor env i m = .ok m1) (j : Nat) (hj : j ≠ i) :
    m1.w.actors j = m.w.actors j := by
  unfold updateHandler_actor at hrun
  have key : ∀ (f g : Actor → Actor),
      (((m.upd fun w => w.modifyActor i f).upd fun w => w.modifyActor i g).w.actors j)
        = m.w.actors j := by
    intro f g
    show Function.update (Function.update _ _ _) _ _ _ = _
    rw [Function.update_noteq hj, Function.update_noteq hj]
  split_ifs at hrun
  · unfold updateHandler_layer at hrun
    dsimp only at hrun
    cases hb : updateHandler_isFlicker env i m with
    | error e =>
      rw [hb] at hrun
      cases hrun
    | ok b =>
      rw [hb] at hrun
      cases hrun
      exact key _ _
  · cases hrun
    show Function.update _ _ _ _ = _
    rw [Function.update_noteq hj]
  · cases hrun
    rfl

/-- The layer the priority step of `updateHandler` leaves actor `i` with,
when the step applies to it. -/
theorem updateHandler_actor_layer (env : Env) (i : Nat) (m : Machine) (b : Bool)
    (h40 : anyBit (m.w.actors i).flags ACTOR_FLAG_40 = true)
    (h100 : anyBit (m.w.actors i).flags ACTOR_FLAG_100 = false)
    (hb : updateHandler_isFlicker env i m = .ok b) :
    ∃ m1, updateHandler_actor env i m = .ok m1 ∧
      (m1.w.actors i).priorityLayer = remapPriorityLayer (updateHandler_priority b
        (env.scene_getPriorityAtPosition (m.w.actors i).x_pos (m.w.actors i).y_pos m.w)
        (m.w.actors i)).priorityLayer := by
  unfold updateHandler_actor
  rw [if_pos h40, h100]
  unfold updateHandler_layer
  dsimp only
  rw [hb]
  refine ⟨_, rfl, ?_⟩
  show ((World.modifyActor _ i tickSequenceTimer).actors i).priorityLayer = _
  rw [modifyActor_tick_layer]
  unfold Machine.upd
  dsimp only
  rw [modifyActor_same]


theorem updateHandler_actor_band (env : Env)
    (hprio : ∀ x y w, -1 ≤ env.scene_getPriorityAtPosition x y w) (i : Nat) (m m1 : Machine)
    (hrun : updateHandler_actor env i m = .ok m1)
    (h40 : anyBit (m.w.actors i).flags ACTOR_FLAG_40 = true)
    (h100 : anyBit (m.w.actors i).flags ACTOR_FLAG_100 = false)
    (hprev : 0 ≤ (m.w.actors i).priorityLayer) :
    (0 ≤ (m1.w.actors i).priorityLayer ∧ (m1.w.actors i).priorityLayer ≤ 8) ∨
      ((m1.w.actors i).priorityLayer = -1 ∧ updateHandler_isFlicker env i m = .ok true ∧
        env.scene_getPriorityAtPosition (m.w.actors i).x_pos (m.w.actors i).y_pos m.w = -1) := by
  cases hb : updateHandler_isFlicker env i m with
  | error e =>
    unfold updateHandler_actor at hrun
    rw [if_pos h40, h100] at hrun
    unfold updateHandler_layer at hrun
    dsimp only at hrun
    rw [hb] at hrun
    cases hrun
  | ok b =>
    obtain ⟨m2, h2, hL⟩ := updateHandler_actor_layer env i m b h40 h100 hb
    rw [h2] at hrun
    cases hrun
    rw [hL]
    have hp := updateHandler_priority_layer b
      (env.scene_getPriorityAtPosition (m.w.actors i).x_pos (m.w.actors i).y_pos m.w)
      (m.w.actors i) (hprio _ _ _) hprev
    have hr := remapPriorityLayer_band _ hp.1
    by_cases hc : b = true ∧
        env.scene_getPriorityAtPosition (m.w.actors i).x_pos (m.w.actors i).y_pos m.w = -1
    · refine Or.inr ⟨hr.2.2.2 (hp.2.2 hc), ?_, hc.2⟩
      rw [hc.1]
    · refine Or.inl ⟨hr.2.2.1 (hp.2.1 ?_), hr.2.1⟩
      cases b
      · exact Or.inl rfl
      · exact Or.inr fun h => hc ⟨rfl, h⟩

theorem updateHandler_foreground_split (env : Env) :
    ∀ (a b i : Nat) (m : Machine),
      updateHandler_foreground env (a + b) i m
        = Except.bind (updateHandler_foreground env a i m) fun m1 =>
            updateHandler_foreground env b (i + a) m1 := by
  intro a
  induction a with
  | zero =>
    intro b i m
    rw [Nat.zero_add]
    rfl
  | succ a ih =>
    intro b i m
    have hE : a + 1 + b = (a + b) + 1 := by omega
    rw [hE]
    show (Except.bind (updateHandler_actor env i m) fun m =>
        updateHandler_foreground env (a + b) (i + 1) m)
      = Except.bind (Except.bind (updateHandler_actor env i m) fun m =>
          updateHandler_foreground env a (i + 1) m) fun m1 =>
            updateHandler_foreground env b (i + (a + 1)) m1
    cases updateHandler_actor env i m with
    | error e => rfl
    | ok ms =>
      show updateHandler_foreground env (a + b) (i + 1) ms
        = Except.bind (updateHandler_foreground env a (i + 1) ms) fun m1 =>
            updateHandler_foreground env b (i + (a + 1)) m1
      rw [ih b (i + 1) ms]
      have hi : i + 1 + a = i + (a + 1) := by omega
      rw [hi]

theorem updateHandler_foreground_frame (env : Env) :
    ∀ (n i : Nat) (m m1 : Machine), updateHandler_foreground env n i m = .ok m1 →
      ∀ j, j < i ∨ i + n ≤ j → m1.w.actors j = m.w.actors j := by
  intro n
  induction n with
  | zero =>
    intro i m m1 hrun j _
    cases hrun
    rfl
  | succ n ih =>
    intro i m m1 hrun j hj
    unfold updateHandler_foreground at hrun
    cases hs : updateHandler_actor env i m with
    | error e =>
      rw [hs] at hrun
      cases hrun
    | ok ms =>
      rw [hs] at hrun
      rw [ih (i + 1) ms m1 hrun j (by omega)]
      exact updateHandler_actor_frame env i m ms hs j (by omega)

theorem updateHandler_foreground_reach (env : Env) (j : Nat) (hj : j < 0x17) (m m1 : Machine)
    (h : updateHandler_foreground env 0x17 0 m = .ok m1) :
    ∃ mj ms, updateHandler_foreground env j 0 m = .ok mj ∧
      updateHandler_actor env j mj = .ok ms ∧
      mj.w.actors j = m.w.actors j ∧ m1.w.actors j = ms.w.actors j := by
  have hE : 0x17 = j + ((0x17 - j - 1) + 1) := by omega
  rw [hE, updateHandler_foreground_split env j _ 0 m] at h
  cases hmj : updateHandler_foreground env j 0 m with
  | error e =>
    rw [hmj] at h
    cases h
  | ok mj =>
    rw [hmj] at h
    have h1 : (Except.bind (updateHandler_actor env (0 + j) mj) fun m =>
        updateHandler_foreground env (0x17 - j - 1) (0 + j + 1) m) = .ok m1 := h
    rw [Nat.zero_add] at h1
    cases hms : updateHandler_actor env j mj with
    | error e =>
      rw [hms] at h1
      cases h1
    | ok ms =>
      rw [hms] at h1
      have h2 : updateHandler_foreground env (0x17 - j - 1) (j + 1) ms = .ok m1 := h1
      refine ⟨mj, ms, rfl, hms, ?_, ?_⟩
      · exact (updateHandler_foreground_frame env j 0 m mj hmj) j (Or.inr (by omega))
      · exact (updateHandler_foreground_frame env _ (j + 1) ms m1 h2) j (Or.inl (by omega))


/-- C23 (amended). After `updateHandler` returns, a foreground actor `j`
(index < 23) that the first loop finds with `ACTOR_FLAG_40` set,
`ACTOR_FLAG_100` clear and a layer of at least 0 has `priorityLayer` in 0..8,
for every priority the scene reports (any value ≥ -1), unless it is the
player (flicker) actor and the scene reports no priority (-1) at its
position: then its layer is -1.  The player test and the reported priority
are those of the state in which the loop reaches actor `j`
(`updateHandler_atActor`), in which actor `j` is still as the loop found it
at its start.  The collaborators called after the loop are taken to leave
the layers alone. -/
theorem updateHandler_priority_band (env : Env) (fuel : Nat) (m : Machine)
    (hprio : ∀ x y w, -1 ≤ env.scene_getPriorityAtPosition x y w)
    (hw : ∀ a, KeepsLayers (env.actor_walkPath a))
    (hc : KeepsLayers env.cursor_update)
    (hs : ∀ n, KeepsLayers (env.inventory_setActorSequenceId n))
    (hp : ∀ n, KeepsLayers (env.inventory_setPriority n))
    (hu : ∀ a s, KeepsLayers (env.actor_updateSequence a s))
    (hrun : (updateHandler env fuel m).isOk = true) (j : Nat) (hj : j < 0x17)
    (h40 : anyBit ((updateHandler_atActor env fuel m j).w.actors j).flags ACTOR_FLAG_40 = true)
    (h100 : anyBit ((updateHandler_atActor env fuel m j).w.actors j).flags ACTOR_FLAG_100 = false)
    (hprev : 0 ≤ ((updateHandler_atActor env fuel m j).w.actors j).priorityLayer) :
    (updateHandler_atActor env fuel m j).w.actors j
      = (updateHandler_atActor env fuel m 0).w.actors j ∧
    ((updateHandler_isFlicker env j (updateHandler_atActor env fuel m j) = .ok true ∧
        env.scene_getPriorityAtPosition ((updateHandler_atActor env fuel m j).w.actors j).x_pos
          ((updateHandler_atActor env fuel m j).w.actors j).y_pos
          (updateHandler_atActor env fuel m j).w = -1) →
      ((endOf id (updateHandler env fuel m)).w.actors j).priorityLayer = -1) ∧
    (¬ (updateHandler_isFlicker env j (updateHandler_atActor env fuel m j) = .ok true ∧
        env.scene_getPriorityAtPosition ((updateHandler_atActor env fuel m j).w.actors j).x_pos
          ((updateHandler_atActor env fuel m j).w.actors j).y_pos
          (updateHandler_atActor env fuel m j).w = -1) →
      0 ≤ ((endOf id (updateHandler env fuel m)).w.actors j).priorityLayer ∧
        ((endOf id (updateHandler env fuel m)).w.actors j).priorityLayer ≤ 8) := by
  cases hseq : updateActorSequences env fuel
      (m.upd fun w => { w with data_8006a3a0_flag := w.data_8006a3a0_flag ||| 0x40 }) with
  | error e =>
    unfold updateHandler at hrun
    rw [hseq] at hrun
    cases hrun
  | ok ma =>
    have hE : updateHandler env fuel m = Except.bind (updateHandler_foreground env 0x17 0
        (updateHandler_loopStart env ma)) fun m => updateHandler_rest env m := by
      unfold updateHandler
      rw [hseq]
      rfl
    have hat : ∀ k, updateHandler_atActor env fuel m k
        = endOf id (updateHandler_foreground env k 0 (updateHandler_loopStart env ma)) := by
      intro k
      unfold updateHandler_atActor
      rw [hseq]
      rfl
    rw [hE] at hrun ⊢
    cases hloop : updateHandler_foreground env 0x17 0 (updateHandler_loopStart env ma) with
    | error e =>
      rw [hloop] at hrun
      cases hrun
    | ok m1 =>
      rw [hloop] at hrun
      have hE1 : (Except.bind (Except.ok m1) fun m => updateHandler_rest env m)
          = updateHandler_rest env m1 := rfl
      rw [hE1] at hrun ⊢
      cases hrest : updateHandler_rest env m1 with
      | error e =>
        rw [hrest] at hrun
        cases hrun
      | ok m2 =>
        obtain ⟨mj, ms, hmj, hms, hfound, hkept⟩ :=
          updateHandler_foreground_reach env j hj _ m1 hloop
        have hatj : updateHandler_atActor env fuel m j = mj := by
          rw [hat j, hmj]
          rfl
        have hat0 : updateHandler_atActor env fuel m 0 = updateHandler_loopStart env ma := by
          rw [hat 0]
          rfl
        rw [hatj] at h40 h100 hprev ⊢
        rw [hat0]
        have hsame := updateHandler_rest_layers env hw hc hs hp hu m1 m2 hrest j
        have hL : ((endOf id (Except.ok m2 : Run Machine)).w.actors j).priorityLayer
            = (ms.w.actors j).priorityLayer := by
          show (m2.w.actors j).priorityLayer = _
          rw [hsame, hkept]
        rw [hL]
        refine ⟨hfound, ?_, ?_⟩
        · rintro ⟨hb, hno⟩
          obtain ⟨ms1, h1, hlayer⟩ := updateHandler_actor_layer env j mj true h40 h100 hb
          rw [hms] at h1
          cases h1
          rw [hlayer, hno]
          rfl
        · intro hnot
          rcases updateHandler_actor_band env hprio j mj ms hms h40 h100 hprev with h | h
          · exact h
          · exact absurd ⟨h.2.1, h.2.2⟩ hnot

/-- C23 (amended) at `twoActorsMachine` with idle collaborators, where the
scene reports no priority: actor 1, which is not the player, goes from
layer 12 to layer 4, and the player actor 0 from layer 5 to layer -1. -/
theorem updateHandler_priority_band_witness :
    updateHandler_isFlicker Env.idle 1 (updateHandler_atActor Env.idle 2 twoActorsMachine 1)
      = .ok false ∧
    (0 ≤ ((endOf id (updateHandler Env.idle 2 twoActorsMachine)).w.actors 1).priorityLayer ∧
      ((endOf id (updateHandler Env.idle 2 twoActorsMachine)).w.actors 1).priorityLayer ≤ 8) ∧
    ((endOf id (updateHandler Env.idle 2 twoActorsMachine)).w.actors 1).priorityLayer = 4 ∧
    updateHandler_isFlicker Env.idle 0 (updateHandler_atActor Env.idle 2 twoActorsMachine 0)
      = .ok true ∧
    ((endOf id (updateHandler Env.idle 2 twoActorsMachine)).w.actors 0).priorityLayer = -1 :=
  ⟨rfl,
    (updateHandler_priority_band Env.idle 2 twoActorsMachine (fun _ _ _ => Int.le_refl (-1))
      (fun _ => KeepsLayers_id) KeepsLayers_id (fun _ => KeepsLayers_id)
      (fun _ => KeepsLayers_id) (fun _ _ => KeepsLayers_id) (by decide) 1 (by decide)
      (by decide) (by decide) (by decide)).2.2 (fun h => by
        have h1 : updateHandler_isFlicker Env.idle 1
            (updateHandler_atActor Env.idle 2 twoActorsMachine 1) = .ok false := rfl
        rw [h1] at h
        cases h.1),
    by decide, rfl,
    (updateHandler_priority_band Env.idle 2 twoActorsMachine (fun _ _ _ => Int.le_refl (-1))
      (fun _ => KeepsLayers_id) KeepsLayers_id (fun _ => KeepsLayers_id)
      (fun _ => KeepsLayers_id) (fun _ _ => KeepsLayers_id) (by decide) 0 (by decide)
      (by decide) (by decide) (by decide)).2.1 ⟨rfl, rfl⟩⟩

/-- C23 (counterexample): the player actor of `playerLayerMachine` is a
foreground actor with `ACTOR_FLAG_40` set, `ACTOR_FLAG_100` clear and the
layer 5; the scene reports no priority (-1) at its position, which passes
the test `priority < 8`, and `updateHandler` returns with its layer at -1,
outside 0..8. -/
theorem updateHandler_player_layer_minus_1 :
    anyBit (playerLayerMachine.w.actors 0).flags ACTOR_FLAG_40 = true ∧
      anyBit (playerLayerMachine.w.actors 0).flags ACTOR_FLAG_100 = false ∧
      (playerLayerMachine.w.actors 0).priorityLayer = 5 ∧
      Env.idle.scene_getPriorityAtPosition 0 0 playerLayerMachine.w = -1 ∧
      (updateHandler Env.idle 2 playerLayerMachine).isOk = true ∧
      ((endOf id (updateHandler Env.idle 2 playerLayerMachine)).w.actors 0).priorityLayer = -1 := by
  decide

/-! ## Script dispatch order -/

theorem runINIScripts_scan_succ (env : Env) (m : Machine) (i : Nat) :
    runINIScripts_scan env m (i + 1)
      = match (runINIScripts_scan env m i).w.getINI i with
        | none => runINIScripts_scan env m i
        | some ini => runINIScripts_record env i ini (runINIScripts_scan env m i) := rfl

theorem runINIScripts_record_length (env : Env)
    (hlen : ∀ c, KeepsTableSize fun w => (env.scriptOpcodes_runScript3 c w).2) (i : Nat)
    (ini : DragonINI) (m : Machine) :
    (runINIScripts_record env i ini m).w.records.length = m.w.records.length := by
  unfold runINIScripts_record
  split_ifs
  · show ((env.scriptOpcodes_runScript3 _ _).2).records.length = _
    rw [hlen]
    show (List.modify _ _ _).length = _
    rw [List.length_modify]
  · rfl

theorem runINIScripts_scan_length (env : Env)
    (hlen : ∀ c, KeepsTableSize fun w => (env.scriptOpcodes_runScript3 c w).2) (m : Machine) :
    ∀ i, (runINIScripts_scan env m i).w.records.length = m.w.records.length := by
  intro i
  induction i with
  | zero => rfl
  | succ i ih =>
    rw [runINIScripts_scan_succ]
    split
    · exact ih
    · rw [runINIScripts_record_length env hlen, ih]

theorem runINIScripts_record_scripts (env : Env) (i : Nat) (ini : DragonINI) (m : Machine) :
    scriptsRun (runINIScripts_record env i ini m).log
      = scriptsRun m.log ++ (if anyBit ini.field_1a_flags_maybe INI_FLAG_10 then [i] else []) := by
  unfold runINIScripts_record
  split_ifs
  · show scriptsRun (m.log ++ [_]) = _
    unfold scriptsRun
    rw [List.filterMap_append]
    rfl
  · rw [List.append_nil]

theorem runINIScripts_scan_scripts (env : Env) (m : Machine) :
    ∀ i, scriptsRun (runINIScripts_scan env m i).log
      = scriptsRun m.log ++ (List.range i).filter (pendingAt env m) := by
  intro i
  induction i with
  | zero =>
    show scriptsRun (m.log ++ [Call.runINIScripts]) = _
    unfold scriptsRun
    rw [List.filterMap_append]
    rfl
  | succ i ih =>
    rw [List.range_succ, List.filter_append, ← List.append_assoc, ← ih, runINIScripts_scan_succ]
    cases hr : (runINIScripts_scan env m i).w.getINI i with
    | none =>
      have hp : pendingAt env m i = false := by
        unfold pendingAt
        rw [hr]
      simp only [List.filter_cons, List.filter_nil, hp]
      simp
    | some ini =>
      have hp : pendingAt env m i = anyBit ini.field_1a_flags_maybe INI_FLAG_10 := by
        unfold pendingAt
        rw [hr]
      show scriptsRun (runINIScripts_record env i ini (runINIScripts_scan env m i)).log = _
      rw [runINIScripts_record_scripts]
      simp only [List.filter_cons, List.filter_nil, hp]

theorem runINIScripts_loop_scan (env : Env)
    (hlen : ∀ c, KeepsTableSize fun w => (env.scriptOpcodes_runScript3 c w).2) (m : Machine) :
    ∀ (k i extra : Nat), i + k = m.w.records.length →
      runINIScripts_loop env (k + 1 + extra) i (runINIScripts_scan env m i)
        = runINIScripts_scan env m m.w.records.length := by
  intro k
  induction k with
  | zero =>
    intro i extra hi
    have hl := runINIScripts_scan_length env hlen m i
    rw [Nat.zero_add, Nat.add_comm 1 extra]
    unfold runINIScripts_loop
    rw [if_neg (by omega)]
    rw [Nat.add_zero] at hi
    rw [hi]
  | succ k ih =>
    intro i extra hi
    have hl := runINIScripts_scan_length env hlen m i
    have hE : k + 1 + 1 + extra = (k + 1 + extra) + 1 := by omega
    rw [hE]
    unfold runINIScripts_loop
    rw [if_pos (by omega)]
    have hnext := ih (i + 1) extra (by omega)
    rw [runINIScripts_scan_succ] at hnext
    cases hr : (runINIScripts_scan env m i).w.getINI i with
    | none =>
      exfalso
      unfold World.getINI at hr
      rw [List.getElem?_eq_none_iff] at hr
      omega
    | some ini =>
      rw [hr] at hnext
      exact hnext

theorem runINIScripts_eq_scan (env : Env)
    (hlen : ∀ c, KeepsTableSize fun w => (env.scriptOpcodes_runScript3 c w).2) (m : Machine)
    (hn : m.w.records.length ≤ 65535) :
    runINIScripts env m = runINIScripts_scan env m m.w.records.length := by
  unfold runINIScripts
  have h := runINIScripts_loop_scan env hlen m m.w.records.length 0
    (65535 - m.w.records.length) (Nat.zero_add _)
  have hE : m.w.records.length + 1 + (65535 - m.w.records.length) = 65536 := by omega
  rw [hE] at h
  exact h


theorem runINIScripts_record_entry (env : Env) (i j : Nat) (ini : DragonINI) (m : Machine)
    (h : anyBit ini.field_1a_flags_maybe INI_FLAG_10 = true) :
    (runINIScripts_record env i ini m).w.getINI j
      = ((env.scriptOpcodes_runScript3 (scriptOpCallAt env (env.getFromOpt i))
          (scriptEntryWorld i m.w)).2).getINI j := by
  unfold runINIScripts_record
  rw [if_pos h]
  rfl

theorem scriptEntryWorld_other (i j : Nat) (w : World) (h : j ≠ i) :
    (scriptEntryWorld i w).getINI j = w.getINI j := by
  unfold scriptEntryWorld World.clearFlags World.modifyINI World.getINI
  dsimp only
  rw [List.getElem?_modify]
  have hij : ¬ i = j := fun e => h e.symm
  simp only [if_neg hij]
  cases w.records[j]? <;> rfl

theorem runINIScripts_scan_served (env : Env)
    (hno : ∀ c, SetsNoPending fun w => (env.scriptOpcodes_runScript3 c w).2) (m : Machine) :
    ∀ i j, j < i → ∀ r, (runINIScripts_scan env m i).w.getINI j = some r →
      anyBit r.field_1a_flags_maybe INI_FLAG_10 = false := by
  intro i
  induction i with
  | zero => intro j hj; omega
  | succ i ih =>
    intro j hj r hr
    rw [runINIScripts_scan_succ] at hr
    have hold : ∀ r0, (runINIScripts_scan env m i).w.getINI i = some r0 →
        anyBit r0.field_1a_flags_maybe INI_FLAG_10 = false →
        (runINIScripts_scan env m i).w.getINI j = some r →
        anyBit r.field_1a_flags_maybe INI_FLAG_10 = false := by
      intro r0 h0 hb hj1
      by_cases hji : j = i
      · subst hji
        rw [h0] at hj1
        cases hj1
        exact hb
      · exact ih j (by omega) r hj1
    cases hi : (runINIScripts_scan env m i).w.getINI i with
    | none =>
      rw [hi] at hr
      dsimp only at hr
      by_cases hji : j = i
      · subst hji
        rw [hi] at hr
        cases hr
      · exact ih j (by omega) r hr
    | some ini =>
      rw [hi] at hr
      dsimp only at hr
      cases hbit : anyBit ini.field_1a_flags_maybe INI_FLAG_10 with
      | false =>
        have hsame : runINIScripts_record env i ini (runINIScripts_scan env m i)
            = runINIScripts_scan env m i := by
          unfold runINIScripts_record
          rw [hbit]
          rfl
        rw [hsame] at hr
        exact hold ini hi hbit hr
      | true =>
        rw [runINIScripts_record_entry env i j ini _ hbit] at hr
        cases hres : anyBit r.field_1a_flags_maybe INI_FLAG_10 with
        | false => rfl
        | true =>
          exfalso
          obtain ⟨r0, h0, hb0⟩ := hno _ _ j r hr hres
          by_cases hji : j = i
          · subst hji
            rw [scriptEntryWorld_pending j _ r0 h0] at hb0
            cases hb0
          · rw [scriptEntryWorld_other i j _ hji] at h0
            rw [ih j (by omega) r0 h0] at hb0
            cases hb0

theorem SetsNoPending_id : SetsNoPending id := fun _ _ r h hb => ⟨r, h, hb⟩

theorem KeepsTableSize_id : KeepsTableSize id := fun _ => rfl

theorem KeepsTableSize_requeueEnv (c : ScriptOpCall) :
    KeepsTableSize fun w => (requeueEnv.scriptOpcodes_runScript3 c w).2 := by
  intro w
  show (if c._code = some 208 then _ else w).records.length = _
  split_ifs
  · show (List.modify _ _ (List.modify _ _ _)).length = _
    rw [List.length_modify, List.length_modify]
  · rfl

/-- C25. `runINIScripts` scans the registry in ascending index order: when
the scripts keep the number of records (at most 65535), the pass ends in the
state `runINIScripts_scan` reaches after the last record, and the scripts it
runs are those of the records `i` whose bit 0x10 is set at the moment the
scan reaches `i` (`pendingAt`), each once, in ascending order of `i`.  So a
bit a script sets on a later record is served in the same pass and one set
on an earlier record is not.  If the scripts set no pending bit, no record
has bit 0x10 set when the pass returns. -/
theorem runINIScripts_dispatch_order (env : Env) (m : Machine)
    (hlen : ∀ c, KeepsTableSize fun w => (env.scriptOpcodes_runScript3 c w).2)
    (hn : m.w.records.length ≤ 65535) :
    runINIScripts env m = runINIScripts_scan env m m.w.records.length ∧
    scriptsRun (runINIScripts env m).log
      = scriptsRun m.log ++ (List.range m.w.records.length).filter (pendingAt env m) ∧
    List.Pairwise (fun a b => a < b)
      ((List.range m.w.records.length).filter (pendingAt env m)) ∧
    ((∀ c, SetsNoPending fun w => (env.scriptOpcodes_runScript3 c w).2) →
      ∀ j r, (runINIScripts env m).w.getINI j = some r →
        anyBit r.field_1a_flags_maybe INI_FLAG_10 = false) := by
  have hE := runINIScripts_eq_scan env hlen m hn
  refine ⟨hE, ?_, List.Pairwise.filter _ (List.pairwise_lt_range _), ?_⟩
  · rw [hE]
    exact runINIScripts_scan_scripts env m _
  · intro hno j r hr
    rw [hE] at hr
    by_cases hj : j < m.w.records.length
    · exact runINIScripts_scan_served env hno m _ j hj r hr
    · exfalso
      have hl := runINIScripts_scan_length env hlen m m.w.records.length
      have hnone : (runINIScripts_scan env m m.w.records.length).w.getINI j = none := by
        unfold World.getINI
        rw [List.getElem?_eq_none_iff]
        omega
      rw [hnone] at hr
      cases hr

/-- C25 at `requeueMachine`, where the script of record 1 sets the pending
bit of records 0 and 2: the scripts of records 1 and 2 run, in this order,
and record 0 is still pending when the pass returns; and at `pendingWorld`
with idle scripts, where no record is pending when the pass returns. -/
theorem runINIScripts_dispatch_order_witness :
    scriptsRun (runINIScripts requeueEnv requeueMachine).log
      = scriptsRun requeueMachine.log
        ++ (List.range requeueMachine.w.records.length).filter (pendingAt requeueEnv requeueMachine) ∧
    (List.range requeueMachine.w.records.length).filter (pendingAt requeueEnv requeueMachine)
      = [1, 2] ∧
    ((runINIScripts requeueEnv requeueMachine).w.getINI 0).map
      (fun r => anyBit r.field_1a_flags_maybe INI_FLAG_10) = some true ∧
    ∀ j r, (runINIScripts Env.idle { w := pendingWorld, log := [] }).w.getINI j = some r →
      anyBit r.field_1a_flags_maybe INI_FLAG_10 = false :=
  ⟨(runINIScripts_dispatch_order requeueEnv requeueMachine KeepsTableSize_requeueEnv
      (by decide)).2.1,
    by decide, by decide,
    (runINIScripts_dispatch_order Env.idle { w := pendingWorld, log := [] }
      (fun _ => KeepsTableSize_id) (by decide)).2.2.2 (fun _ => SetsNoPending_id)⟩

/-! ## The local actorId of gameLoop -/

theorem EndsTick_ok (u : Nat) (m : Machine) : EndsTick u (.ok { actorId := u, m := m }) := by
  intro l h
  cases h
  rfl

theorem EndsTick_error (u : Nat) (e : Halt) : EndsTick u (.error e) := by
  intro l h
  cases h

theorem EndsTick_halt (u : Nat) (m : Machine) (why : Abort) : EndsTick u (m.halt why) :=
  EndsTick_error u _

theorem EndsTick_bind {α : Type} (u : Nat) (r : Run α) (f : α → Run Loop)
    (h : ∀ x, EndsTick u (f x)) : EndsTick u (Except.bind r f) := by
  cases r with
  | error e => exact EndsTick_error u e
  | ok x => exact h x

theorem LAB_80027b58_ends (env : Env) (u : Nat) (m : Machine) : EndsTick u (LAB_80027b58 env u m) :=
  EndsTick_ok u _

theorem joined_r0x80027a38_ends (u : Nat) (m : Machine) : EndsTick u (joined_r0x80027a38 u m) := by
  unfold joined_r0x80027a38
  split_ifs <;> exact EndsTick_ok u _

theorem LAB_800279f4_ends (u uVar7 : Nat) (m : Machine) : EndsTick u (LAB_800279f4 u uVar7 m) :=
  EndsTick_bind u _ _ fun _ => EndsTick_ok u _

theorem joined_r0x800271d0_ends (env : Env) (u uVar7 s : Nat) (m : Machine) :
    EndsTick u (joined_r0x800271d0 env u uVar7 s m) := by
  unfold joined_r0x800271d0
  dsimp only
  split_ifs
  · exact LAB_800279f4_ends u uVar7 _
  · exact joined_r0x80027a38_ends u _

theorem LAB_80027970_ends (env : Env) (u : Nat) (m : Machine) : EndsTick u (LAB_80027970 env u m) :=
  EndsTick_ok u _

theorem LAB_80027ab4_ends (env : Env) (u : Nat) (m : Machine) : EndsTick u (LAB_80027ab4 env u m) :=
  EndsTick_bind u _ _ fun _ => LAB_80027b58_ends env u _

theorem closed_after_bag_ends (env : Env) (u uVar6 : Nat) (m : Machine) :
    EndsTick u (closed_after_bag env u uVar6 m) := by
  unfold closed_after_bag
  split_ifs
  · exact EndsTick_bind u _ _ fun _ => EndsTick_ok u _
  · exact LAB_80027ab4_ends env u m

theorem LAB_80027294_store_ends (u uVar7 : Nat) (m : Machine) :
    EndsTick u (LAB_80027294_store u uVar7 m) := by
  unfold LAB_80027294_store
  split_ifs
  · exact EndsTick_ok u _
  · exact EndsTick_halt u _ _

theorem LAB_80027294_ends (env : Env) (fuel u uVar6 : Nat) (m : Machine) :
    EndsTick u (LAB_80027294 env fuel u uVar6 m) := by
  unfold LAB_80027294
  split_ifs
  · exact joined_r0x800271d0_ends env u _ _ _
  · exact closed_after_bag_ends env u uVar6 m
  · split
    · exact EndsTick_halt u _ _
    · split_ifs
      · exact EndsTick_bind u _ _ fun _ => LAB_80027294_store_ends u _ _
      · exact closed_after_bag_ends env u uVar6 m

theorem closed_click_ends (env : Env) (fuel u uVar6 : Nat) (m : Machine) :
    EndsTick u (closed_click env fuel u uVar6 m) := by
  unfold closed_click
  split_ifs
  · exact LAB_80027294_ends env fuel u uVar6 m
  · exact LAB_80027ab4_ends env u m
  · exact LAB_80027294_ends env fuel u uVar6 m
  · exact closed_after_bag_ends env u uVar6 m
  · exact LAB_80027ab4_ends env u m

theorem gameLoop_closed_ends (env : Env) (fuel u : Nat) (m : Machine) :
    EndsTick u (gameLoop_closed env fuel u m) := by
  unfold gameLoop_closed
  split_ifs
  · exact joined_r0x800271d0_ends env u _ _ _
  · exact closed_click_ends env fuel u _ _
  · exact LAB_80027b58_ends env u m

theorem gameLoop_secondary_ends (env : Env) (u : Nat) (m : Machine) :
    EndsTick u (gameLoop_secondary env u m) := by
  unfold gameLoop_secondary
  split_ifs
  · exact LAB_800279f4_ends u _ m
  · exact joined_r0x80027a38_ends u _
  · exact LAB_80027ab4_ends env u m
  · exact LAB_80027b58_ends env u m

theorem LAB_8002790c_ends (env : Env) (fuel u : Nat) (m : Machine) :
    EndsTick u (LAB_8002790c env fuel u m) := by
  unfold LAB_8002790c
  split_ifs
  · exact LAB_80027b58_ends env u m
  · exact EndsTick_bind u _ _ fun _ => LAB_80027970_ends env u _

theorem primary_panel_ends (env : Env) (fuel u uVar6 : Nat) (m : Machine) :
    EndsTick u (primary_panel env fuel u uVar6 m) := by
  unfold primary_panel
  split_ifs
  · exact EndsTick_bind u _ _ fun _ => EndsTick_ok u _
  · exact EndsTick_ok u _
  · exact LAB_8002790c_ends env fuel u m
  · exact EndsTick_bind u _ _ fun _ => EndsTick_ok u _
  · exact EndsTick_ok u _

theorem primary_item_show_ends (env : Env) (u actor item : Nat) (m : Machine) :
    EndsTick u (primary_item_show env u actor item m) := by
  unfold primary_item_show
  split
  · exact EndsTick_halt u _ _
  · exact EndsTick_ok u _

theorem primary_item_ends (env : Env) (fuel u : Nat) (m : Machine) :
    EndsTick u (primary_item env fuel u m) := by
  unfold primary_item
  split_ifs
  · exact EndsTick_bind u _ _ fun _ => LAB_8002790c_ends env fuel u _
  · split
    · exact EndsTick_halt u _ _
    · split_ifs
      · exact primary_item_show_ends env u _ _ _
      · exact EndsTick_ok u _

theorem primary_drop_ends (env : Env) (fuel u : Nat) (m : Machine) :
    EndsTick u (primary_drop env fuel u m) := by
  unfold primary_drop
  split_ifs
  · split
    · exact EndsTick_halt u _ _
    · exact LAB_8002790c_ends env fuel u _
  · exact EndsTick_halt u _ _
  · exact LAB_8002790c_ends env fuel u m

theorem primary_click_ends (env : Env) (fuel u uVar6 : Nat) (m : Machine) :
    EndsTick u (primary_click env fuel u uVar6 m) := by
  unfold primary_click
  split_ifs
  · exact primary_panel_ends env fuel u uVar6 m
  · exact primary_item_ends env fuel u m
  · exact LAB_80027b58_ends env u m
  · exact primary_drop_ends env fuel u m

theorem gameLoop_primary_ends (env : Env) (fuel u : Nat) (m : Machine) :
    EndsTick u (gameLoop_primary env fuel u m) := by
  unfold gameLoop_primary
  split_ifs
  · exact LAB_80027970_ends env u _
  · exact primary_click_ends env fuel u _ _
  · exact LAB_8002790c_ends env fuel u m

theorem gameLoop_latch3_ends (env : Env) (u : Nat) (m : Machine) :
    EndsTick u (gameLoop_latch3 env u m) :=
  EndsTick_bind u _ _ fun _ => EndsTick_bind u _ _ fun _ =>
    EndsTick_bind u _ _ fun _ => EndsTick_ok u _

theorem gameLoop_dispatch_ends (env : Env) (fuel u : Nat) (m : Machine) :
    EndsTick u (gameLoop_dispatch env fuel u m) := by
  unfold gameLoop_dispatch
  split_ifs
  · exact EndsTick_ok u _
  · exact gameLoop_latch3_ends env u m
  · exact gameLoop_closed_ends env fuel u m
  · exact LAB_80027b58_ends env u m
  · exact gameLoop_secondary_ends env u m
  · exact LAB_80027b58_ends env u m
  · exact gameLoop_primary_ends env fuel u m


theorem gameLoop_body_eq (env : Env) (fuel : Nat) (l : Loop) :
    gameLoop_body env fuel l
      = Except.bind (gameLoop_beforeHover env fuel l) fun m =>
          Except.bind (gameLoop_hover env l.actorId m) fun u =>
            Except.bind (gameLoop_cursorOffset env m) fun m => gameLoop_dispatch env fuel u m := by
  unfold gameLoop_body gameLoop_beforeHover
  dsimp only
  cases updateHandler env fuel (wait env
      ((l.m.ext .scene_draw env.scene_draw).ext .screen_updateScreen env.screen_updateScreen)) with
  | error e => rfl
  | ok a =>
    show Except.bind (updateEvents env fuel a) _ = Except.bind (Except.bind (updateEvents env fuel a) _) _
    cases updateEvents env fuel a with
    | error e => rfl
    | ok b =>
      show Except.bind (gameLoop_fidget env _) _ = Except.bind (Except.bind (gameLoop_fidget env _) _) _
      cases gameLoop_fidget env
        ((if b.w.getCurrentSceneId ≠ 2 then b.upd fun w => { w with _sceneId1 := w.getCurrentSceneId }
          else b).setCounter
            (((if b.w.getCurrentSceneId ≠ 2 then
                b.upd fun w => { w with _sceneId1 := w.getCurrentSceneId }
              else b).w._counter + 1) % 4294967296)) with
      | error e => rfl
      | ok c =>
        show Except.bind (gameLoop_fidgetDone c) _ = Except.bind (Except.bind (gameLoop_fidgetDone c) _) _
        cases gameLoop_fidgetDone c with
        | error e => rfl
        | ok d => rfl

theorem ipt_scan_lt (env : Env) (sceneId : Nat) (tileX tileY : Int) :
    ∀ (records : List DragonINI) (i : Nat), ipt_scan env sceneId tileX tileY records i < 65536 := by
  intro records
  induction records with
  | nil => intro i; exact Nat.zero_lt_succ _
  | cons x rest ih =>
    intro i
    unfold ipt_scan
    split_ifs
    · exact Nat.mod_lt _ (by decide)
    · exact ih _
    · exact ih _

theorem ipt_img_file_related_lt (env : Env) (w : World) (r : Nat)
    (h : ipt_img_file_related env w = .ok r) : r < 65536 := by
  unfold ipt_img_file_related at h
  split at h
  · cases h
  · split at h
    · cases h
    · cases h
      exact ipt_scan_lt env _ _ _ _ _

theorem low16_of_lt (r : Nat) (h : r < 65536) : r &&& 0xffff = r := by
  have h1 : r &&& (2 ^ 16 - 1) = r % 2 ^ 16 := Nat.and_pow_two_sub_one_eq_mod r 16
  have h2 : r % 2 ^ 16 = r := Nat.mod_eq_of_lt h
  rw [h2] at h1
  exact h1

theorem gameLoop_hover_low16 (env : Env) (a : Nat) (m : Machine) (u : Nat)
    (h : gameLoop_hover env a m = .ok u) : u = 0 ∨ u &&& 0xffff = a &&& 0xffff := by
  unfold gameLoop_hover at h
  split at h
  · cases h
  · split_ifs at h
    · split at h
      · cases h
      · dsimp only at h
        split_ifs at h with h1 h2
        · cases h
          exact Or.inl rfl
        · cases h
        · cases h
          exact Or.inr (not_not.mp h2)
    · cases h
      exact Or.inl rfl

theorem gameLoop_hover_fatal (env : Env) (m : Machine) (f : DragonINI) (r : Nat)
    (hf : m.w.getFlickerRecord = some f) (hs : f.sceneId = (m.w.getCurrentSceneId : Int))
    (hr : ipt_img_file_related env m.w = .ok r) (h0 : r ≠ 0) :
    gameLoop_hover env 0 m = m.halt .actorIdMismatch := by
  have hlow := low16_of_lt r (ipt_img_file_related_lt env m.w r hr)
  unfold gameLoop_hover
  rw [hf]
  dsimp only
  rw [if_pos hs, hr]
  dsimp only
  rw [hlow, if_neg h0, if_pos]
  exact h0

theorem gameLoop_hover_zero (env : Env) (a : Nat) (m : Machine) (f : DragonINI)
    (hf : m.w.getFlickerRecord = some f) (hr : ipt_img_file_related env m.w = .ok 0) :
    gameLoop_hover env a m = .ok 0 := by
  unfold gameLoop_hover
  rw [hf]
  dsimp only
  rw [hr]
  split_ifs <;> rfl

theorem gameLoop_body_keeps_zero (env : Env) (fuel : Nat) (l l1 : Loop) (h0 : l.actorId = 0)
    (h : gameLoop_body env fuel l = .ok l1) : l1.actorId = 0 := by
  rw [gameLoop_body_eq, h0] at h
  cases hb : gameLoop_beforeHover env fuel l with
  | error e =>
    rw [hb] at h
    cases h
  | ok m =>
    rw [hb] at h
    change (Except.bind (gameLoop_hover env 0 m) fun u =>
      Except.bind (gameLoop_cursorOffset env m) fun m => gameLoop_dispatch env fuel u m) = _ at h
    cases hh : gameLoop_hover env 0 m with
    | error e =>
      rw [hh] at h
      cases h
    | ok u =>
      rw [hh] at h
      have hu : u = 0 := by
        rcases gameLoop_hover_low16 env 0 m u hh with h1 | h1
        · exact h1
        · unfold gameLoop_hover at hh
          split at hh
          · cases hh
          · split_ifs at hh
            · split at hh
              · cases hh
              · dsimp only at hh
                split_ifs at hh with h2 h3
                · cases hh
                  rfl
                · cases hh
                · cases hh
                  exact absurd h1 h2
            · cases hh
              rfl
      subst hu
      exact EndsTick_bind 0 _ _ (fun x => gameLoop_dispatch_ends env fuel 0 x) l1 h

theorem TickStart_zero (env : Env) (fuel : Nat) (m : Machine) (l : Loop)
    (h : TickStart env fuel m l) : l.actorId = 0 := by
  induction h with
  | first => rfl
  | next l l1 _ _ hb ih => exact gameLoop_body_keeps_zero env fuel l l1 ih hb

theorem gameLoop_loop_reaches (env : Env) (fuel : Nat) (m : Machine) :
    ∀ (ticks : Nat) (l0 l : Loop), TickStart env fuel m l0 →
      gameLoop_loop env fuel ticks l0 = .ok l → TickStart env fuel m l := by
  intro ticks
  induction ticks with
  | zero =>
    intro l0 l _ h
    cases h
  | succ n ih =>
    intro l0 l h0 h
    unfold gameLoop_loop at h
    cases hq : env.shouldQuit l0.m.w with
    | true =>
      rw [hq] at h
      cases h
      exact h0
    | false =>
      rw [hq] at h
      cases hb : gameLoop_body env fuel l0 with
      | error e =>
        rw [hb] at h
        cases h
      | ok l1 =>
        rw [hb] at h
        exact ih l1 l (TickStart.next l0 l1 h0 hq hb) h


/-- C26. The local `actorId` of `gameLoop` is 0 at the start of every tick.
Every path of the dispatcher that ends a tick hands on that tick's `uVar3`;
the hover step returns a `uVar3` that is 0 or agrees with `actorId` in its
low 16 bits; so every loop state in which a tick begins (`TickStart`), and
the state `gameLoop` returns, has `actorId` 0.  Consequently a tick that
begins with `actorId` 0 and reaches the hover step with the player record in
the current scene and a non-zero result of `ipt_img_file_related` ends in the
fatal error "actorId_00 != (actorId & 0xffff)", in the state the hover step
was reached in; with a result of 0 the hover step returns 0, whatever
`actorId` is. -/
theorem gameLoop_actorId_zero (env : Env) (fuel : Nat) :
    (∀ (u : Nat) (m : Machine) (l : Loop), gameLoop_dispatch env fuel u m = .ok l →
      l.actorId = u) ∧
    (∀ (a : Nat) (m : Machine) (u : Nat), gameLoop_hover env a m = .ok u →
      u = 0 ∨ u &&& 0xffff = a &&& 0xffff) ∧
    (∀ (m : Machine) (l : Loop), TickStart env fuel m l → l.actorId = 0) ∧
    (∀ (m : Machine) (ticks : Nat) (l : Loop), gameLoop env fuel ticks m = .ok l →
      TickStart env fuel m l) ∧
    (∀ l : Loop, l.actorId = 0 → (gameLoop_beforeHover env fuel l).isOk = true →
      (∃ f, (endOf id (gameLoop_beforeHover env fuel l)).w.getFlickerRecord = some f ∧
        f.sceneId = ((endOf id (gameLoop_beforeHover env fuel l)).w.getCurrentSceneId : Int)) →
      (∃ r, ipt_img_file_related env (endOf id (gameLoop_beforeHover env fuel l)).w = .ok r ∧
        r ≠ 0) →
      gameLoop_body env fuel l
        = (endOf id (gameLoop_beforeHover env fuel l)).halt .actorIdMismatch) ∧
    (∀ (a : Nat) (m : Machine) (f : DragonINI), m.w.getFlickerRecord = some f →
      ipt_img_file_related env m.w = .ok 0 → gameLoop_hover env a m = .ok 0) := by
  refine ⟨fun u m l h => gameLoop_dispatch_ends env fuel u m l h,
    fun a m u h => gameLoop_hover_low16 env a m u h,
    fun m l h => TickStart_zero env fuel m l h,
    fun m ticks l h => gameLoop_loop_reaches env fuel m ticks _ l TickStart.first h, ?_,
    fun a m f hf hr => gameLoop_hover_zero env a m f hf hr⟩
  intro l h0 hok hf hr
  obtain ⟨f, hf1, hf2⟩ := hf
  obtain ⟨r, hr1, hr2⟩ := hr
  rw [gameLoop_body_eq, h0]
  cases hb : gameLoop_beforeHover env fuel l with
  | error e =>
    rw [hb] at hok
    cases hok
  | ok m =>
    rw [hb] at hf1 hf2 hr1
    show (Except.bind (gameLoop_hover env 0 m) fun u =>
      Except.bind (gameLoop_cursorOffset env m) fun m => gameLoop_dispatch env fuel u m) = _
    rw [gameLoop_hover_fatal env m f r hf1 hf2 hr1 hr2]
    rfl

/-- C26 at `hoverTick`: the tick begins with `actorId` 0, the player record
is in scene 1 and `ipt_img_file_related` returns 2, and the tick ends in the
fatal error. -/
theorem gameLoop_actorId_zero_witness :
    hoverTick.actorId = 0 ∧ (gameLoop_beforeHover hoverEnv 2 hoverTick).isOk = true ∧
    ipt_img_file_related hoverEnv (endOf id (gameLoop_beforeHover hoverEnv 2 hoverTick)).w
      = .ok 2 ∧
    gameLoop_body hoverEnv 2 hoverTick
      = (endOf id (gameLoop_beforeHover hoverEnv 2 hoverTick)).halt .actorIdMismatch :=
  ⟨rfl, by decide, rfl,
    (gameLoop_actorId_zero hoverEnv 2).2.2.2.2.1 hoverTick rfl (by decide)
      ⟨pendingRecord, rfl, by decide⟩ ⟨2, rfl, by decide⟩⟩

/-! ## Item swap -/

theorem KeepsItems_id : KeepsItems id := fun _ => ⟨rfl, rfl, rfl⟩

theorem findSlot_loop_first (v : Nat) :
    ∀ (l : List Nat) (i : Nat), v ∈ l →
      ∃ s, findSlot_loop v l i = some (i + s) ∧ l[s]? = some v ∧
        ∀ j, j < s → l[j]? ≠ some v := by
  intro l
  induction l with
  | nil => intro i h; cases h
  | cons x rest ih =>
    intro i h
    unfold findSlot_loop
    by_cases hx : v = x
    · rw [if_pos hx]
      refine ⟨0, rfl, ?_, fun j hj => absurd hj (Nat.not_lt_zero j)⟩
      rw [hx, List.getElem?_cons_zero]
    · rw [if_neg hx]
      have hrest : v ∈ rest := by
        rcases List.mem_cons.mp h with h1 | h1
        · exact absurd h1 hx
        · exact h1
      obtain ⟨s, h1, h2, h3⟩ := ih (i + 1) hrest
      refine ⟨s + 1, ?_, ?_, ?_⟩
      · rw [h1]
        congr 1
        omega
      · rw [List.getElem?_cons_succ]
        exact h2
      · intro j hj
        cases j with
        | zero =>
          intro h0
          rw [List.getElem?_cons_zero] at h0
          exact hx (Option.some.inj h0).symm
        | succ j =>
          rw [List.getElem?_cons_succ]
          exact h3 j (by omega)

theorem perm_set_swap (v h : Nat) :
    ∀ (l : List Nat) (s : Nat), l[s]? = some v → List.Perm (v :: l.set s h) (h :: l) := by
  intro l
  induction l with
  | nil => intro s hs; cases hs
  | cons x rest ih =>
    intro s hs
    cases s with
    | zero =>
      rw [List.getElem?_cons_zero] at hs
      have hx : x = v := Option.some.inj hs
      subst hx
      exact List.Perm.swap _ _ _
    | succ s =>
      rw [List.getElem?_cons_succ] at hs
      have h1 : List.Perm (v :: x :: rest.set s h) (x :: v :: rest.set s h) := List.Perm.swap _ _ _
      have h2 : List.Perm (x :: v :: rest.set s h) (x :: h :: rest) := List.Perm.cons x (ih s hs)
      exact (h1.trans h2).trans (List.Perm.swap _ _ _)

theorem primary_item_show_items (env : Env) (hu : ∀ a q, KeepsItems (env.actor_updateSequence a q))
    (u actor item : Nat) (m : Machine) :
    (endOf Loop.m (primary_item_show env u actor item m)).w.unkArray_uint16 = m.w.unkArray_uint16 ∧
    (endOf Loop.m (primary_item_show env u actor item m)).w.cursor.iniItemInHand
      = m.w.cursor.iniItemInHand ∧
    (endOf Loop.m (primary_item_show env u actor item m)).w.cursor._sequenceID
      = m.w.cursor._sequenceID := by
  unfold primary_item_show
  split
  · exact ⟨rfl, rfl, rfl⟩
  · exact hu _ _ _

theorem primary_item_show_returns (env : Env) (u actor item : Nat) (m : Machine) (ini : DragonINI)
    (h : m.w.getINI (item - 1) = some ini) :
    (primary_item_show env u actor item m).isOk = true := by
  unfold primary_item_show
  rw [h]
  rfl


theorem set_getD_self (l : List Nat) (s h v : Nat) (hs : l[s]? = some v) :
    (l.set s h).getD s 0 = h := by
  have hlt : s < l.length := by
    by_contra hc
    rw [List.getElem?_eq_none (by omega)] at hs
    cases hs
  rw [List.getD_eq_getElem?_getD, List.getElem?_set_self hlt]
  rfl

theorem primary_click_swap (env : Env) (hu : ∀ a q, KeepsItems (env.actor_updateSequence a q))
    (fuel u uVar6 : Nat) (m : Machine) (hnz : m.w.cursor._iniUnderCursor ≠ 0)
    (hpanel : m.w.cursor._iniUnderCursor &&& 0x8000 = 0)
    (hseq : m.w.cursor._sequenceID = 2 ∨ m.w.cursor._sequenceID = 4)
    (hocc : m.w.cursor._iniUnderCursor ∈ m.w.unkArray_uint16) :
    ∃ s, m.w.unkArray_uint16[s]? = some m.w.cursor._iniUnderCursor ∧
      (∀ j, j < s → m.w.unkArray_uint16[j]? ≠ some m.w.cursor._iniUnderCursor) ∧
      (endOf Loop.m (primary_click env fuel u uVar6 m)).w.unkArray_uint16
        = m.w.unkArray_uint16.set s m.w.cursor.iniItemInHand ∧
      (endOf Loop.m (primary_click env fuel u uVar6 m)).w.cursor.iniItemInHand
        = m.w.cursor._iniUnderCursor ∧
      (endOf Loop.m (primary_click env fuel u uVar6 m)).w.cursor._sequenceID = 5 ∧
      ((m.w.cursor.iniItemInHand = 0 ∨ ∃ ini, m.w.getINI (m.w.cursor.iniItemInHand - 1) = some ini) →
        (primary_click env fuel u uVar6 m).isOk = true) := by
  obtain ⟨s, hfind, hget, hfirst⟩ :=
    findSlot_loop_first m.w.cursor._iniUnderCursor m.w.unkArray_uint16 0 hocc
  rw [Nat.zero_add] at hfind
  have hE : primary_click env fuel u uVar6 m
      = if (primary_item_swap s m).w.unkArray_uint16.getD s 0 ≠ 0 then
          primary_item_show env u (s + 0x17)
            ((primary_item_swap s m).w.unkArray_uint16.getD s 0) (primary_item_swap s m)
        else .ok { actorId := u, m := primary_item_swap s m } := by
    unfold primary_click
    rw [if_neg (fun h => h hpanel), if_pos hnz]
    unfold primary_item
    rw [if_neg (fun h => by rcases hseq with h1 | h1; exact h.2 h1; exact h.1 h1), hfind]
  have hitem : (primary_item_swap s m).w.unkArray_uint16.getD s 0 = m.w.cursor.iniItemInHand :=
    set_getD_self m.w.unkArray_uint16 s _ _ hget
  refine ⟨s, hget, hfirst, ?_⟩
  rw [hE]
  by_cases hz : (primary_item_swap s m).w.unkArray_uint16.getD s 0 ≠ 0
  · rw [if_pos hz]
    have hshow := primary_item_show_items env hu u (s + 0x17)
      ((primary_item_swap s m).w.unkArray_uint16.getD s 0) (primary_item_swap s m)
    refine ⟨hshow.1, hshow.2.1, hshow.2.2, ?_⟩
    intro hrec
    rcases hrec with h0 | ⟨ini, hini⟩
    · rw [hitem] at hz
      exact absurd h0 hz
    · refine primary_item_show_returns env u _ _ _ ini ?_
      rw [hitem]
      exact hini
  · rw [if_neg hz]
    exact ⟨rfl, rfl, rfl, fun _ => rfl⟩

/-- C28. Inventory pick-up/swap conserves items.  In the Primary branch of
`gameLoop` taken on an action-button release with `ENGINE_FLAG_8` set
(`primary_click`), with a non-zero non-panel item id under the cursor that
occurs in the slot array `unkArray_uint16` and cursor sequence 2 or 4: the
first slot `s` holding that id receives the item previously in hand, the
hand receives the id under the cursor, the cursor sequence becomes 5 and
every other slot is unchanged, so the item ids of the hand and the slots
after the tick are a permutation of those before it.  This is the state the
tick ends in; the tick returns when the item previously in hand is 0 or
names a record.  `updateSequence` is taken to leave the slots, the hand and
the cursor sequence alone.  The dispatcher takes this branch in Primary mode
when no right-button release with input enabled, no latch of 3 and no
inventory-button release comes first. -/
theorem primary_swap_conserves (env : Env) (fuel uVar3 uVar6 : Nat) (m : Machine)
    (hu : ∀ a q, KeepsItems (env.actor_updateSequence a q))
    (hnz : m.w.cursor._iniUnderCursor ≠ 0)
    (hpanel : m.w.cursor._iniUnderCursor &&& 0x8000 = 0)
    (hseq : m.w.cursor._sequenceID = 2 ∨ m.w.cursor._sequenceID = 4)
    (hocc : m.w.cursor._iniUnderCursor ∈ m.w.unkArray_uint16) :
    (∃ s : Nat, m.w.unkArray_uint16[s]? = some m.w.cursor._iniUnderCursor ∧
      (∀ j : Nat, j < s → m.w.unkArray_uint16[j]? ≠ some m.w.cursor._iniUnderCursor) ∧
      (endOf Loop.m (primary_click env fuel uVar3 uVar6 m)).w.unkArray_uint16[s]?
        = some m.w.cursor.iniItemInHand ∧
      (∀ j : Nat, j ≠ s → (endOf Loop.m (primary_click env fuel uVar3 uVar6 m)).w.unkArray_uint16[j]?
        = m.w.unkArray_uint16[j]?) ∧
      (endOf Loop.m (primary_click env fuel uVar3 uVar6 m)).w.unkArray_uint16.length
        = m.w.unkArray_uint16.length ∧
      (endOf Loop.m (primary_click env fuel uVar3 uVar6 m)).w.cursor.iniItemInHand
        = m.w.cursor._iniUnderCursor ∧
      (endOf Loop.m (primary_click env fuel uVar3 uVar6 m)).w.cursor._sequenceID = 5) ∧
    List.Perm
      ((endOf Loop.m (primary_click env fuel uVar3 uVar6 m)).w.cursor.iniItemInHand ::
        (endOf Loop.m (primary_click env fuel uVar3 uVar6 m)).w.unkArray_uint16)
      (m.w.cursor.iniItemInHand :: m.w.unkArray_uint16) ∧
    ((m.w.cursor.iniItemInHand = 0 ∨ ∃ ini, m.w.getINI (m.w.cursor.iniItemInHand - 1) = some ini) →
      (primary_click env fuel uVar3 uVar6 m).isOk = true) ∧
    ((m.w._rightMouseButtonUp && m.w.isInputEnabled) = false → m.w.bit_flags_8006fbd8 ≠ 3 →
      m.w.inventory._type = 1 → m.w.checkForInventoryButtonRelease = false →
      (m.w.checkForActionButtonRelease && m.w.isFlagSet ENGINE_FLAG_8) = true →
      gameLoop_dispatch env fuel uVar3 m
        = primary_click env fuel uVar3 m.w.inventory._type (m.setCounter 0)) := by
  obtain ⟨s, hget, hfirst, hslots, hhand, hcur, hret⟩ :=
    primary_click_swap env hu fuel uVar3 uVar6 m hnz hpanel hseq hocc
  have hlt : s < m.w.unkArray_uint16.length := by
    by_contra hc
    rw [List.getElem?_eq_none (by omega)] at hget
    cases hget
  refine ⟨⟨s, hget, hfirst, ?_, ?_, ?_, hhand, hcur⟩, ?_, hret, ?_⟩
  · rw [hslots, List.getElem?_set_self hlt]
  · intro j hj
    have hne : s ≠ j := fun e => hj e.symm
    rw [hslots, List.getElem?_set_ne hne]
  · rw [hslots, List.length_set]
  · rw [hslots, hhand]
    exact perm_set_swap _ _ _ s hget
  · intro hright hlatch hprimary hkey hclick
    unfold gameLoop_dispatch
    rw [hright]
    rw [if_neg (by decide), if_neg hlatch, if_neg (fun h => h hprimary)]
    unfold gameLoop_primary
    rw [hkey, hclick]
    rfl


/-- C28 at `swapMachine` with idle collaborators: item 2 under the cursor
lies in slots 1 and 3, item 1 is in hand; the tick returns with slot 1
holding item 1, the other slots as they were, item 2 in hand and the cursor
sequence 5. -/
theorem primary_swap_conserves_witness :
    swapMachine.w.cursor._iniUnderCursor ∈ swapMachine.w.unkArray_uint16 ∧
    List.Perm
      ((endOf Loop.m (primary_click Env.idle 2 0 1 swapMachine)).w.cursor.iniItemInHand ::
        (endOf Loop.m (primary_click Env.idle 2 0 1 swapMachine)).w.unkArray_uint16)
      (swapMachine.w.cursor.iniItemInHand :: swapMachine.w.unkArray_uint16) ∧
    gameLoop_dispatch Env.idle 2 0 swapMachine
      = primary_click Env.idle 2 0 swapMachine.w.inventory._type (swapMachine.setCounter 0) ∧
    (gameLoop_dispatch Env.idle 2 0 swapMachine).isOk = true ∧
    (endOf Loop.m (gameLoop_dispatch Env.idle 2 0 swapMachine)).w.unkArray_uint16 = [3, 1, 0, 2] ∧
    (endOf Loop.m (gameLoop_dispatch Env.idle 2 0 swapMachine)).w.cursor.iniItemInHand = 2 ∧
    (endOf Loop.m (gameLoop_dispatch Env.idle 2 0 swapMachine)).w.cursor._sequenceID = 5 :=
  ⟨by decide,
    (primary_swap_conserves Env.idle 2 0 1 swapMachine (fun _ _ => KeepsItems_id) (by decide)
      (by decide) (Or.inr rfl) (by decide)).2.1,
    (primary_swap_conserves Env.idle 2 0 1 swapMachine (fun _ _ => KeepsItems_id) (by decide)
      (by decide) (Or.inr rfl) (by decide)).2.2.2 (by decide) (by decide) rfl rfl (by decide),
    by decide, by decide, by decide, by decide⟩

/-! ## Committed body -/

/-- C20 as stated fails: in `latchMachine` object 1 (buffer 100) is queued and
the first probe starts at cursor 108; the probe of `movingProbeEnv` answers 1
and leaves the cursor at 128, and the body the run commits starts at 136,
not at 116 = 108 + 8. -/
theorem committed_body_follows_moved_cursor :
    latchMachine.w.cursor.data_80072890 = 1 ∧ movingProbeEnv.getFromOpt (1 - 1) = 100 ∧
    (scriptOpCallAt movingProbeEnv 100)._code = some 108 ∧
    (works_with_obd_data_1 movingProbeEnv latchMachine).isOk = true ∧
    (endOf id (works_with_obd_data_1 movingProbeEnv latchMachine)).log
      = [Call.works_with_obd_data_1,
          Call.cursor_executeScript (scriptOpCallAt movingProbeEnv 100) 1,
          Call.scriptOpcodes_runScript
            { _code := some 136, _codeEnd := some (136 + READ_LE_UINT16 movingProbeEnv 134),
              _result := 0 }] := by
  decide


/-- C20 (amended). Committed-body selection in `works_with_obd_data_1`
started in `m` with a queued object.  The first probe is called with the
start cursor 8 bytes into the buffer and leaves the cursor `c48` in its
context, the second probe leaves `c38`; r1 and r2 are the low 16 bits of the
probe results, and r2 is 0 when the second probe is skipped.  The run goes
on with the commit of the selected body: none, and nothing is run, if and
only if r1 = 0 and r2 = 0; the body of the second probe exactly when r2 ≠ 0
and (r1 = 0 or (r1 & 2 ≠ 0 and r2 & 2 = 0)), otherwise the body of the first
probe; the body of a probe spans [c + 8, c + 8 + len) with `c` the cursor the
probe left and `len` the little-endian 16-bit field at `c + 6`, which is the
start cursor of the probe when the probe left the cursor there; and the body
runs by `runScript` in the world with `ENGINE_FLAG_8` cleared. -/
theorem works_with_obd_data_1_committed_body (env : Env) (m : Machine) (c48 c38 : Nat)
    (hq : m.w.cursor.data_80072890 > 0)
    (h48 : (firstProbeOf env m).2.1._code = some c48)
    (h38 : (secondProbeOf env m).1 &&& 0xffff ≠ 0 → (secondProbeOf env m).2.1._code = some c38) :
    works_with_obd_data_1 env m
      = works_with_obd_data_1_finish env m.w._flags ((firstProbeOf env m).1 &&& 0xfffd)
          (secondProbeOf env m).1
          (env.getFromOpt ((m.w.cursor.data_80072890 : Int) - 1) + 8)
          (env.getFromOpt ((m.w.cursor.data_80072890 : Int) - 1) + 8
            + READ_LE_UINT32 env (env.getFromOpt ((m.w.cursor.data_80072890 : Int) - 1)))
          (works_commit env (selectedBodyOf env m) (secondProbeOf env m).2.2).1
          (works_commit env (selectedBodyOf env m) (secondProbeOf env m).2.2).2 ∧
    ((firstProbeOf env m).1, (firstProbeOf env m).2.1)
      = ((env.cursor_executeScript
            (scriptOpCallAt env (env.getFromOpt ((m.w.cursor.data_80072890 : Int) - 1))) 1
            (works_enter m).w).1,
          (env.cursor_executeScript
            (scriptOpCallAt env (env.getFromOpt ((m.w.cursor.data_80072890 : Int) - 1))) 1
            (works_enter m).w).2.1) ∧
    (scriptOpCallAt env (env.getFromOpt ((m.w.cursor.data_80072890 : Int) - 1)))._code
      = some (env.getFromOpt ((m.w.cursor.data_80072890 : Int) - 1) + 8) ∧
    (¬ (firstProbeOf env m).2.2.w.cursor.data_800728b0_cursor_seqID > 4 →
      (secondProbeOf env m).1 = 0) ∧
    (((firstProbeOf env m).1 &&& 0xffff = 0 ∧ (secondProbeOf env m).1 &&& 0xffff = 0) →
      selectedBodyOf env m = { _code := none, _codeEnd := none, _result := 0 } ∧
      works_commit env (selectedBodyOf env m) (secondProbeOf env m).2.2
        = (selectedBodyOf env m, (secondProbeOf env m).2.2)) ∧
    (((firstProbeOf env m).1 &&& 0xffff ≠ 0 ∨ (secondProbeOf env m).1 &&& 0xffff ≠ 0) →
      works_commit env (selectedBodyOf env m) (secondProbeOf env m).2.2
        = ((env.scriptOpcodes_runScript (selectedBodyOf env m)
              ((secondProbeOf env m).2.2.w.clearFlags ENGINE_FLAG_8)).1,
            { w := (env.scriptOpcodes_runScript (selectedBodyOf env m)
                ((secondProbeOf env m).2.2.w.clearFlags ENGINE_FLAG_8)).2
              log := (secondProbeOf env m).2.2.log
                ++ [Call.scriptOpcodes_runScript (selectedBodyOf env m)] }) ∧
      ((secondProbeOf env m).2.2.w.clearFlags ENGINE_FLAG_8).isFlagSet ENGINE_FLAG_8 = false) ∧
    (((secondProbeOf env m).1 &&& 0xffff ≠ 0 ∧ ((firstProbeOf env m).1 &&& 0xffff = 0
        ∨ (((firstProbeOf env m).1 &&& 0xffff) &&& 2 ≠ 0
          ∧ ((secondProbeOf env m).1 &&& 0xffff) &&& 2 = 0))) →
      selectedBodyOf env m
        = { _code := some (c38 + 8)
            _codeEnd := some (c38 + 8 + READ_LE_UINT16 env (c38 + 6))
            _result := 0 }) ∧
    (((firstProbeOf env m).1 &&& 0xffff ≠ 0 ∧
        ¬ ((secondProbeOf env m).1 &&& 0xffff ≠ 0 ∧ ((firstProbeOf env m).1 &&& 0xffff = 0
          ∨ (((firstProbeOf env m).1 &&& 0xffff) &&& 2 ≠ 0
            ∧ ((secondProbeOf env m).1 &&& 0xffff) &&& 2 = 0)))) →
      selectedBodyOf env m
        = { _code := some (c48 + 8)
            _codeEnd := some (c48 + 8 + READ_LE_UINT16 env (c48 + 6))
            _result := 0 }) := by
  have hsel := works_selectBody_cases env (firstProbeOf env m).1 (secondProbeOf env m).1
    (firstProbeOf env m).2.1 (secondProbeOf env m).2.1 c48 c38 (secondProbeOf env m).2.2 h48 h38
  refine ⟨?_, rfl, rfl, ?_, hsel.1, hsel.2.1, hsel.2.2.1, hsel.2.2.2⟩
  · unfold works_with_obd_data_1
    have hq1 : ¬ ¬ (works_enter m).w.cursor.data_80072890 > 0 := not_not.mpr hq
    rw [if_neg hq1]
    rfl
  · intro hskip
    unfold secondProbeOf works_secondProbe
    rw [if_neg hskip]

/-- C20 (amended) at `itemUseMachine` with the probes of `tableEnv`, which
answer 1 and leave the cursor where it started, at 108: the run returns, and
the body of the first probe, [116, 116 + len) with `len` the 16-bit field at
114, is the one run. -/
theorem works_with_obd_data_1_committed_body_witness :
    itemUseMachine.w.cursor.data_80072890 > 0 ∧
    (firstProbeOf tableEnv itemUseMachine).2.1._code = some 108 ∧
    (firstProbeOf tableEnv itemUseMachine).1 = 1 ∧ (secondProbeOf tableEnv itemUseMachine).1 = 1 ∧
    selectedBodyOf tableEnv itemUseMachine
      = { _code := some (108 + 8)
          _codeEnd := some (108 + 8 + READ_LE_UINT16 tableEnv (108 + 6))
          _result := 0 } ∧
    (works_with_obd_data_1 tableEnv itemUseMachine).isOk = true ∧
    Call.scriptOpcodes_runScript
        { _code := some 116, _codeEnd := some (116 + READ_LE_UINT16 tableEnv 114), _result := 0 }
      ∈ (endOf id (works_with_obd_data_1 tableEnv itemUseMachine)).log :=
  ⟨by decide, rfl, rfl, rfl,
    (works_with_obd_data_1_committed_body tableEnv itemUseMachine 108 108 (by decide) rfl
      (fun _ => rfl)).2.2.2.2.2.2.2 (by decide),
    by decide, by decide⟩

/-! ## Second probe against the specification -/

/-- C19 (code bug): on `itemUseMachine`, where object 1 (buffer 100) is
queued and `_data_800728c0` holds object 2 (buffer 200) at entry, the second
probe of the code runs the program at buffer 100 again, and the second probe
of the specification runs the program at buffer 200; both write the entry
value 2 back to `_data_800728c0`. -/
theorem second_probe_diverges_from_spec :
    itemUseMachine.w.cursor.data_80072890 = 1 ∧
    itemUseMachine.w.scriptOpcodes._data_800728c0 = 2 ∧
    (works_secondProbe tableEnv 2 (probedMachine tableEnv itemUseMachine)).2.2.log
      = [Call.works_with_obd_data_1,
          Call.cursor_executeScript (scriptOpCallAt tableEnv 100) 1,
          Call.cursor_executeScript (scriptOpCallAt tableEnv 100) 1] ∧
    (works_secondProbe_spec tableEnv 2 (probedMachine tableEnv itemUseMachine)).2.2.log
      = [Call.works_with_obd_data_1,
          Call.cursor_executeScript (scriptOpCallAt tableEnv 100) 1,
          Call.cursor_executeScript (scriptOpCallAt tableEnv 200) 1] ∧
    (works_secondProbe tableEnv 2
      (probedMachine tableEnv itemUseMachine)).2.2.w.scriptOpcodes._data_800728c0 = 2 ∧
    (works_secondProbe_spec tableEnv 2
      (probedMachine tableEnv itemUseMachine)).2.2.w.scriptOpcodes._data_800728c0 = 2 := by
  decide

end Dragons
